import Mathlib

/-! Wallet gateway: tool-name resolution, token resolution, parameter
normalisation and dispatch.

A shallow embedding of the pure logic of `bhindi0xgasless/server.js` and
`bhindi0xgasless/demo.js`.

JavaScript values are embedded as the inductive type `JSVal`.  Strings are
Lean strings (sequences of Unicode scalar values; lone surrogates are not
represented), numbers are IEEE 754 doubles (`JSNumber`, with the integers
written as `Int`), objects are association lists of own properties in
insertion order, and members that a plain object inherits from
`Object.prototype` are the `builtin` values.  Thrown errors are `Except.error`
carrying the `message` of the error.
-/

namespace Gasless

/-! ## Numbers -/

/-- A Number value, an IEEE 754 double: `NaN`, an infinity, or the finite value
`± m × 2^e` (zero has `m = 0`).  The values that the functions below build have
`2^52 ≤ m < 2^53` and `-1074 ≤ e ≤ 971`, or `m < 2^52` and `e = -1074`, or
`m = 0` and `e = 0`. -/
inductive JSNumber where
  | nan : JSNumber
  | inf (negative : Bool) : JSNumber
  | fin (negative : Bool) (m : Nat) (e : Int) : JSNumber
deriving DecidableEq

/-- The integer nearest to `num / den`, a tie going to the even one. -/
def roundHalfEven (num den : Nat) : Nat :=
  let q := num / den
  let r := num % den
  if 2 * r < den then q
  else if den < 2 * r then q + 1
  else if q % 2 = 0 then q else q + 1

/-- The number of binary digits of `n`, by halving at most `fuel` times. -/
def bitLengthAux : Nat → Nat → Nat
  | 0, _ => 0
  | fuel + 1, n => if n = 0 then 0 else bitLengthAux fuel (n / 2) + 1

/-- The number of binary digits of `n`. -/
def bitLength (n : Nat) : Nat := bitLengthAux n n

/-- The integer `l` with `2^l ≤ num / den < 2^(l+1)`, for positive `num` and
`den`. -/
def floorLog2 (num den : Nat) : Int :=
  let a := bitLength num
  let b := bitLength den
  if b ≤ a then
    if den * 2 ^ (a - b) ≤ num then ((a - b : Nat) : Int) else ((a - b : Nat) : Int) - 1
  else
    if den ≤ num * 2 ^ (b - a) then -((b - a : Nat) : Int) else -((b - a : Nat) : Int) - 1

/-- The Number value for the rational `± num / den`: the nearest double, a tie
going to the even significand, with gradual underflow and overflow to
infinity. -/
def JSNumber.ofRatio (negative : Bool) (num den : Nat) : JSNumber :=
  if num = 0 ∨ den = 0 then JSNumber.fin negative 0 0
  else
    let e : Int := max (floorLog2 num den - 52) (-1074)
    let m := if 0 ≤ e then roundHalfEven num (den * 2 ^ e.toNat)
             else roundHalfEven (num * 2 ^ (-e).toNat) den
    if m = 0 then JSNumber.fin negative 0 0
    else if m = 2 ^ 53 then
      if 971 < e + 1 then JSNumber.inf negative else JSNumber.fin negative (2 ^ 52) (e + 1)
    else if 971 < e then JSNumber.inf negative
    else JSNumber.fin negative m e

/-- The Number value for `± digits × 10^exp10`, where `digits` has `count`
decimal digits.  From `10^310` on the value is infinite and below `10^-330` it
is zero, whatever the digits. -/
def JSNumber.ofDecimal (negative : Bool) (digits count : Nat) (exp10 : Int) : JSNumber :=
  if digits = 0 then JSNumber.fin negative 0 0
  else if 310 < (count : Int) + exp10 then JSNumber.inf negative
  else if (count : Int) + exp10 < -330 then JSNumber.fin negative 0 0
  else if 0 ≤ exp10 then JSNumber.ofRatio negative (digits * 10 ^ exp10.toNat) 1
  else JSNumber.ofRatio negative digits (10 ^ (-exp10).toNat)

/-- The Number value for an integer. -/
def JSNumber.ofInt (n : Int) : JSNumber := JSNumber.ofRatio (decide (n < 0)) n.natAbs 1

/-- The test `isNaN(x)`. -/
def JSNumber.isNaN : JSNumber → Bool
  | JSNumber.nan => true
  | _ => false

/-- Whether `x` is `+0` or `-0`. -/
def JSNumber.isZero : JSNumber → Bool
  | JSNumber.fin _ m _ => m == 0
  | _ => false

/-- The comparison `x <= 0`. -/
def JSNumber.leZero : JSNumber → Bool
  | JSNumber.nan => false
  | JSNumber.inf negative => negative
  | JSNumber.fin negative m _ => negative || m == 0

/-- The comparison `x === n` with an integer `n`. -/
def JSNumber.eqInt (x : JSNumber) (n : Int) : Bool :=
  match x with
  | JSNumber.fin negative m e =>
    let signed : Int := if negative then -(m : Int) else (m : Int)
    if 0 ≤ e then signed * 2 ^ e.toNat == n else signed == n * 2 ^ (-e).toNat
  | _ => false

/-- The test `vn / vd ≥ 10^n`. -/
def geTenPow (vn vd : Nat) (n : Int) : Bool :=
  if 0 ≤ n then decide (vd * 10 ^ n.toNat ≤ vn) else decide (vd ≤ vn * 10 ^ (-n).toNat)

/-- Raises `n` while `vn / vd ≥ 10^n`. -/
def raiseExponent (vn vd : Nat) : Nat → Int → Int
  | 0, n => n
  | fuel + 1, n => if geTenPow vn vd n then raiseExponent vn vd fuel (n + 1) else n

/-- Lowers `n` while `vn / vd < 10^(n-1)`. -/
def lowerExponent (vn vd : Nat) : Nat → Int → Int
  | 0, n => n
  | fuel + 1, n => if geTenPow vn vd (n - 1) then n else lowerExponent vn vd fuel (n - 1)

/-- The integer `n` with `10^(n-1) ≤ vn / vd < 10^n`, for a positive double
`vn / vd`; the search starts from the estimate that the binary exponent
gives. -/
def decimalExponent (vn vd : Nat) : Int :=
  let estimate := floorLog2 vn vd * 30103 / 100000
  lowerExponent vn vd 700 (raiseExponent vn vd 700 estimate)

/-- The Number value for `s × 10^t`. -/
def scaledValue (s : Nat) (t : Int) : JSNumber :=
  if 0 ≤ t then JSNumber.ofRatio false (s * 10 ^ t.toNat) 1
  else JSNumber.ofRatio false s (10 ^ (-t).toNat)

/-- The digits of `Number::toString`: the least `k`, from the given one on, and
the integer `s` of `k` digits such that `s × 10^(n-k)` has the Number value
`v = vn / vd`; of two such `s` the one nearer to `v`, and the even one when they
are equally near.  The result is `s`, `k` and the exponent `n`, which is one
more when `s` rounds up to `10^k`.  Seventeen digits always suffice. -/
def shortestDigits (v : JSNumber) (vn vd : Nat) (n : Int) : Nat → Nat → Nat × Nat × Int
  | 0, k => (vn / vd, k, n)
  | fuel + 1, k =>
    let t : Int := (k : Int) - n
    let sn := if 0 ≤ t then vn * 10 ^ t.toNat else vn
    let sd := if 0 ≤ t then vd else vd * 10 ^ (-t).toNat
    let lo := sn / sd
    let r := sn % sd
    let hi := lo + 1
    let validLo := decide (scaledValue lo (-t) = v)
    let validHi := decide (scaledValue hi (-t) = v)
    let pick (s : Nat) : Nat × Nat × Int :=
      if s = 10 ^ k then (10 ^ (k - 1), k, n + 1) else (s, k, n)
    if r = 0 then pick lo
    else if validLo && validHi then
      if 2 * r < sd then pick lo
      else if sd < 2 * r then pick hi
      else if lo % 2 = 0 then pick lo else pick hi
    else if validLo then pick lo
    else if validHi then pick hi
    else shortestDigits v vn vd n fuel (k + 1)

/-- A run of `count` zeros. -/
def zeros (count : Nat) : String := ⟨List.replicate count '0'⟩

/-- The text of `Number::toString` for the digits `s` (there are `k`) and the
exponent `n`. -/
def formatDigits (s k : Nat) (n : Int) : String :=
  let digits := (toString s).data
  if (k : Int) ≤ n ∧ n ≤ 21 then toString s ++ zeros (n.toNat - k)
  else if 0 < n ∧ n ≤ 21 then
    String.mk (digits.take n.toNat) ++ "." ++ String.mk (digits.drop n.toNat)
  else if -6 < n ∧ n ≤ 0 then "0." ++ zeros (-n).toNat ++ toString s
  else
    let e := n - 1
    let exponent := (if 0 ≤ e then "+" else "-") ++ toString e.natAbs
    if k = 1 then toString s ++ "e" ++ exponent
    else String.mk (digits.take 1) ++ "." ++ String.mk (digits.drop 1) ++ "e" ++ exponent

/-- The method `Number.prototype.toString` with radix 10. -/
def JSNumber.toString : JSNumber → String
  | JSNumber.nan => "NaN"
  | JSNumber.inf negative => if negative then "-Infinity" else "Infinity"
  | JSNumber.fin negative m e =>
    if m = 0 then "0"
    else
      let vn := if 0 ≤ e then m * 2 ^ e.toNat else m
      let vd := if 0 ≤ e then 1 else 2 ^ (-e).toNat
      match JSNumber.ofRatio false vn vd with
      | JSNumber.fin _ m1 e1 =>
        let wn := if 0 ≤ e1 then m1 * 2 ^ e1.toNat else m1
        let wd := if 0 ≤ e1 then 1 else 2 ^ (-e1).toNat
        let (s, k, n) :=
          shortestDigits (JSNumber.fin false m1 e1) wn wd (decimalExponent wn wd) 17 1
        (if negative then "-" else "") ++ formatDigits s k n
      | _ => if negative then "-Infinity" else "Infinity"

/-! ## JavaScript values -/

/-- A JavaScript value as it can reach the gateway: JSON data, `undefined`,
and the built-in members a property read can pick up from a prototype.  A
number that is an integer below `2^53` in size is `num n`; `number x` carries
the other Number values: the fractions, `NaN`, the infinities and `-0`.  For a
larger `n`, `num n` stands for the double nearest to `n`. -/
inductive JSVal where
  | undefined : JSVal
  | null : JSVal
  | bool (b : Bool) : JSVal
  | num (n : Int) : JSVal
  | number (x : JSNumber) : JSVal
  | str (s : String) : JSVal
  | arr (items : List JSVal) : JSVal
  | obj (fields : List (String × JSVal)) : JSVal
  | builtin (name : String) : JSVal

namespace JSVal

/-- JavaScript truthiness (`!v` is the negation of this). -/
def truthy : JSVal → Bool
  | undefined => false
  | null => false
  | bool b => b
  | num n => n != 0
  | number x => !x.isNaN && !x.isZero
  | str s => s != ""
  | arr _ => true
  | obj _ => true
  | builtin _ => true

/-- The `typeof` operator. -/
def typeof : JSVal → String
  | undefined => "undefined"
  | null => "object"
  | bool _ => "boolean"
  | num _ => "number"
  | number _ => "number"
  | str _ => "string"
  | arr _ => "object"
  | obj _ => "object"
  | builtin name => if name = "Object.prototype" then "object" else "function"

end JSVal

/-- First own property named `key` of a property list. -/
def ownGet : List (String × JSVal) → String → Option JSVal
  | [], _ => none
  | (k, v) :: rest, key => if k = key then some v else ownGet rest key

/-- Names of the members every plain object inherits from `Object.prototype`. -/
def objectPrototypeKeys : List String :=
  ["constructor", "__defineGetter__", "__defineSetter__", "hasOwnProperty",
   "__lookupGetter__", "__lookupSetter__", "isPrototypeOf", "propertyIsEnumerable",
   "toString", "valueOf", "toLocaleString"]

/-- Property read on `Object.prototype` itself. -/
def protoGet (key : String) : JSVal :=
  if key = "__proto__" then JSVal.builtin "Object.prototype"
  else if key = "constructor" then JSVal.builtin "Object"
  else if objectPrototypeKeys.contains key then JSVal.builtin ("Object.prototype." ++ key)
  else JSVal.undefined

/-- Property read `o[key]` on a plain object with the given own properties:
an own property wins, otherwise the read falls through to `Object.prototype`. -/
def objGet (fields : List (String × JSVal)) (key : String) : JSVal :=
  match ownGet fields key with
  | some v => v
  | none => protoGet key

/-- Property read `v.key` where `v` is known to be an object (or an array, whose
named members other than indices and `length` are not modelled). -/
def JSVal.get (v : JSVal) (key : String) : JSVal :=
  match v with
  | JSVal.obj fields => objGet fields key
  | _ => JSVal.undefined

/-- The operator `a || b` on values. -/
def jsOr (a b : JSVal) : JSVal := if a.truthy then a else b

/-! ## Strings -/

/-- The characters of `[a-fA-F0-9]`. -/
def isHexDigit (c : Char) : Bool :=
  let n := c.toNat
  (48 ≤ n && n ≤ 57) || (97 ≤ n && n ≤ 102) || (65 ≤ n && n ≤ 70)

/-- ECMAScript `WhiteSpace` and `LineTerminator` code points, the ones
`String.prototype.trim` strips. -/
def isJSWhiteSpace (c : Char) : Bool :=
  let n := c.toNat
  n == 9 || n == 10 || n == 11 || n == 12 || n == 13 || n == 32 || n == 160 ||
  n == 5760 || (8192 ≤ n && n ≤ 8202) || n == 8232 || n == 8233 || n == 8239 ||
  n == 8287 || n == 12288 || n == 65279

/-- Lower-casing of one code point, exact on every code point whose lower-case
form contains an ASCII character: `A`-`Z`, the Kelvin sign (to `k`) and the
dotted capital I (to `i` followed by a combining dot).  Every other code point
lower-cases to non-ASCII text and is kept as it is, which leaves all comparisons
against ASCII literals unchanged. -/
def jsLowerChar (c : Char) : List Char :=
  let n := c.toNat
  if 65 ≤ n ∧ n ≤ 90 then [Char.ofNat (n + 32)]
  else if n = 8490 then ['k']
  else if n = 304 then ['i', Char.ofNat 775]
  else [c]

/-- Lower-casing of a character sequence. -/
def lowerChars : List Char → List Char
  | [] => []
  | c :: cs => jsLowerChar c ++ lowerChars cs

/-- Model of `String.prototype.toLowerCase`. -/
def jsToLowerCase (s : String) : String := ⟨lowerChars s.data⟩

/-- Removal of trailing white space. -/
def trimEndChars : List Char → List Char
  | [] => []
  | c :: cs =>
    match trimEndChars cs with
    | [] => if isJSWhiteSpace c then [] else [c]
    | r :: rs => c :: r :: rs

/-- Removal of leading white space. -/
def trimStartChars : List Char → List Char
  | [] => []
  | c :: cs => if isJSWhiteSpace c then trimStartChars cs else c :: cs

/-- Model of `String.prototype.trim`. -/
def jsTrim (s : String) : String := ⟨trimStartChars (trimEndChars s.data)⟩

/-- Whether `pat` occurs in `cs` as a contiguous block. -/
def containsChars (pat : List Char) : List Char → Bool
  | [] => pat.isEmpty
  | c :: cs => pat.isPrefixOf (c :: cs) || containsChars pat cs

/-- Model of `String.prototype.includes`. -/
def jsIncludes (s pat : String) : Bool := containsChars pat.data s.data

/-- Model of `String.prototype.startsWith`. -/
def jsStartsWith (s pat : String) : Bool := pat.data.isPrefixOf s.data

/-- The test `/^0x[a-fA-F0-9]{40}$/` on a character sequence. -/
def isAddressChars : List Char → Bool
  | '0' :: 'x' :: rest => rest.length == 40 && rest.all isHexDigit
  | _ => false

/-- The test `/^0x[a-fA-F0-9]{40}$/.test(s)`. -/
def isAddress (s : String) : Bool := isAddressChars s.data

/-- The characters of `[0-9]`. -/
def isDecimalDigit (c : Char) : Bool := 48 ≤ c.toNat && c.toNat ≤ 57

/-- The value of a run of decimal digits. -/
def digitsValue (digits : List Char) : Nat :=
  digits.foldl (fun acc c => acc * 10 + (c.toNat - 48)) 0

/-- The value of the exponent part `[eE][+-]?[0-9]+` at the head of `chars`;
zero when there is none. -/
def exponentPart (chars : List Char) : Int :=
  match chars with
  | c :: rest =>
    if c = 'e' ∨ c = 'E' then
      match rest with
      | '+' :: more => (digitsValue (more.takeWhile isDecimalDigit) : Int)
      | '-' :: more => -(digitsValue (more.takeWhile isDecimalDigit) : Int)
      | more => (digitsValue (more.takeWhile isDecimalDigit) : Int)
    else 0
  | [] => 0

/-- The Number value of the longest prefix of `chars` that is an unsigned
`StrDecimalLiteral` (`Infinity`, or digits with an optional fraction and an
optional exponent part); `NaN` when no prefix is one. -/
def parseUnsigned (negative : Bool) (chars : List Char) : JSNumber :=
  if "Infinity".data.isPrefixOf chars then JSNumber.inf negative
  else
    let whole := chars.takeWhile isDecimalDigit
    let afterWhole := chars.dropWhile isDecimalDigit
    match afterWhole with
    | '.' :: rest =>
      let fraction := rest.takeWhile isDecimalDigit
      let afterFraction := rest.dropWhile isDecimalDigit
      if whole.isEmpty && fraction.isEmpty then JSNumber.nan
      else
        let digits := (whole ++ fraction).dropWhile (fun c => c == '0')
        JSNumber.ofDecimal negative (digitsValue digits) digits.length
          (exponentPart afterFraction - (fraction.length : Int))
    | _ =>
      if whole.isEmpty then JSNumber.nan
      else
        let digits := whole.dropWhile (fun c => c == '0')
        JSNumber.ofDecimal negative (digitsValue digits) digits.length (exponentPart afterWhole)

/-- The function `parseFloat` on a string: leading white space is skipped, then
the longest prefix that is a `StrDecimalLiteral` is converted, with correct
rounding. -/
def parseFloat (text : String) : JSNumber :=
  match text.data.dropWhile isJSWhiteSpace with
  | '+' :: rest => parseUnsigned false rest
  | '-' :: rest => parseUnsigned true rest
  | chars => parseUnsigned false chars

/-! ## The tool registry -/

/-- One entry of `TOOLS_SCHEMA`.  The JSON parameter schema of a tool is
descriptive data served to clients; of it the names of the declared and of the
required parameters are kept. -/
structure Tool where
  name : String
  displayName : String
  category : String
  type : String
  requiresConfirmation : Bool
  properties : List String
  required : List String
  agentkitAction : String
  aliases : List String

/-- Model of `TOOLS_SCHEMA.find(tool => tool.name === requestedName)`. -/
def findTool (schema : List Tool) (requestedName : String) : Option Tool :=
  schema.find? (fun tool => tool.name == requestedName)

/-- The loop `for (const tool of TOOLS_SCHEMA) if (tool.aliases.includes(requestedName)) return tool.name`. -/
def findAlias : List Tool → String → Option String
  | [], _ => none
  | tool :: rest, requestedName =>
    if tool.aliases.contains requestedName then some tool.name else findAlias rest requestedName

namespace Server

/-- The registry `TOOLS_SCHEMA` of `server.js`. -/
def TOOLS_SCHEMA : List Tool :=
  [ { name := "getWalletAddress", displayName := "Get Wallet Address", category := "wallet",
      type := "query", requiresConfirmation := false, properties := [], required := [],
      agentkitAction := "get_address",
      aliases := ["getSmartAccountAddress", "getUserAccount", "getAccount", "getWallet",
                  "getAddress", "myAddress", "walletAddress", "smartAccount"] },
    { name := "getWalletBalance", displayName := "Get Wallet Balance", category := "wallet",
      type := "query", requiresConfirmation := false, properties := ["tokenAddress"],
      required := [], agentkitAction := "get_balance",
      aliases := ["getBalance", "checkBalance", "myBalance", "balance", "getTokenBalance",
                  "showBalance"] },
    { name := "transferTokens", displayName := "Transfer Tokens", category := "defi",
      type := "action", requiresConfirmation := true,
      properties := ["to", "tokenAddress", "amount"],
      required := ["to", "tokenAddress", "amount"], agentkitAction := "smart_transfer",
      aliases := ["sendTokens", "send", "transfer", "sendMoney", "pay", "transferTo"] },
    { name := "swapTokens", displayName := "Swap Tokens", category := "defi",
      type := "action", requiresConfirmation := true,
      properties := ["fromToken", "toToken", "amount", "slippage"],
      required := ["fromToken", "toToken", "amount"], agentkitAction := "smart_swap",
      aliases := ["swap", "exchange", "trade", "convert", "swapFor"] },
    { name := "bridgeTokens", displayName := "Bridge Tokens", category := "defi",
      type := "action", requiresConfirmation := true,
      properties := ["fromChainId", "toChainId", "tokenInAddress", "tokenOutAddress", "amount",
                     "recipientAddress"],
      required := ["fromChainId", "toChainId", "tokenInAddress", "tokenOutAddress", "amount"],
      agentkitAction := "smart_bridge",
      aliases := ["bridge", "crossChain", "moveTokens", "bridgeTo"] },
    { name := "queryBlockchainData", displayName := "Query Blockchain Data",
      category := "analytics", type := "query", requiresConfirmation := false,
      properties := ["query"], required := ["query"], agentkitAction := "execute_sxt_sql",
      aliases := ["query", "sql", "analytics", "data", "sqlQuery", "blockchain_query",
                  "sxt_query"] } ]

/-- The function `resolveToolName` of `server.js`: exact name, then alias, else
the requested name itself. -/
def resolveToolName (requestedName : String) : String :=
  match findTool TOOLS_SCHEMA requestedName with
  | some exactMatch => exactMatch.name
  | none =>
    match findAlias TOOLS_SCHEMA requestedName with
    | some name => name
    | none => requestedName

end Server

namespace Demo

/-- The registry `TOOLS_SCHEMA` of `demo.js`. -/
def TOOLS_SCHEMA : List Tool :=
  [ { name := "getWalletAddress", displayName := "Get Wallet Address", category := "wallet",
      type := "query", requiresConfirmation := false, properties := [], required := [],
      agentkitAction := "get_address",
      aliases := ["getSmartAccountAddress", "getUserAccount", "getAccount", "getWallet",
                  "getAddress", "myAddress", "walletAddress", "smartAccount"] },
    { name := "getWalletBalance", displayName := "Get Wallet Balance", category := "wallet",
      type := "query", requiresConfirmation := false, properties := ["tokenAddress"],
      required := [], agentkitAction := "get_balance",
      aliases := ["getBalance", "checkBalance", "myBalance", "balance", "getTokenBalance",
                  "showBalance"] },
    { name := "transferTokens", displayName := "Transfer Tokens", category := "defi",
      type := "action", requiresConfirmation := true,
      properties := ["to", "tokenAddress", "amount"],
      required := ["to", "tokenAddress", "amount"], agentkitAction := "smart_transfer",
      aliases := ["sendTokens", "send", "transfer", "sendMoney", "pay", "transferTo"] },
    { name := "swapTokens", displayName := "Swap Tokens", category := "defi",
      type := "action", requiresConfirmation := true,
      properties := ["fromToken", "toToken", "amount", "slippage"],
      required := ["fromToken", "toToken", "amount"], agentkitAction := "smart_swap",
      aliases := ["swap", "exchange", "trade", "convert", "swapFor"] },
    { name := "bridgeTokens", displayName := "Bridge Tokens", category := "defi",
      type := "action", requiresConfirmation := true,
      properties := ["fromChainId", "toChainId", "tokenInAddress", "tokenOutAddress", "amount",
                     "recipientAddress"],
      required := ["fromChainId", "toChainId", "tokenInAddress", "tokenOutAddress", "amount"],
      agentkitAction := "smart_bridge",
      aliases := ["bridge", "crossChain", "moveTokens", "bridgeTo"] },
    { name := "queryBlockchainData", displayName := "Query Blockchain Data",
      category := "analytics", type := "query", requiresConfirmation := false,
      properties := ["query"], required := ["query"], agentkitAction := "execute_sxt_sql",
      aliases := ["query", "sql", "analytics", "data", "sqlQuery"] } ]

/-- The table `fuzzyMatches` of `resolveToolName`, in insertion order (the order
in which `Object.entries` lists it). -/
def fuzzyMatches : List (String × String) :=
  [("address", "getWalletAddress"), ("wallet", "getWalletAddress"),
   ("account", "getWalletAddress"), ("balance", "getWalletBalance"),
   ("send", "transferTokens"), ("transfer", "transferTokens"),
   ("swap", "swapTokens"), ("trade", "swapTokens"),
   ("bridge", "bridgeTokens"), ("query", "queryBlockchainData")]

/-- The loop over `Object.entries(fuzzyMatches)`: the tool of the first keyword
contained in `lowerName`. -/
def findFuzzy : List (String × String) → String → Option String
  | [], _ => none
  | (key, toolName) :: rest, lowerName =>
    if jsIncludes lowerName key then some toolName else findFuzzy rest lowerName

/-- The function `resolveToolName` of `demo.js`: exact name, then alias, then the
keyword table, else the requested name itself. -/
def resolveToolName (requestedName : String) : String :=
  match findTool TOOLS_SCHEMA requestedName with
  | some exactMatch => exactMatch.name
  | none =>
    match findAlias TOOLS_SCHEMA requestedName with
    | some name => name
    | none =>
      match findFuzzy fuzzyMatches (jsToLowerCase requestedName) with
      | some toolName => toolName
      | none => requestedName

end Demo

/-! ## String conversion of values -/

/-- The string form of the Number value for an integer.  Below `2^53` every
integer is a Number value and its shortest digit string is its decimal form. -/
def numToString (n : Int) : String :=
  if n.natAbs < 2 ^ 53 then toString n else (JSNumber.ofInt n).toString

mutual
/-- The abstract operation `ToString` behind `String(v)` and template literals.
An object whose own property `toString` shadows the inherited method (own
properties are data, never callable) cannot be converted. -/
def JSVal.toStr : JSVal → Except String String
  | JSVal.undefined => .ok "undefined"
  | JSVal.null => .ok "null"
  | JSVal.bool b => .ok (if b then "true" else "false")
  | JSVal.num n => .ok (numToString n)
  | JSVal.number x => .ok x.toString
  | JSVal.str s => .ok s
  | JSVal.arr items => joinItems items
  | JSVal.obj fields =>
    match ownGet fields "toString" with
    | none => .ok "[object Object]"
    | some _ => .error "Cannot convert object to primitive value"
  | JSVal.builtin name =>
    if name = "Object.prototype" then .ok "[object Object]"
    else .ok ("function " ++ name ++ "() \x7b [native code] \x7d")
/-- The method `Array.prototype.join` with the default separator: `undefined`
and `null` items give the empty string. -/
def joinItems : List JSVal → Except String String
  | [] => .ok ""
  | JSVal.undefined :: rest => joinRest "" rest
  | JSVal.null :: rest => joinRest "" rest
  | item :: rest =>
    match JSVal.toStr item with
    | .error e => .error e
    | .ok s => joinRest s rest
/-- The items after the first one, each preceded by a comma. -/
def joinRest (acc : String) : List JSVal → Except String String
  | [] => .ok acc
  | JSVal.undefined :: rest => joinRest (acc ++ ",") rest
  | JSVal.null :: rest => joinRest (acc ++ ",") rest
  | item :: rest =>
    match JSVal.toStr item with
    | .error e => .error e
    | .ok s => joinRest (acc ++ "," ++ s) rest
end

/-- The method call `v.toString()` on a truthy value, where `expr` is the source
text of `v` (it appears in the message of the `TypeError`). -/
def callToString (expr : String) (v : JSVal) : Except String String :=
  match v with
  | JSVal.obj fields =>
    match ownGet fields "toString" with
    | none => .ok "[object Object]"
    | some _ => .error (expr ++ ".toString is not a function")
  | JSVal.undefined => .error ("Cannot read properties of undefined (reading 'toString')")
  | JSVal.null => .error ("Cannot read properties of null (reading 'toString')")
  | other => other.toStr

/-- The method call `v.trim()` on a truthy value: only strings have the method. -/
def callTrim (expr : String) (v : JSVal) : Except String String :=
  match v with
  | JSVal.str s => .ok (jsTrim s)
  | JSVal.undefined => .error ("Cannot read properties of undefined (reading 'trim')")
  | JSVal.null => .error ("Cannot read properties of null (reading 'trim')")
  | _ => .error (expr ++ ".trim is not a function")

/-- The method call `v.toLowerCase()`: only strings have the method. -/
def callToLowerCase (expr : String) (v : JSVal) : Except String String :=
  match v with
  | JSVal.str s => .ok (jsToLowerCase s)
  | JSVal.undefined => .error ("Cannot read properties of undefined (reading 'toLowerCase')")
  | JSVal.null => .error ("Cannot read properties of null (reading 'toLowerCase')")
  | _ => .error (expr ++ ".toLowerCase is not a function")

/-- The comparison `v === s` against a string literal. -/
def JSVal.isStr (v : JSVal) (s : String) : Bool :=
  match v with
  | JSVal.str t => t == s
  | _ => false

/-! ## Chain configuration -/

/-- One entry of `CHAIN_CONFIGS`; `tokens` is listed in insertion order. -/
structure ChainConfig where
  name : String
  symbol : String
  rpc : String
  explorer : String
  tokens : List (String × String)

/-- The entry `CHAIN_CONFIGS[43114]`. -/
def avalancheConfig : ChainConfig :=
  { name := "Avalanche", symbol := "AVAX", rpc := "https://api.avax.network/ext/bc/C/rpc",
    explorer := "https://snowtrace.io",
    tokens := [("USDT", "0x9702230A8Ea53601f5cD2dc00fDBc13d4dF4A8c7"),
               ("USDC", "0xB97EF9Ef8734C71904D8002F8b6Bc66Dd9c48a6E"),
               ("WAVAX", "0xB31f66AA3C1e785363F0875A1B74E27b85FD66c7"),
               ("NATIVE", "0x0000000000000000000000000000000000000000")] }

/-- The entry `CHAIN_CONFIGS[56]`. -/
def bscConfig : ChainConfig :=
  { name := "BSC", symbol := "BNB", rpc := "https://bsc-dataseed.binance.org/",
    explorer := "https://bscscan.com",
    tokens := [("USDT", "0x55d398326f99059fF775485246999027B3197955"),
               ("USDC", "0x8AC76a51cc950d9822D68b83fE1Ad97B32Cd580d"),
               ("NATIVE", "0x0000000000000000000000000000000000000000")] }

/-- The table `CHAIN_CONFIGS` (the same in `server.js` and `demo.js`). -/
def CHAIN_CONFIGS : List (Int × ChainConfig) :=
  [(43114, avalancheConfig), (56, bscConfig)]

/-- The read `table[chainId]` on a table keyed by chain id. -/
def lookupChain {α : Type} : List (Int × α) → Int → Option α
  | [], _ => none
  | (k, v) :: rest, chainId => if k = chainId then some v else lookupChain rest chainId

/-- The read `chainConfig.tokens[symbol]`: `undefined` when the chain does not
list the symbol. -/
def ChainConfig.token (chainConfig : ChainConfig) (symbol : String) : JSVal :=
  match chainConfig.tokens.lookup symbol with
  | some address => JSVal.str address
  | none => JSVal.undefined

/-- The object `tokenMappings` that `resolveTokenAddress` builds from a chain
configuration (the same in both files). -/
def tokenMappings (chainConfig : ChainConfig) : List (String × JSVal) :=
  [ ("usdt", chainConfig.token "USDT"),
    ("usdt.e", chainConfig.token "USDT"),
    ("tether", chainConfig.token "USDT"),
    ("usdc", chainConfig.token "USDC"),
    ("usdc.e", chainConfig.token "USDC"),
    ("usd coin", chainConfig.token "USDC"),
    ("avax", JSVal.str "eth"),
    ("avalanche", JSVal.str "eth"),
    ("wavax", chainConfig.token "WAVAX"),
    ("wrapped avax", chainConfig.token "WAVAX") ]

namespace Server

/-- The function `resolveTokenAddress` of `server.js`, with the table it reads
as `CHAIN_CONFIGS` made explicit. -/
def resolveTokenAddressIn (configs : List (Int × ChainConfig))
    (tokenInput : JSVal) (chainId : Int) : Except String JSVal :=
  if !tokenInput.truthy || tokenInput.isStr "" then .ok (JSVal.str "eth")
  else
    match tokenInput with
    | JSVal.str s =>
      let input := jsTrim (jsToLowerCase s)
      if isAddress s then .ok tokenInput
      else if input = "eth" ∨ input = "avax" ∨ input = "native" then .ok (JSVal.str "eth")
      else
        match lookupChain configs chainId with
        | none => .error ("Unsupported chain: " ++ numToString chainId)
        | some chainConfig =>
          let resolvedAddress := objGet (tokenMappings chainConfig) input
          if resolvedAddress.truthy then .ok resolvedAddress
          else .ok tokenInput
    | other =>
      .error ("Invalid token address type: " ++ other.typeof ++ ". Must be string.")

/-- The function `resolveTokenAddress` of `server.js`. -/
def resolveTokenAddress (tokenInput : JSVal) (chainId : Int) : Except String JSVal :=
  resolveTokenAddressIn CHAIN_CONFIGS tokenInput chainId

/-- The list `bhindiParams` of `cleanBhindiParameters`. -/
def bhindiParams : List String :=
  ["toolName", "userId", "executionId", "chatId", "timestamp", "requestId"]

/-- The own properties of the copy `{...args}` of an array: one per index. -/
def indexFields : Nat → List JSVal → List (String × JSVal)
  | _, [] => []
  | i, item :: rest => (toString i, item) :: indexFields (i + 1) rest

end Server

/-- The own enumerable properties that the copy `{...v}` receives. -/
def spreadFields : JSVal → List (String × JSVal)
  | JSVal.obj fields => fields
  | JSVal.arr items => Server.indexFields 0 items
  | JSVal.str s => Server.indexFields 0 (s.data.map (fun c => JSVal.str (String.singleton c)))
  | _ => []

namespace Server

/-- The function `cleanBhindiParameters` of `server.js`: a copy of the own
properties of `args` without the platform's metadata keys; the empty object when
`args` is falsy or not an object. -/
def cleanBhindiParameters (args : JSVal) (_toolName : String) : JSVal :=
  if !args.truthy || args.typeof != "object" then JSVal.obj []
  else
    match args with
    | JSVal.obj fields => JSVal.obj (fields.filter (fun kv => !bhindiParams.contains kv.1))
    | JSVal.arr items =>
      JSVal.obj ((indexFields 0 items).filter (fun kv => !bhindiParams.contains kv.1))
    | _ => JSVal.obj []

/-- The two objects that `cleanBhindiParameters` holds while it runs: the
caller's `args` and the own properties of the copy `cleaned`. -/
structure CleanState where
  args : JSVal
  cleaned : List (String × JSVal)

/-- The test `param in cleaned`: an own or an inherited property. -/
def hasProperty (fields : List (String × JSVal)) (param : String) : Bool :=
  (ownGet fields param).isSome || (protoGet param).truthy

/-- The statement `delete cleaned[param]`. -/
def deleteProperty (fields : List (String × JSVal)) (param : String) :
    List (String × JSVal) :=
  fields.filter (fun kv => kv.1 != param)

/-- One round of the `forEach` over `bhindiParams`: it touches `cleaned` only. -/
def cleanStep (state : CleanState) (param : String) : CleanState :=
  if hasProperty state.cleaned param then
    { args := state.args, cleaned := deleteProperty state.cleaned param }
  else state

/-- The body of `cleanBhindiParameters` for a truthy `args` of type `object`,
statement by statement: the copy `cleaned = {...args}`, then the `forEach` that
deletes the metadata keys from the copy. -/
def cleanObject (args : JSVal) : CleanState :=
  bhindiParams.foldl cleanStep { args := args, cleaned := spreadFields args }

/-- The function `processTransferParameters` of `server.js`. -/
def processTransferParameters (args : JSVal) (chainId : Int) : Except String JSVal :=
  let cleaned := cleanBhindiParameters args "transferTokens"
  if !(cleaned.get "to").truthy then .error "Recipient address is required"
  else if !(cleaned.get "amount").truthy then .error "Amount is required"
  else
    match callTrim "cleaned.to" (cleaned.get "to") with
    | .error e => .error e
    | .ok to_ =>
      match callToString "cleaned.amount" (cleaned.get "amount") with
      | .error e => .error e
      | .ok amount =>
        match resolveTokenAddress (jsOr (cleaned.get "tokenAddress") (JSVal.str "eth")) chainId with
        | .error e => .error e
        | .ok tokenAddress =>
          .ok (JSVal.obj [("amount", JSVal.str amount), ("tokenAddress", tokenAddress),
                          ("destination", JSVal.str to_)])

/-- The function `processSwapParameters` of `server.js`. -/
def processSwapParameters (args : JSVal) (chainId : Int) : Except String JSVal :=
  let cleaned := cleanBhindiParameters args "swapTokens"
  if !(cleaned.get "fromToken").truthy then .error "Source token (fromToken) is required"
  else if !(cleaned.get "toToken").truthy then .error "Destination token (toToken) is required"
  else if !(cleaned.get "amount").truthy then .error "Amount is required"
  else
    match resolveTokenAddress (cleaned.get "fromToken") chainId with
    | .error e => .error e
    | .ok tokenIn =>
      match resolveTokenAddress (cleaned.get "toToken") chainId with
      | .error e => .error e
      | .ok tokenOut =>
        match callToString "cleaned.amount" (cleaned.get "amount") with
        | .error e => .error e
        | .ok amount =>
          .ok (JSVal.obj [("tokenIn", tokenIn), ("tokenOut", tokenOut),
                          ("amount", JSVal.str amount)])

/-- The function `processBalanceParameters` of `server.js`. -/
def processBalanceParameters (args : JSVal) (chainId : Int) : Except String JSVal :=
  let cleaned := cleanBhindiParameters args "getWalletBalance"
  if (cleaned.get "tokenAddress").truthy then
    match resolveTokenAddress (cleaned.get "tokenAddress") chainId with
    | .error e => .error e
    | .ok resolvedToken =>
      if resolvedToken.isStr "eth" then .ok (JSVal.obj [])
      else .ok (JSVal.obj [("tokenAddress", resolvedToken)])
  else .ok (JSVal.obj [])

/-- The function `processSxtParameters` of `server.js`. -/
def processSxtParameters (args : JSVal) : Except String JSVal :=
  let cleaned := cleanBhindiParameters args "queryBlockchainData"
  if !(cleaned.get "query").truthy then .error "SQL query is required"
  else .ok (JSVal.obj [("sqlText", cleaned.get "query")])

end Server

/-! ## Dispatch in `server.js` -/

/-- The configuration record built by `extractConfig`. -/
structure Config where
  apiKey : JSVal
  privateKey : JSVal
  rpcUrl : JSVal
  gaslessApiKey : JSVal
  chainId : Int
  sxtApiKey : JSVal
  defaultSlippage : JSVal
  userAgent : JSVal
  timestamp : Int

/-- An action of the SDK, as listed by `getAllAgentkitActions`. -/
structure Action where
  name : String

/-- The SDK client: `run` either returns a value or throws an error with the
given message. -/
structure Agentkit where
  run : Action → JSVal → Except String JSVal

/-- What a call of `executeTool` takes from outside the program: the random
execution id, the clock, the random digits of the mock transaction id, and the
outcome of `initializeAgentkit` (the client, or none in demo mode, and the
actions). -/
structure Env where
  executionId : String
  now : String
  randomHex : String
  initializeAgentkit : Config → Option Agentkit × List Action

/-- A call that leaves the normalisation layer. -/
inductive Event where
  | initializeAgentkit (config : Config) : Event
  | run (action : String) (params : JSVal) : Event

/-- The first `n` UTF-16 code units of a character sequence, the result of
`substring(0, n)`; a character outside the basic plane counts for two units and
is left out when only one unit remains. -/
def takeUnits : Nat → List Char → List Char
  | _, [] => []
  | n, c :: cs =>
    let w := if c.toNat < 65536 then 1 else 2
    if w ≤ n then c :: takeUnits (n - w) cs else []

/-- The method call `v.substring(0, n)`: only strings have the method. -/
def callSubstring (expr : String) (n : Nat) (v : JSVal) : Except String String :=
  match v with
  | JSVal.str s => .ok ⟨takeUnits n s.data⟩
  | JSVal.undefined => .error ("Cannot read properties of undefined (reading 'substring')")
  | JSVal.null => .error ("Cannot read properties of null (reading 'substring')")
  | _ => .error (expr ++ ".substring is not a function")

/-- Exactly `n` leading characters of `[a-fA-F0-9]`. -/
def takeHex : Nat → List Char → Option (List Char)
  | 0, _ => some []
  | _ + 1, [] => none
  | n + 1, c :: cs =>
    if isHexDigit c then
      match takeHex n cs with
      | some h => some (c :: h)
      | none => none
    else none

/-- A match of `0x[a-fA-F0-9]{64}` at the head of the sequence. -/
def txHashAt : List Char → Option (List Char)
  | '0' :: 'x' :: rest =>
    match takeHex 64 rest with
    | some h => some ('0' :: 'x' :: h)
    | none => none
  | _ => none

/-- The leftmost match of `0x[a-fA-F0-9]{64}` in the sequence. -/
def matchTxHashChars : List Char → Option (List Char)
  | [] => none
  | c :: cs =>
    match txHashAt (c :: cs) with
    | some h => some h
    | none => matchTxHashChars cs

/-- Model of `resultStr.match(/0x[a-fA-F0-9]{64}/)`: element 0 of the match. -/
def matchTxHash (resultStr : String) : Option String :=
  match matchTxHashChars resultStr.data with
  | some h => some ⟨h⟩
  | none => none

namespace Server

/-- The table `explorers` of `getExplorerUrl`. -/
def explorers : List (Int × String) :=
  [(43114, "https://snowtrace.io/tx/"), (56, "https://bscscan.com/tx/"),
   (1, "https://etherscan.io/tx/"), (137, "https://polygonscan.com/tx/"),
   (8453, "https://basescan.org/tx/")]

/-- The function `getExplorerUrl` of `server.js`. -/
def getExplorerUrl (txHash : String) (chainId : Int) : String :=
  (match lookupChain explorers chainId with
   | some url => url
   | none => "https://snowtrace.io/tx/") ++ txHash

/-- The table `chains` of `getChainName`. -/
def chains : List (Int × String) :=
  [(43114, "Avalanche"), (56, "BSC"), (1, "Ethereum"), (137, "Polygon"), (8453, "Base")]

/-- The function `getChainName` of `server.js`. -/
def getChainName (chainId : Int) : String :=
  match lookupChain chains chainId with
  | some name => name
  | none => "Chain " ++ numToString chainId

/-- The loop of `getTokenSymbol` over `Object.entries(chainConfig.tokens)`. -/
def symbolOfAddress : List (String × String) → JSVal → Except String String
  | [], _ => .ok "Token"
  | (symbol, address) :: rest, tokenAddress =>
    match callToLowerCase "tokenAddress" tokenAddress with
    | .error e => .error e
    | .ok lower =>
      if jsToLowerCase address = lower then .ok symbol
      else symbolOfAddress rest tokenAddress

/-- The function `getTokenSymbol` of `server.js`. -/
def getTokenSymbol (tokenAddress : JSVal) (chainId : Int) : Except String String :=
  if !tokenAddress.truthy || tokenAddress.isStr "eth" then
    .ok (if getChainName chainId = "Avalanche" then "AVAX" else "ETH")
  else
    match lookupChain CHAIN_CONFIGS chainId with
    | some chainConfig => symbolOfAddress chainConfig.tokens tokenAddress
    | none => .ok "Token"

/-- The expression `CHAIN_CONFIGS[config.chainId] || CHAIN_CONFIGS[43114]`. -/
def chainOrDefault (chainId : Int) : ChainConfig :=
  match lookupChain CHAIN_CONFIGS chainId with
  | some chain => chain
  | none => avalancheConfig

/-- The literal rows of the mock query result. -/
def mockRows : JSVal :=
  JSVal.arr
    [ JSVal.obj [("block_number", JSVal.num 18000001), ("transaction_count", JSVal.num 245),
                 ("gas_used", JSVal.str "12500000")],
      JSVal.obj [("block_number", JSVal.num 18000002), ("transaction_count", JSVal.num 189),
                 ("gas_used", JSVal.str "11200000")],
      JSVal.obj [("block_number", JSVal.num 18000003), ("transaction_count", JSVal.num 298),
                 ("gas_used", JSVal.str "13800000")] ]

/-- The function `generateMockResponse` of `server.js`; an error is a throw out
of one of the template literals. -/
def generateMockResponse (env : Env) (toolName : String) (processedArgs : JSVal)
    (config : Config) : Except String JSVal :=
  let chain := chainOrDefault config.chainId
  if toolName = "getWalletAddress" then
    .ok (JSVal.obj
      [("success", JSVal.bool true),
       ("data", JSVal.obj
         [("address", JSVal.str "0x742d35Cc6639C0532fEb96c26c5CA44f39F5C9a6"),
          ("chain", JSVal.str chain.name),
          ("chainId", JSVal.num config.chainId),
          ("text", JSVal.str
            "Your smart wallet address: 0x742d35Cc6639C0532fEb96c26c5CA44f39F5C9a6"),
          ("source", JSVal.str "demo")])])
  else if toolName = "getWalletBalance" then
    let hasToken := (processedArgs.get "tokenAddress").truthy
    .ok (JSVal.obj
      [("success", JSVal.bool true),
       ("data", JSVal.obj
         [("balance", JSVal.str (if hasToken then "1250.50" else "2.5")),
          ("symbol", JSVal.str (if hasToken then "USDT" else chain.symbol)),
          ("chainId", JSVal.num config.chainId),
          ("text", JSVal.str
            ("Balance: " ++ (if hasToken then "1250.50 USDT" else "2.5 " ++ chain.symbol))),
          ("source", JSVal.str "demo")])])
  else if toolName = "transferTokens" then
    match (processedArgs.get "amount").toStr with
    | .error e => .error e
    | .ok amount =>
      match getTokenSymbol (processedArgs.get "tokenAddress") config.chainId with
      | .error e => .error e
      | .ok symbol =>
        match (processedArgs.get "destination").toStr with
        | .error e => .error e
        | .ok destination =>
          .ok (JSVal.obj
            [("success", JSVal.bool true),
             ("data", JSVal.obj
               [("transactionId", JSVal.str ("0x" ++ env.randomHex)),
                ("text", JSVal.str
                  ("Demo: Would transfer " ++ amount ++ " " ++ symbol ++ " to " ++ destination)),
                ("source", JSVal.str "demo")])])
  else if toolName = "swapTokens" then
    match (processedArgs.get "amount").toStr with
    | .error e => .error e
    | .ok amount =>
      match getTokenSymbol (processedArgs.get "tokenIn") config.chainId with
      | .error e => .error e
      | .ok symbolIn =>
        match getTokenSymbol (processedArgs.get "tokenOut") config.chainId with
        | .error e => .error e
        | .ok symbolOut =>
          .ok (JSVal.obj
            [("success", JSVal.bool true),
             ("data", JSVal.obj
               [("text", JSVal.str
                  ("Demo: Would swap " ++ amount ++ " " ++ symbolIn ++ " for " ++ symbolOut)),
                ("source", JSVal.str "demo")])])
  else if toolName = "queryBlockchainData" then
    match callSubstring "processedArgs.sqlText" 50 (processedArgs.get "sqlText") with
    | .error e => .error e
    | .ok head =>
      .ok (JSVal.obj
        [("success", JSVal.bool true),
         ("data", JSVal.obj
           [("query", processedArgs.get "sqlText"),
            ("results", JSVal.obj [("rows", JSVal.num 5), ("data", mockRows)]),
            ("text", JSVal.str
              ("Demo: SQL query executed successfully. Query: \"" ++ head ++ "...\"")),
            ("source", JSVal.str "demo"),
            ("note", JSVal.str "Configure SXT API key for real blockchain data queries")])])
  else
    .ok (JSVal.obj
      [("success", JSVal.bool false),
       ("error", JSVal.obj
         [("code", JSVal.str "UNKNOWN_TOOL"),
          ("message", JSVal.str ("Unknown tool: " ++ toolName)),
          ("availableTools", JSVal.arr (TOOLS_SCHEMA.map (fun t => JSVal.str t.name)))])])

/-- The if-chain at the head of the `try` block of `executeTool`: the normaliser
of the tool's category. -/
def processArguments (toolName : String) (args : JSVal) (config : Config) :
    Except String JSVal :=
  if toolName = "transferTokens" then processTransferParameters args config.chainId
  else if toolName = "swapTokens" then processSwapParameters args config.chainId
  else if toolName = "getWalletBalance" then processBalanceParameters args config.chainId
  else if toolName = "queryBlockchainData" then processSxtParameters args
  else if toolName = "getWalletAddress" then .ok (JSVal.obj [])
  else .ok (cleanBhindiParameters args toolName)

/-- The object returned by the `catch` block of `executeTool`. -/
def executionError (env : Env) (message : String) (toolName : String) (args : JSVal)
    (config : Config) : JSVal :=
  JSVal.obj
    [("success", JSVal.bool false),
     ("error", JSVal.obj
       [("code", JSVal.str "EXECUTION_ERROR"),
        ("message", JSVal.str message),
        ("toolName", JSVal.str toolName),
        ("originalArgs", args),
        ("timestamp", JSVal.str env.now),
        ("chainId", JSVal.num config.chainId),
        ("executionId", JSVal.str env.executionId)])]

/-- The object returned in the normal success case of `executeTool`. -/
def normalSuccess (env : Env) (toolName : String) (processedArgs : JSVal) (config : Config)
    (result : JSVal) : JSVal :=
  JSVal.obj
    [("success", JSVal.bool true),
     ("data", JSVal.obj
       [("result", result),
        ("toolName", JSVal.str toolName),
        ("processedArgs", processedArgs),
        ("executedAt", JSVal.str env.now),
        ("chainId", JSVal.num config.chainId),
        ("source", JSVal.str "agentkit"),
        ("executionId", JSVal.str env.executionId)])]

/-- The branch of `executeTool` taken when the result text holds a transaction
hash together with one of the words `error`, `failed`, `bundler`. -/
def supersededSuccess (env : Env) (toolName : String) (processedArgs : JSVal)
    (config : Config) (txHash : String) : Except String JSVal :=
  match getTokenSymbol (jsOr (processedArgs.get "tokenAddress") (processedArgs.get "tokenIn"))
      config.chainId with
  | .error e => .error e
  | .ok tokenSymbol =>
    let operationType := if toolName = "transferTokens" then "Transfer" else "Swap"
    let details : Except String String :=
      if toolName = "transferTokens" then
        match (processedArgs.get "amount").toStr with
        | .error e => .error e
        | .ok amount =>
          match (processedArgs.get "destination").toStr with
          | .error e => .error e
          | .ok destination => .ok (amount ++ " " ++ tokenSymbol ++ " to " ++ destination)
      else
        match (processedArgs.get "amount").toStr with
        | .error e => .error e
        | .ok amount =>
          match getTokenSymbol (processedArgs.get "tokenIn") config.chainId with
          | .error e => .error e
          | .ok symbolIn =>
            match getTokenSymbol (processedArgs.get "tokenOut") config.chainId with
            | .error e => .error e
            | .ok symbolOut => .ok (amount ++ " " ++ symbolIn ++ " → " ++ symbolOut)
    match details with
    | .error e => .error e
    | .ok details =>
      .ok (JSVal.obj
        [("success", JSVal.bool true),
         ("data", JSVal.obj
           [("result", JSVal.str
              ("✅ " ++ operationType ++ " completed successfully!\n\n🔗 Transaction Hash: " ++
               txHash ++ "\n\n📊 Details:\n• " ++ operationType ++ ": " ++ details ++
               "\n• Network: " ++ getChainName config.chainId ++
               "\n• Status: Confirmed ✅\n\n🌐 View on Explorer: " ++
               getExplorerUrl txHash config.chainId)),
            ("transactionHash", JSVal.str txHash),
            ("status", JSVal.str "success"),
            ("toolName", JSVal.str toolName),
            ("processedArgs", processedArgs),
            ("executedAt", JSVal.str env.now),
            ("chainId", JSVal.num config.chainId),
            ("source", JSVal.str "agentkit"),
            ("executionId", JSVal.str env.executionId),
            ("explorerUrl", JSVal.str (getExplorerUrl txHash config.chainId)),
            ("note", JSVal.str "Transaction successful despite AgentKit error message")])])

/-- The part of `executeTool` after `agentkit.run` has returned `result`. -/
def processResult (env : Env) (toolName : String) (processedArgs : JSVal) (config : Config)
    (result : JSVal) : Except String JSVal :=
  if toolName = "transferTokens" ∨ toolName = "swapTokens" then
    match result.toStr with
    | .error e => .error e
    | .ok resultStr =>
      match matchTxHash resultStr with
      | some txHash =>
        if jsIncludes (jsToLowerCase resultStr) "error" ||
            jsIncludes (jsToLowerCase resultStr) "failed" ||
            jsIncludes (jsToLowerCase resultStr) "bundler" then
          supersededSuccess env toolName processedArgs config txHash
        else .ok (normalSuccess env toolName processedArgs config result)
      | none => .ok (normalSuccess env toolName processedArgs config result)
  else .ok (normalSuccess env toolName processedArgs config result)

/-- The `try` block of `executeTool` from `initializeAgentkit` on, with the
calls it makes. -/
def dispatch (env : Env) (toolName : String) (processedArgs : JSVal) (config : Config) :
    Except String JSVal × List Event :=
  match env.initializeAgentkit config with
  | (none, _) =>
    (generateMockResponse env toolName processedArgs config, [Event.initializeAgentkit config])
  | (some agentkit, actions) =>
    match findTool TOOLS_SCHEMA toolName with
    | none =>
      (.error ("Tool " ++ toolName ++ " not found in schema"),
       [Event.initializeAgentkit config])
    | some tool =>
      match actions.find? (fun a => a.name == tool.agentkitAction) with
      | none =>
        (.error ("AgentKit action " ++ tool.agentkitAction ++ " not found"),
         [Event.initializeAgentkit config])
      | some action =>
        match agentkit.run action processedArgs with
        | .error e =>
          (.error e, [Event.initializeAgentkit config, Event.run action.name processedArgs])
        | .ok result =>
          (processResult env toolName processedArgs config result,
           [Event.initializeAgentkit config, Event.run action.name processedArgs])

/-- The function `executeTool` of `server.js`: the result it resolves to and the
calls it made to `initializeAgentkit` and `agentkit.run`, in order. -/
def executeTool (env : Env) (toolName : String) (args : JSVal) (config : Config) :
    JSVal × List Event :=
  match processArguments toolName args config with
  | .error message => (executionError env message toolName args config, [])
  | .ok processedArgs =>
    match dispatch env toolName processedArgs config with
    | (.ok result, calls) => (result, calls)
    | (.error message, calls) => (executionError env message toolName args config, calls)

end Server

namespace Demo

/-- The function `resolveTokenAddress` of `demo.js`, with the table it reads as
`CHAIN_CONFIGS` made explicit.  Its first statement logs the input in a
template literal, which throws for a value without string form.  For a chain
without entry the source assigns to the `const` binding `chainConfig`, which
throws a `TypeError`. -/
def resolveTokenAddressIn (configs : List (Int × ChainConfig))
    (tokenInput : JSVal) (chainId : Int) : Except String JSVal :=
  match tokenInput.toStr with
  | .error e => .error e
  | .ok _ =>
  if !tokenInput.truthy || tokenInput.isStr "" then .ok (JSVal.str "eth")
  else
    match tokenInput with
    | JSVal.str s =>
      let input := jsTrim (jsToLowerCase s)
      if isAddress s then .ok tokenInput
      else if input = "eth" ∨ input = "avax" ∨ input = "native" then .ok (JSVal.str "eth")
      else
        match lookupChain configs chainId with
        | none => .error "Assignment to constant variable."
        | some chainConfig =>
          let resolvedAddress := objGet (tokenMappings chainConfig) input
          if resolvedAddress.truthy then .ok resolvedAddress
          else if jsStartsWith input "0x" then
            if !isAddress s then
              .error ("Invalid token address format: " ++ s ++
                ". Must be 42-character hex address.")
            else .ok tokenInput
          else .ok tokenInput
    | other =>
      .error ("Invalid token address type: " ++ other.typeof ++ ". Must be string.")

/-- The function `resolveTokenAddress` of `demo.js`. -/
def resolveTokenAddress (tokenInput : JSVal) (chainId : Int) : Except String JSVal :=
  resolveTokenAddressIn CHAIN_CONFIGS tokenInput chainId

end Demo

/-- A value that is `undefined` or a string. -/
def JSVal.isTextOrAbsent : JSVal → Bool
  | JSVal.undefined => true
  | JSVal.str _ => true
  | _ => false

/-! ## Dispatch in `demo.js` -/

/-- Property read `v.key` on an arbitrary receiver: a `TypeError` on `undefined`
and `null`, the own or inherited property on a plain object, and on every other
receiver the member inherited from `Object.prototype` (the members of the other
built-in prototypes are not modelled; none of them bears a parameter name that
the gateway reads). -/
def readProp (v : JSVal) (key : String) : Except String JSVal :=
  match v with
  | JSVal.undefined =>
    .error ("Cannot read properties of undefined (reading '" ++ key ++ "')")
  | JSVal.null => .error ("Cannot read properties of null (reading '" ++ key ++ "')")
  | JSVal.obj fields => .ok (objGet fields key)
  | _ => .ok (protoGet key)

/-- The assignment `o[key] = v` on a property list: an existing own property keeps
its place, a new one goes to the end. -/
def setField (fields : List (String × JSVal)) (key : String) (v : JSVal) :
    List (String × JSVal) :=
  if (ownGet fields key).isSome then
    fields.map (fun kv => if kv.1 = key then (kv.1, v) else kv)
  else fields ++ [(key, v)]

namespace Demo

/-- What a call of `executeTool` of `demo.js` takes from outside the embedding:
the random execution id, the clock, the outcome of `initializeAgentkit`, and
`generateMockResponse`, the mock responder of the file, which draws a random
transaction id and multiplies in floating point. -/
structure Env where
  executionId : String
  now : String
  initializeAgentkit : Config → Option Agentkit × List Action
  generateMockResponse : String → JSVal → Config → Except String JSVal

/-- The `transferTokens` branch written inline in `executeTool` of `demo.js`. -/
def inlineTransferParameters (args : JSVal) (chainId : Int) : Except String JSVal :=
  match readProp args "to" with
  | .error e => .error e
  | .ok to_ =>
    if !to_.truthy then .error "Recipient address required"
    else
      match readProp args "amount" with
      | .error e => .error e
      | .ok amount =>
        if !amount.truthy then .error "Amount required"
        else
          match callTrim "args.to" to_ with
          | .error e => .error e
          | .ok trimmed =>
            match callToString "args.amount" amount with
            | .error e => .error e
            | .ok amountText =>
              match readProp args "tokenAddress" with
              | .error e => .error e
              | .ok token =>
                match resolveTokenAddress (jsOr token (JSVal.str "eth")) chainId with
                | .error e => .error e
                | .ok tokenAddress =>
                  .ok (JSVal.obj
                    [("amount", JSVal.str amountText),
                     ("tokenAddress",
                       if tokenAddress.isStr "eth" then JSVal.str "eth" else tokenAddress),
                     ("destination", JSVal.str trimmed)])

/-- The function `processSwapParameters` of `demo.js`. -/
def processSwapParameters (args : JSVal) (chainId : Int) : Except String JSVal :=
  match readProp args "fromToken" with
  | .error e => .error e
  | .ok fromToken =>
    if !fromToken.truthy then .error "Source token (fromToken) is required"
    else
      match readProp args "toToken" with
      | .error e => .error e
      | .ok toToken =>
        if !toToken.truthy then .error "Destination token (toToken) is required"
        else
          match readProp args "amount" with
          | .error e => .error e
          | .ok amount =>
            if !amount.truthy then .error "Amount is required"
            else
              match resolveTokenAddress fromToken chainId with
              | .error e => .error e
              | .ok tokenIn =>
                match resolveTokenAddress toToken chainId with
                | .error e => .error e
                | .ok tokenOut =>
                  match amount.toStr with
                  | .error e => .error e
                  | .ok amountText =>
                    let numAmount := parseFloat amountText
                    if numAmount.isNaN || numAmount.leZero then
                      .error ("Invalid amount: " ++ amountText ++ ". Must be a positive number")
                    else
                      .ok (JSVal.obj [("tokenIn", tokenIn), ("tokenOut", tokenOut),
                                      ("amount", JSVal.str numAmount.toString)])

/-- The function `processBalanceParameters` of `demo.js`. -/
def processBalanceParameters (args : JSVal) (chainId : Int) : Except String JSVal :=
  let processed := spreadFields args
  if (objGet processed "tokenAddress").truthy then
    match resolveTokenAddress (objGet processed "tokenAddress") chainId with
    | .error e => .error e
    | .ok resolvedToken =>
      if resolvedToken.isStr "eth" then
        .ok (JSVal.obj (setField processed "tokenAddress" JSVal.undefined))
      else .ok (JSVal.obj (setField processed "tokenAddress" resolvedToken))
  else .ok (JSVal.obj processed)

/-- The function `processTransferParameters` of `demo.js`.  The amount is read
with `parseFloat`, which first takes the string form of the value. -/
def processTransferParameters (args : JSVal) (chainId : Int) : Except String JSVal :=
  if !args.truthy || args.typeof != "object" then
    .error "Invalid arguments: must be an object"
  else
    match readProp args "to" with
    | .error e => .error e
    | .ok to_ =>
      if !to_.truthy then
        .error "Recipient address is required. Please provide \"to\" parameter."
      else
        match to_ with
        | JSVal.str recipient =>
          match readProp args "amount" with
          | .error e => .error e
          | .ok amount =>
            if !amount.truthy then
              .error "Transfer amount is required. Please provide \"amount\" parameter."
            else
              let processed := spreadFields args
              let trimmed := jsTrim recipient
              if !isAddress trimmed then
                .error ("Invalid recipient address format: " ++ trimmed ++
                  ". Must be 42-character hex address starting with 0x.")
              else
                let originalToken := objGet processed "tokenAddress"
                let resolved : Except String JSVal :=
                  if originalToken.truthy then
                    match resolveTokenAddress originalToken chainId with
                    | .error e => .error e
                    | .ok r =>
                      if !r.truthy then
                        match originalToken.toStr with
                        | .error e => .error e
                        | .ok text => .error ("Failed to resolve token address: " ++ text)
                      else .ok r
                  else .ok (JSVal.str "eth")
                match resolved with
                | .error e => .error e
                | .ok token =>
                  let tokenAddress :=
                    if token.isStr "eth" ||
                        token.isStr "0x0000000000000000000000000000000000000000" then
                      JSVal.str "eth"
                    else token
                  match (objGet processed "amount").toStr with
                  | .error e => .error e
                  | .ok amountText =>
                    let numAmount := parseFloat amountText
                    if numAmount.isNaN || numAmount.leZero then
                      .error ("Invalid amount: " ++ amountText ++ ". Must be a positive number")
                    else
                      .ok (JSVal.obj [("amount", JSVal.str numAmount.toString),
                                      ("tokenAddress", tokenAddress),
                                      ("destination", JSVal.str trimmed)])
        | other =>
          .error ("Invalid recipient address type: " ++ other.typeof ++ ". Must be string.")

/-- The if-chain at the head of the `try` block of `executeTool` of `demo.js`;
a tool without a branch keeps the raw arguments. -/
def processArguments (toolName : String) (args : JSVal) (config : Config) :
    Except String JSVal :=
  if toolName = "transferTokens" then inlineTransferParameters args config.chainId
  else if toolName = "swapTokens" then processSwapParameters args config.chainId
  else if toolName = "getWalletBalance" then processBalanceParameters args config.chainId
  else .ok args

/-- The function `getErrorMessage` of `demo.js`, on the `message` of the error. -/
def getErrorMessage (errorMessage : String) (toolName : String) : String :=
  let message := if errorMessage != "" then errorMessage else "Unknown error"
  if jsIncludes message "insufficient funds" then
    "Insufficient funds for " ++ toolName ++
      ". Please ensure you have enough balance and gas fees."
  else if jsIncludes message "invalid address" then
    "Invalid address format for " ++ toolName ++
      ". Please provide a valid Ethereum address (0x...)."
  else if jsIncludes message "balanceOf" && jsIncludes message "returned no data" then
    "Token contract not found. Please verify the token address exists on the selected network."
  else if jsIncludes message "Smart Account is required" then
    "Smart account configuration issue. Please check your wallet credentials."
  else "Error in " ++ toolName ++ ": " ++ message

/-- The function `getErrorSuggestions` of `demo.js`, on the `message` of the
error. -/
def getErrorSuggestions (message : String) (toolName : String) : List String :=
  (if jsIncludes message "insufficient funds" then
    ["Check your wallet balance", "Ensure you have enough AVAX for gas fees",
     "Try a smaller amount"] else []) ++
  (if jsIncludes message "invalid address" then
    ["Verify the address starts with 0x", "Check the address is 42 characters long",
     "Ensure no extra spaces or characters"] else []) ++
  (if jsIncludes message "Token not found" || jsIncludes message "token address" then
    ["Use supported tokens: USDT, USDC, AVAX, WAVAX",
     "Try using token symbol instead of address",
     "Verify token exists on Avalanche network"] else []) ++
  (if toolName = "transferTokens" then
    ["Format: \"transfer [amount] [token] to [address]\"",
     "Example: \"transfer 1 USDT to 0x...\"", "Supported tokens: USDT, USDC, AVAX"]
   else []) ++
  (if toolName = "getWalletBalance" then
    ["Try without token for AVAX balance", "Use token symbols: USDT, USDC, WAVAX",
     "Check if token exists on Avalanche"] else [])

/-- The `catch` block of `executeTool` of `demo.js`.  Its first statement and
its return value read the identifier `processedArgs`; `processedArgs` is the
binding that identifier resolves to where the block stands, `none` when there is
none, in which case the read throws a `ReferenceError`. -/
def catchBlock (env : Env) (processedArgs : Option JSVal) (message : String)
    (toolName : String) (args : JSVal) (config : Config) : Except String JSVal :=
  match processedArgs with
  | none => .error "processedArgs is not defined"
  | some processed =>
    .ok (JSVal.obj
      [("success", JSVal.bool false),
       ("error", JSVal.obj
         [("code", JSVal.str "EXECUTION_ERROR"),
          ("message", JSVal.str (getErrorMessage message toolName)),
          ("toolName", JSVal.str toolName),
          ("originalArgs", args),
          ("processedArgs", jsOr processed JSVal.null),
          ("timestamp", JSVal.str env.now),
          ("suggestions",
            JSVal.arr ((getErrorSuggestions message toolName).map JSVal.str)),
          ("chainId", JSVal.num config.chainId),
          ("executionId", JSVal.str env.executionId)])])

/-- The `try` block of `executeTool` of `demo.js` from `initializeAgentkit` on,
with the calls it makes. -/
def dispatch (env : Env) (toolName : String) (processedArgs : JSVal) (config : Config) :
    Except String JSVal × List Event :=
  match env.initializeAgentkit config with
  | (none, _) =>
    (env.generateMockResponse toolName processedArgs config,
     [Event.initializeAgentkit config])
  | (some agentkit, actions) =>
    match findTool TOOLS_SCHEMA toolName with
    | none =>
      (.error ("Tool " ++ toolName ++ " not found in schema"),
       [Event.initializeAgentkit config])
    | some tool =>
      match actions.find? (fun a => a.name == tool.agentkitAction) with
      | none =>
        (.error ("AgentKit action " ++ tool.agentkitAction ++ " not found. Available: " ++
           ", ".intercalate (actions.map (fun a => a.name))),
         [Event.initializeAgentkit config])
      | some action =>
        match agentkit.run action processedArgs with
        | .error e =>
          (.error e, [Event.initializeAgentkit config, Event.run action.name processedArgs])
        | .ok result =>
          (.ok (JSVal.obj
            [("success", JSVal.bool true),
             ("data", JSVal.obj
               [("result", result),
                ("toolName", JSVal.str toolName),
                ("processedArgs", processedArgs),
                ("executedAt", JSVal.str env.now),
                ("chainId", JSVal.num config.chainId),
                ("source", JSVal.str "agentkit"),
                ("executionId", JSVal.str env.executionId)])]),
           [Event.initializeAgentkit config, Event.run action.name processedArgs])

/-- The `try` block of `executeTool` of `demo.js`. -/
def tryBlock (env : Env) (toolName : String) (args : JSVal) (config : Config) :
    Except String JSVal × List Event :=
  match processArguments toolName args config with
  | .error message => (.error message, [])
  | .ok processedArgs => dispatch env toolName processedArgs config

/-- The function `executeTool` of `demo.js`: what its promise settles to (`ok` a
result, `error` a rejection with the message of the thrown error) and the calls
it made.  The `let processedArgs` of the source is declared inside the `try`
block, so where the `catch` block stands the identifier has no binding. -/
def executeTool (env : Env) (toolName : String) (args : JSVal) (config : Config) :
    Except String JSVal × List Event :=
  match tryBlock env toolName args config with
  | (.ok result, calls) => (.ok result, calls)
  | (.error message, calls) => (catchBlock env none message toolName args config, calls)

end Demo

/-! ## The HTTP surface of the wallet gateway -/

/-- A request as the handlers read it: the header object (names in lower case, as
Node delivers them), the path parameter and the parsed body. -/
structure Request where
  headers : List (String × String)
  param : String
  body : JSVal

/-- The read `req.headers[name]`. -/
def headerGet (headers : List (String × String)) (name : String) : JSVal :=
  match headers.lookup name with
  | some value => JSVal.str value
  | none => JSVal.undefined

/-- A response: the HTTP status and the JSON body. -/
structure Response where
  status : Nat
  body : JSVal

/-- What `extractConfig` and `authenticate` take from outside the embedding: the
clock (`Date.now()` and `new Date().toISOString()`) and the conversion
`Number(v)` of a header value, `none` for `NaN`; this conversion is not
embedded, and the chain ids it yields are the integer-valued ones. -/
structure HeaderEnv where
  dateNow : Int
  nowIso : String
  toNumber : JSVal → Option Int

/-- The expression `Number(v) || CONFIG.DEFAULT_CHAIN_ID`. -/
def chainIdOrDefault (henv : HeaderEnv) (v : JSVal) : Int :=
  match henv.toNumber v with
  | some n => if n ≠ 0 then n else 43114
  | none => 43114

/-- What a middleware does with a request: it answers, or it attaches the
configuration as `req.config` and calls `next()`. -/
inductive Middleware where
  | respond (response : Response) : Middleware
  | next (config : Config) : Middleware

namespace Server

/-- The function `extractConfig` of `server.js`. -/
def extractConfig (henv : HeaderEnv) (req : Request) : Config :=
  let h := headerGet req.headers
  { apiKey := jsOr (jsOr (h "x-api-key") (h "x-apikey")) (h "x-api_key"),
    privateKey := jsOr (h "x-private-key") (h "x-private_key"),
    rpcUrl := jsOr (jsOr (h "x-rpc-url") (h "x-rpc_url"))
      (JSVal.str "https://api.avax.network/ext/bc/C/rpc"),
    gaslessApiKey :=
      jsOr (jsOr (jsOr (jsOr (h "x-gasless-api-key") (h "x-gasless_api_key")) (h "x-api-key"))
        (h "x-apikey")) (h "x-api_key"),
    chainId := chainIdOrDefault henv (jsOr (h "x-chain-id") (h "x-chain_id")),
    sxtApiKey := jsOr (h "x-sxt-api-key") (h "x-sxt_api_key"),
    defaultSlippage :=
      jsOr (jsOr (h "x-default-slippage") (h "x-default_slippage")) (JSVal.str "0.5"),
    userAgent := jsOr (h "user-agent") (JSVal.str "bhindi-agent"),
    timestamp := henv.dateNow }

/-- The middleware `authenticate` of `server.js`. -/
def authenticate (henv : HeaderEnv) (req : Request) : Middleware :=
  let config := extractConfig henv req
  if !config.apiKey.truthy then
    Middleware.respond
      { status := 401,
        body := JSVal.obj
          [("success", JSVal.bool false),
           ("error", JSVal.obj
             [("code", JSVal.str "AUTH_REQUIRED"),
              ("message", JSVal.str "API key required in x-api-key header"),
              ("timestamp", JSVal.str henv.nowIso)])] }
  else Middleware.next config

/-- The handler of `POST /tools/:toolName` of `server.js`, behind `authenticate`:
the response and the calls made downstream. -/
def postTools (henv : HeaderEnv) (env : Env) (req : Request) : Response × List Event :=
  match authenticate henv req with
  | Middleware.respond response => (response, [])
  | Middleware.next config =>
    let requestedTool := req.param
    let actualTool := resolveToolName requestedTool
    let args := jsOr req.body (JSVal.obj [])
    match findTool TOOLS_SCHEMA actualTool with
    | none =>
      ({ status := 404,
         body := JSVal.obj
           [("success", JSVal.bool false),
            ("error", JSVal.obj
              [("code", JSVal.str "TOOL_NOT_FOUND"),
               ("message", JSVal.str ("Tool '" ++ requestedTool ++ "' not found")),
               ("available", JSVal.arr (TOOLS_SCHEMA.map (fun t => JSVal.str t.name)))])] },
       [])
    | some _ =>
      ({ status := 200, body := (executeTool env actualTool args config).1 },
       (executeTool env actualTool args config).2)

/-- The handler of `POST /actions/:actionName` of `server.js`, behind
`authenticate`. -/
def postActions (henv : HeaderEnv) (env : Env) (req : Request) : Response × List Event :=
  match authenticate henv req with
  | Middleware.respond response => (response, [])
  | Middleware.next config =>
    let actualTool := resolveToolName req.param
    ({ status := 200,
       body := (executeTool env actualTool (jsOr req.body (JSVal.obj [])) config).1 },
     (executeTool env actualTool (jsOr req.body (JSVal.obj [])) config).2)

/-- The list `skipEndpoints` of the catch-all route. -/
def skipEndpoints : List String :=
  ["health", "tools", "actions", "capabilities", "debug", "favicon.ico", "robots.txt"]

/-- The final `app.use` of `server.js`, which answers what no route has answered. -/
def notFoundHandler (method path : String) : Response :=
  { status := 404,
    body := JSVal.obj
      [("success", JSVal.bool false),
       ("error", JSVal.obj
         [("code", JSVal.str "ENDPOINT_NOT_FOUND"),
          ("message", JSVal.str ("Endpoint " ++ method ++ " " ++ path ++ " not found")),
          ("availableEndpoints", JSVal.arr
            [JSVal.str "GET /health", JSVal.str "GET /tools", JSVal.str "GET /actions",
             JSVal.str "GET /capabilities", JSVal.str "POST /tools/:toolName",
             JSVal.str "POST /actions/:actionName"])])] }

/-- The catch-all handler of `POST /:toolName` of `server.js`.  For a name of
`skipEndpoints` it calls `next()`, after which only the final handler
matches. -/
def postUniversal (henv : HeaderEnv) (env : Env) (req : Request) : Response × List Event :=
  let toolName := req.param
  if skipEndpoints.contains toolName then (notFoundHandler "POST" ("/" ++ toolName), [])
  else
    let config := extractConfig henv req
    if !config.apiKey.truthy then
      ({ status := 401,
         body := JSVal.obj
           [("success", JSVal.bool false),
            ("error", JSVal.obj
              [("code", JSVal.str "AUTH_REQUIRED"),
               ("message", JSVal.str "API key required"),
               ("endpoint", JSVal.str ("/" ++ toolName))])] },
       [])
    else
      let actualTool := resolveToolName toolName
      ({ status := 200,
         body := (executeTool env actualTool (jsOr req.body (JSVal.obj [])) config).1 },
       (executeTool env actualTool (jsOr req.body (JSVal.obj [])) config).2)

end Server

namespace Demo

/-- The function `extractConfig` of `demo.js`. -/
def extractConfig (henv : HeaderEnv) (req : Request) : Config :=
  let h := headerGet req.headers
  { apiKey := jsOr (jsOr (h "x-api-key") (h "x-apiKey")) (h "x-api_key"),
    privateKey := jsOr (h "x-private-key") (h "x-private_key"),
    rpcUrl := jsOr (jsOr (h "x-rpc-url") (h "x-rpc_url"))
      (JSVal.str "https://api.avax.network/ext/bc/C/rpc"),
    gaslessApiKey :=
      jsOr (jsOr (jsOr (jsOr (h "x-gasless-api-key") (h "x-gasless_api_key")) (h "x-api-key"))
        (h "x-apiKey")) (h "x-api_key"),
    chainId := chainIdOrDefault henv (jsOr (h "x-chain-id") (h "x-chain_id")),
    sxtApiKey := jsOr (h "x-sxt-api-key") (h "x-sxt_api_key"),
    defaultSlippage :=
      jsOr (jsOr (h "x-default-slippage") (h "x-default_slippage")) (JSVal.str "0.5"),
    userAgent := jsOr (h "user-agent") (JSVal.str "bhindi-agent"),
    timestamp := henv.dateNow }

end Demo

/-! ## The expense gateway (`bhindibackend/server.js`) -/

/-- Property read `v.key` on a value known to be neither `undefined` nor `null`. -/
def memberOf (v : JSVal) (key : String) : JSVal :=
  match v with
  | JSVal.obj fields => objGet fields key
  | _ => protoGet key

/-- The call `items.slice(0, end)` for an integer `end`: a negative `end` counts
from the back. -/
def sliceTo {α : Type} (items : List α) (e : Int) : List α :=
  if e < 0 then items.take ((items.length : Int) + e).toNat else items.take e.toNat

namespace Expense

/-- The configuration record built by `extractBhindiConfig`. -/
structure Config where
  splitwiseToken : JSVal
  sarvamApiKey : JSVal
  apiKey : JSVal
  defaultGroupId : JSVal
  defaultCurrency : JSVal
  language : JSVal

/-- The arguments of one call of `callSplitwiseAPI`. -/
structure ApiCall where
  endpoint : String
  method : String
  data : JSVal
  authToken : JSVal

/-- The two shapes that `callSplitwiseAPI` returns: `success: true` with the
response data, or `success: false` with an error object. -/
inductive ApiResult where
  | success (data : JSVal) : ApiResult
  | failure (error : JSVal) : ApiResult

/-- What the handlers take from outside the embedding: the outcome of the HTTP
request that `callSplitwiseAPI` sends, the clock, the random id of a mock expense,
the number conversions (`ToIntegerOrInfinity` of a `limit` that is not a number,
`parseInt` of a group id), and the renderings of live Splitwise data, which
compute with floating point and dates: `pickGroup` is the group id chosen by the
auto-detection from the data of `/get_groups` (`none` when it keeps the
configured id), `liveBalance`, `liveExpenses`, `liveGroups` and `livePayment`
are the answers built from a successful response, and `listGroups` is the
diagnostic listing of groups after a 404; each may throw. -/
structure Env where
  request : ApiCall → ApiResult
  now : String
  randomId : Int
  toInteger : JSVal → Int
  parseInt : JSVal → JSVal
  pickGroup : JSVal → Except String (Option String)
  liveBalance : JSVal → ApiResult → Except String JSVal
  liveExpenses : JSVal → JSVal → Except String JSVal
  liveGroups : JSVal → Except String JSVal
  livePayment : JSVal → JSVal → JSVal → JSVal → Except String JSVal
  listGroups : JSVal → Except String Unit

/-- The function `callSplitwiseAPI`: without token it answers a failure and sends
nothing.  A token is a header value, a string; the request and its outcome,
which the function catches, are `env.request`. -/
def callSplitwiseAPI (env : Env) (call : ApiCall) : ApiResult :=
  if !call.authToken.truthy then
    ApiResult.failure (JSVal.obj [("message", JSVal.str "Splitwise token required"),
                                  ("code", JSVal.num 401)])
  else env.request call

/-- One member of the mock group. -/
def mockMember (id : Int) (firstName lastName email amount : String) : JSVal :=
  JSVal.obj [("id", JSVal.num id), ("first_name", JSVal.str firstName),
             ("last_name", JSVal.str lastName), ("email", JSVal.str email),
             ("balance", JSVal.arr [JSVal.obj [("currency_code", JSVal.str "INR"),
                                               ("amount", JSVal.str amount)]])]

/-- One expense of the mock group. -/
structure MockExpense where
  id : Int
  description : String
  cost : String
  date : String
  firstName : String
  lastName : String

/-- The JSON form of a mock expense. -/
def MockExpense.toJS (e : MockExpense) : JSVal :=
  JSVal.obj [("id", JSVal.num e.id), ("description", JSVal.str e.description),
             ("cost", JSVal.str e.cost), ("currency_code", JSVal.str "INR"),
             ("date", JSVal.str e.date),
             ("created_by", JSVal.obj [("first_name", JSVal.str e.firstName),
                                       ("last_name", JSVal.str e.lastName)])]

/-- The expenses of `mockSplitwiseData.groups["12345"]`. -/
def mockExpenses : List MockExpense :=
  [ { id := 5001, description := "Hotel Stay - Goa", cost := "4000.00",
      date := "2025-06-15T12:00:00Z", firstName := "Rahul", lastName := "You" },
    { id := 5002, description := "Dinner at Beach Resort", cost := "2400.00",
      date := "2025-06-16T19:30:00Z", firstName := "Sandeep", lastName := "Kumar" } ]

/-- The first names of the members of the mock group. -/
def mockMemberNames : List String := ["Rahul", "Sandeep", "Priya"]

/-- The group `mockSplitwiseData.groups["12345"]`. -/
def mockGroup : JSVal :=
  JSVal.obj
    [("name", JSVal.str "Goa Trip 2025"), ("id", JSVal.num 12345),
     ("group_type", JSVal.str "trip"),
     ("members", JSVal.arr
       [mockMember 1001 "Rahul" "You" "rahul@example.com" "2100.00",
        mockMember 1002 "Sandeep" "Kumar" "sandeep@example.com" "-800.00",
        mockMember 1003 "Priya" "Sharma" "priya@example.com" "-650.00"]),
     ("expenses", JSVal.arr (mockExpenses.map MockExpense.toJS))]

/-- The group-id detection shared by the handlers: for the ids `auto` and `12345`
it asks Splitwise for the groups and takes the first real one.  The result is the
group id to use and the calls made. -/
def autoDetect (env : Env) (token groupId : JSVal) : Except String JSVal × List ApiCall :=
  if groupId.isStr "auto" || groupId.isStr "12345" then
    let call : ApiCall :=
      { endpoint := "/get_groups", method := "GET", data := JSVal.null, authToken := token }
    match callSplitwiseAPI env call with
    | ApiResult.success data =>
      match env.pickGroup data with
      | .error e => (.error e, [call])
      | .ok (some id) => (.ok (JSVal.str id), [call])
      | .ok none => (.ok groupId, [call])
    | ApiResult.failure _ => (.ok groupId, [call])
  else (.ok groupId, [])

/-- The answer of `handleGetSplitwiseBalance` from the mock group; the amounts
`2100.00`, `-800.00`, `-650.00` of the mock members are printed with two
decimals. -/
def mockBalance : JSVal :=
  JSVal.obj
    [("success", JSVal.bool true),
     ("data", JSVal.obj
       [("text", JSVal.str
          ("Here's your balance in Goa Trip 2025: You are owed ₹2100.00. " ++
           "Sandeep owes you ₹800.00. Priya owes you ₹650.00. " ++
           " (Demo data - configure Splitwise token for real data)")),
        ("group", mockGroup),
        ("source", JSVal.str "mock-data")])]

/-- The function `handleGetSplitwiseBalance`: the answer (an error is a
rejection) and the calls of `callSplitwiseAPI` it made.  The first log line
prints the group id in a template literal, so a group id without a string form
throws before the token is looked at. -/
def handleGetSplitwiseBalance (env : Env) (params : JSVal) (config : Config) :
    Except String JSVal × List ApiCall :=
  match readProp params "groupId" with
  | .error e => (.error e, [])
  | .ok requested =>
    let groupId0 := jsOr requested config.defaultGroupId
    match groupId0.toStr with
    | .error e => (.error e, [])
    | .ok _ =>
    if config.splitwiseToken.truthy then
      match autoDetect env config.splitwiseToken groupId0 with
      | (.error e, calls) => (.error e, calls)
      | (.ok groupId, calls) =>
        match groupId.toStr with
        | .error e => (.error e, calls)
        | .ok groupText =>
          let call : ApiCall :=
            { endpoint := "/get_group/" ++ groupText, method := "GET", data := JSVal.null,
              authToken := config.splitwiseToken }
          match callSplitwiseAPI env call with
          | ApiResult.success data =>
            if data.truthy && (memberOf data "group").truthy then
              let userCall : ApiCall :=
                { endpoint := "/get_current_user", method := "GET", data := JSVal.null,
                  authToken := config.splitwiseToken }
              (env.liveBalance (memberOf data "group") (callSplitwiseAPI env userCall),
               calls ++ [call, userCall])
            else (.ok mockBalance, calls ++ [call])
          | ApiResult.failure _ => (.ok mockBalance, calls ++ [call])
    else (.ok mockBalance, [])

/-- The line of one mock expense in the text of the mock answer. -/
def mockExpenseLine (e : MockExpense) : String :=
  e.description ++ ": ₹" ++ e.cost ++ " (paid by " ++ e.firstName ++ ")"

/-- The end index that `slice(0, limit)` uses: the conversion of a `limit`
that is not a number goes through its primitive form, which an object with an
own `toString` property does not have. -/
def sliceEnd (env : Env) (limit : JSVal) : Except String Int :=
  match limit with
  | JSVal.num n => .ok n
  | other =>
    match other.toStr with
    | .error e => .error e
    | .ok _ => .ok (env.toInteger other)

/-- The mock answer of `handleGetSplitwiseExpenses` for the expenses kept by
`slice`. -/
def mockExpensesOf (expenses : List MockExpense) : JSVal :=
  JSVal.obj
    [("success", JSVal.bool true),
     ("data", JSVal.obj
       [("text", JSVal.str
          ("Recent expenses in Goa Trip 2025: " ++
           ", ".intercalate (expenses.map mockExpenseLine) ++ " (Demo data)")),
        ("expenses", JSVal.arr (expenses.map MockExpense.toJS)),
        ("source", JSVal.str "mock-data")])]

/-- The answer of `handleGetSplitwiseExpenses` from the mock group. -/
def mockExpensesAnswer (env : Env) (limit : JSVal) : Except String JSVal :=
  match sliceEnd env limit with
  | .error e => .error e
  | .ok e => .ok (mockExpensesOf (sliceTo mockExpenses e))

/-- The test `result.error?.code === 404`. -/
def isNotFound (error : JSVal) : Bool :=
  match error with
  | JSVal.undefined => false
  | JSVal.null => false
  | other =>
    match memberOf other "code" with
    | JSVal.num n => n == 404
    | JSVal.number x => x.eqInt 404
    | _ => false

/-- The destructuring `const { limit = 10 } = params`: the default replaces
`undefined` only. -/
def limitOrDefault (params : JSVal) : JSVal :=
  match memberOf params "limit" with
  | JSVal.undefined => JSVal.num 10
  | given => given

/-- The function `handleGetSplitwiseExpenses`. -/
def handleGetSplitwiseExpenses (env : Env) (params : JSVal) (config : Config) :
    Except String JSVal × List ApiCall :=
  match readProp params "groupId" with
  | .error e => (.error e, [])
  | .ok requested =>
    let groupId0 := jsOr requested config.defaultGroupId
    let limit := limitOrDefault params
    match groupId0.toStr with
    | .error e => (.error e, [])
    | .ok _ =>
    if config.splitwiseToken.truthy then
      match autoDetect env config.splitwiseToken groupId0 with
      | (.error e, calls) => (.error e, calls)
      | (.ok groupId, calls) =>
        match groupId.toStr with
        | .error e => (.error e, calls)
        | .ok groupText =>
          match limit.toStr with
          | .error e => (.error e, calls)
          | .ok limitText =>
            let call : ApiCall :=
              { endpoint := "/get_expenses?group_id=" ++ groupText ++ "&limit=" ++ limitText,
                method := "GET", data := JSVal.null, authToken := config.splitwiseToken }
            match callSplitwiseAPI env call with
            | ApiResult.success data =>
              if data.truthy && (memberOf data "expenses").truthy then
                (env.liveExpenses (memberOf data "expenses") limit, calls ++ [call])
              else (mockExpensesAnswer env limit, calls ++ [call])
            | ApiResult.failure error =>
              if isNotFound error then
                let groupsCall : ApiCall :=
                  { endpoint := "/get_groups", method := "GET", data := JSVal.null,
                    authToken := config.splitwiseToken }
                match callSplitwiseAPI env groupsCall with
                | ApiResult.success groupsData =>
                  match env.listGroups groupsData with
                  | .error e => (.error e, calls ++ [call, groupsCall])
                  | .ok _ =>
                    (mockExpensesAnswer env limit, calls ++ [call, groupsCall])
                | ApiResult.failure _ =>
                  (mockExpensesAnswer env limit, calls ++ [call, groupsCall])
              else (mockExpensesAnswer env limit, calls ++ [call])
    else (mockExpensesAnswer env limit, [])

/-- The answer of `handleGetSplitwiseGroups` from the mock data. -/
def mockGroupsAnswer : JSVal :=
  JSVal.obj
    [("success", JSVal.bool true),
     ("data", JSVal.obj
       [("text", JSVal.str "Your groups: Goa Trip 2025 (ID: 12345) (Demo data)"),
        ("groups", JSVal.arr [mockGroup]),
        ("source", JSVal.str "mock-data")])]

/-- The function `handleGetSplitwiseGroups`. -/
def handleGetSplitwiseGroups (env : Env) (_params : JSVal) (config : Config) :
    Except String JSVal × List ApiCall :=
  if config.splitwiseToken.truthy then
    let call : ApiCall :=
      { endpoint := "/get_groups", method := "GET", data := JSVal.null,
        authToken := config.splitwiseToken }
    match callSplitwiseAPI env call with
    | ApiResult.success data =>
      if data.truthy && (memberOf data "groups").truthy then
        (env.liveGroups (memberOf data "groups"), [call])
      else (.ok mockGroupsAnswer, [call])
    | ApiResult.failure _ => (.ok mockGroupsAnswer, [call])
  else (.ok mockGroupsAnswer, [])

/-- The answer `success: false` with a message and a numeric code. -/
def failureAnswer (message : String) (code : Int) : JSVal :=
  JSVal.obj [("success", JSVal.bool false),
             ("error", JSVal.obj [("message", JSVal.str message), ("code", JSVal.num code)])]

/-- The search `group.members.find(m => m.first_name.toLowerCase() ===
friendName.toLowerCase())` in the mock group: whether a member is found. -/
def mockFriendFound (friendName : JSVal) : Except String Bool :=
  match callToLowerCase "friendName" friendName with
  | .error e => .error e
  | .ok lower => .ok (mockMemberNames.any (fun name => jsToLowerCase name == lower))

/-- The part of `handlePayFriendSplitwise` that answers from the mock group. -/
def mockPayment (friendName amount groupId : JSVal) (friendText amountText : String) :
    Except String JSVal :=
  match mockFriendFound friendName with
  | .error e => .error e
  | .ok false =>
    .ok (failureAnswer
      (friendText ++ " not found. Available: " ++ ", ".intercalate mockMemberNames) 404)
  | .ok true =>
    .ok (JSVal.obj
      [("success", JSVal.bool true),
       ("data", JSVal.obj
         [("text", JSVal.str
            ("Ready to settle ₹" ++ amountText ++ " with " ++ friendText ++
             " in Goa Trip 2025. Say 'confirm' to proceed. (Demo data)")),
          ("pendingPayment", JSVal.obj
            [("friend", friendName), ("amount", amount), ("groupId", groupId)]),
          ("source", JSVal.str "mock-data")])])

/-- The function `handlePayFriendSplitwise`. -/
def handlePayFriendSplitwise (env : Env) (params : JSVal) (config : Config) :
    Except String JSVal × List ApiCall :=
  match readProp params "friendName" with
  | .error e => (.error e, [])
  | .ok friendName =>
    let amount := memberOf params "amount"
    let groupId0 := jsOr (memberOf params "groupId") config.defaultGroupId
    if !friendName.truthy || !amount.truthy then
      (.ok (failureAnswer "friendName and amount parameters are required" 400), [])
    else
      match amount.toStr with
      | .error e => (.error e, [])
      | .ok amountText =>
        match friendName.toStr with
        | .error e => (.error e, [])
        | .ok friendText =>
          if config.splitwiseToken.truthy then
            match autoDetect env config.splitwiseToken groupId0 with
            | (.error e, calls) => (.error e, calls)
            | (.ok groupId, calls) =>
              match groupId.toStr with
              | .error e => (.error e, calls)
              | .ok groupText =>
                let call : ApiCall :=
                  { endpoint := "/get_group/" ++ groupText, method := "GET",
                    data := JSVal.null, authToken := config.splitwiseToken }
                match callSplitwiseAPI env call with
                | ApiResult.success data =>
                  if data.truthy && (memberOf data "group").truthy then
                    (env.livePayment (memberOf data "group") friendName amount groupId,
                     calls ++ [call])
                  else
                    (mockPayment friendName amount groupId friendText amountText,
                     calls ++ [call])
                | ApiResult.failure _ =>
                  (mockPayment friendName amount groupId friendText amountText,
                   calls ++ [call])
          else (mockPayment friendName amount groupId0 friendText amountText, [])

/-- Element 0 of a value read as `v[0]`. -/
def firstOf (v : JSVal) : JSVal :=
  match v with
  | JSVal.arr (item :: _) => item
  | JSVal.arr [] => JSVal.undefined
  | JSVal.str s =>
    match s.data with
    | c :: _ => JSVal.str (String.singleton c)
    | [] => JSVal.undefined
  | other => memberOf other "0"

/-- The function `handleCreateSplitwiseExpense`. -/
def handleCreateSplitwiseExpense (env : Env) (params : JSVal) (config : Config) :
    Except String JSVal × List ApiCall :=
  match readProp params "description" with
  | .error e => (.error e, [])
  | .ok description =>
    let amount := memberOf params "amount"
    let groupId0 := jsOr (memberOf params "groupId") config.defaultGroupId
    let currency := jsOr config.defaultCurrency (JSVal.str "INR")
    if !description.truthy || !amount.truthy then
      (.ok (failureAnswer "description and amount parameters are required" 400), [])
    else
      match description.toStr with
      | .error e => (.error e, [])
      | .ok descriptionText =>
        match amount.toStr with
        | .error e => (.error e, [])
        | .ok amountText =>
          if config.splitwiseToken.truthy then
            match autoDetect env config.splitwiseToken groupId0 with
            | (.error e, calls) => (.error e, calls)
            | (.ok groupId, calls) =>
              match groupId.toStr with
              | .error e => (.error e, calls)
              | .ok _ =>
              match callToString "amount" amount with
              | .error e => (.error e, calls)
              | .ok cost =>
                let call : ApiCall :=
                  { endpoint := "/create_expense", method := "POST",
                    data := JSVal.obj
                      [("group_id", env.parseInt groupId), ("description", description),
                       ("cost", JSVal.str cost), ("currency_code", currency),
                       ("split_equally", JSVal.bool true)],
                    authToken := config.splitwiseToken }
                match callSplitwiseAPI env call with
                | ApiResult.success data =>
                  if data.truthy && (memberOf data "expenses").truthy then
                    let createdExpense := firstOf (memberOf data "expenses")
                    match readProp createdExpense "id" with
                    | .error e => (.error e, calls ++ [call])
                    | .ok _ =>
                      (.ok (JSVal.obj
                        [("success", JSVal.bool true),
                         ("data", JSVal.obj
                           [("text", JSVal.str
                              ("Expense \"" ++ descriptionText ++ "\" for ₹" ++ amountText ++
                               " created successfully in Splitwise")),
                            ("expense", createdExpense),
                            ("source", JSVal.str "splitwise-api")])]),
                       calls ++ [call])
                  else
                    (.ok (JSVal.obj
                      [("success", JSVal.bool false),
                       ("error", JSVal.obj
                         [("message", JSVal.str "Failed to create expense in Splitwise"),
                          ("code", JSVal.num 500), ("details", JSVal.undefined)])]),
                     calls ++ [call])
                | ApiResult.failure error =>
                  (.ok (JSVal.obj
                    [("success", JSVal.bool false),
                     ("error", JSVal.obj
                       [("message",
                          jsOr (if error.truthy then memberOf error "message"
                                else JSVal.undefined)
                            (JSVal.str "Failed to create expense in Splitwise")),
                        ("code",
                          jsOr (if error.truthy then memberOf error "code"
                                else JSVal.undefined) (JSVal.num 500)),
                        ("details",
                          if error.truthy then memberOf error "originalError"
                          else JSVal.undefined)])]),
                   calls ++ [call])
          else
            match callToString "amount" amount with
            | .error e => (.error e, [])
            | .ok cost =>
              (.ok (JSVal.obj
                [("success", JSVal.bool true),
                 ("data", JSVal.obj
                   [("text", JSVal.str
                      ("Demo: Expense \"" ++ descriptionText ++ "\" for ₹" ++ amountText ++
                       " would be created (Configure token for real creation)")),
                    ("expense", JSVal.obj
                      [("id", JSVal.num env.randomId), ("description", description),
                       ("cost", JSVal.str cost), ("currency_code", currency),
                       ("group_id", groupId0), ("date", JSVal.str env.now),
                       ("created_by", JSVal.obj [("first_name", JSVal.str "You"),
                                                 ("last_name", JSVal.str "")])]),
                    ("source", JSVal.str "mock-data")])]),
               [])

/-- The names of `bhindiTools`, in order. -/
def toolNames : List String :=
  ["getSplitwiseBalance", "getSplitwiseExpenses", "getExpenses", "fetchUserExpenses",
   "listTransactions", "getSplitwiseGroups", "payFriendSplitwise", "createSplitwiseExpense"]

/-- The list `parameters.required` of a tool of `bhindiTools`. -/
def required (toolName : String) : List String :=
  if toolName = "payFriendSplitwise" then ["friendName", "amount"]
  else if toolName = "createSplitwiseExpense" then ["description", "amount"]
  else []

/-- The `switch` of `POST /tools/:toolName`: the handler of a tool name. -/
def runTool (env : Env) (toolName : String) (params : JSVal) (config : Config) :
    Except String JSVal × List ApiCall :=
  if toolName = "getSplitwiseBalance" then handleGetSplitwiseBalance env params config
  else if toolName = "getSplitwiseExpenses" ∨ toolName = "getExpenses" ∨
      toolName = "fetchUserExpenses" ∨ toolName = "listTransactions" then
    handleGetSplitwiseExpenses env params config
  else if toolName = "getSplitwiseGroups" then handleGetSplitwiseGroups env params config
  else if toolName = "payFriendSplitwise" then handlePayFriendSplitwise env params config
  else if toolName = "createSplitwiseExpense" then
    handleCreateSplitwiseExpense env params config
  else
    (.ok (JSVal.obj
      [("success", JSVal.bool false),
       ("error", JSVal.obj
         [("message", JSVal.str ("Tool '" ++ toolName ++ "' not found. Available tools: " ++
            ", ".intercalate toolNames)),
          ("code", JSVal.num 404),
          ("availableTools", JSVal.arr (toolNames.map JSVal.str))])]),
     [])

end Expense

/-! ## Sample inputs -/

/-- A request configuration for Avalanche with every credential present. -/
def sampleConfig : Config :=
  { apiKey := JSVal.str "key", privateKey := JSVal.str "0xprivate",
    rpcUrl := JSVal.str "https://api.avax.network/ext/bc/C/rpc",
    gaslessApiKey := JSVal.str "key", chainId := 43114, sxtApiKey := JSVal.undefined,
    defaultSlippage := JSVal.str "0.5", userAgent := JSVal.str "bhindi-agent",
    timestamp := 1700000000000 }

/-- Demo mode: `initializeAgentkit` yields no client. -/
def demoModeEnv : Env :=
  { executionId := "k3x9q2m1z", now := "2024-01-01T00:00:00.000Z",
    randomHex := "9f3c2a71b4e85", initializeAgentkit := fun _ => (none, []) }

/-- A well-formed recipient address. -/
def sampleAddress : String := "0xaaaaaaaaaaaaaaaaaaaaaaaaaaaaaaaaaaaaaaaa"

/-- A well-formed transaction hash. -/
def sampleTxHash : String :=
  "0xbbbbbbbbbbbbbbbbbbbbbbbbbbbbbbbbbbbbbbbbbbbbbbbbbbbbbbbbbbbbbbbb"

/-- A result text of the SDK that reports an error after the transaction went
through. -/
def bundlerErrorText : String :=
  "Error: bundler timed out, user operation sent in transaction " ++ sampleTxHash

/-- Live mode: the SDK client is available, lists the six actions of the
registry, and answers every run with `bundlerErrorText`. -/
def liveEnv : Env :=
  { executionId := "k3x9q2m1z", now := "2024-01-01T00:00:00.000Z",
    randomHex := "9f3c2a71b4e85",
    initializeAgentkit := fun _ =>
      (some { run := fun _ _ => .ok (JSVal.str bundlerErrorText) },
       [{ name := "get_address" }, { name := "get_balance" }, { name := "smart_transfer" },
        { name := "smart_swap" }, { name := "smart_bridge" }, { name := "execute_sxt_sql" }]) }

/-- An environment of `demo.js` in demo mode, with a mock responder that answers
with an empty result. -/
def demoSampleEnv : Demo.Env :=
  { executionId := "k3x9q2m1z", now := "2024-01-01T00:00:00.000Z",
    initializeAgentkit := fun _ => (none, []),
    generateMockResponse := fun _ _ _ =>
      .ok (JSVal.obj [("success", JSVal.bool true), ("data", JSVal.obj [])]) }

/-- A transfer request without recipient. -/
def missingToArgs : JSVal := JSVal.obj [("amount", JSVal.str "1")]

/-- A clock and a number conversion that reads the texts `43114`, `56` and `1`. -/
def sampleHeaderEnv : HeaderEnv :=
  { dateNow := 1700000000000, nowIso := "2024-01-01T00:00:00.000Z",
    toNumber := fun v =>
      if v.isStr "43114" then some 43114
      else if v.isStr "56" then some 56
      else if v.isStr "1" then some 1
      else none }

/-- An authenticated request for the unregistered name `mintNft`. -/
def unknownToolRequest : Request :=
  { headers := [("x-api-key", "key")], param := "mintNft", body := JSVal.obj [] }

/-- An environment of the expense gateway in which Splitwise refuses every
request with status 401, as it does for an expired token. -/
def unauthorizedEnv : Expense.Env :=
  { request := fun _ =>
      Expense.ApiResult.failure
        (JSVal.obj [("message", JSVal.str "Invalid Splitwise token or unauthorized access"),
                    ("code", JSVal.num 401), ("originalError", JSVal.undefined)]),
    now := "2025-07-01T00:00:00.000Z",
    randomId := 4711,
    toInteger := fun _ => 0,
    parseInt := fun v => v,
    pickGroup := fun _ => .ok none,
    liveBalance := fun _ _ => .error "not reached",
    liveExpenses := fun _ _ => .error "not reached",
    liveGroups := fun _ => .error "not reached",
    livePayment := fun _ _ _ _ => .error "not reached",
    listGroups := fun _ => .ok () }

/-- The configuration that `extractBhindiConfig` builds from the headers
`x-api-key: key` and `x-splitwise-key: expired-token`. -/
def expiredTokenConfig : Expense.Config :=
  { splitwiseToken := JSVal.str "expired-token", sarvamApiKey := JSVal.undefined,
    apiKey := JSVal.str "key", defaultGroupId := JSVal.str "12345",
    defaultCurrency := JSVal.str "INR", language := JSVal.str "en-IN" }

/-- The configuration that `extractBhindiConfig` builds from the header
`x-api-key: key` alone: no Splitwise token. -/
def noTokenConfig : Expense.Config :=
  { splitwiseToken := JSVal.undefined, sarvamApiKey := JSVal.undefined,
    apiKey := JSVal.str "key", defaultGroupId := JSVal.str "12345",
    defaultCurrency := JSVal.str "INR", language := JSVal.str "en-IN" }

/-- A payment request that names a friend who is not in the mock group. -/
def unknownFriendParams : JSVal :=
  JSVal.obj [("friendName", JSVal.str "Amit"), ("amount", JSVal.num 100)]

/-- A payment request that names a member of the mock group. -/
def knownFriendFields : List (String × JSVal) :=
  [("friendName", JSVal.str "sandeep"), ("amount", JSVal.num 100)]

/-- A swap request whose amount is the number `1e21`. -/
def largeAmountFields : List (String × JSVal) :=
  [("fromToken", JSVal.str "USDT"), ("toToken", JSVal.str "avax"),
   ("amount", JSVal.num 1000000000000000000000)]

/-- A swap request whose amount is the number `1.5`. -/
def fractionAmountFields : List (String × JSVal) :=
  [("fromToken", JSVal.str "USDT"), ("toToken", JSVal.str "avax"),
   ("amount", JSVal.number (JSNumber.ofRatio false 3 2))]

/-- A transfer request whose recipient is not an address. -/
def malformedToArgs : JSVal :=
  JSVal.obj [("to", JSVal.str "not-an-address"), ("amount", JSVal.str "1")]

/-- A transfer request with a negative amount. -/
def negativeAmountArgs : JSVal :=
  JSVal.obj [("to", JSVal.str sampleAddress), ("amount", JSVal.str "-5")]

/-- A transfer request whose token symbol names a member that the symbol table
inherits from `Object.prototype`. -/
def inheritedSymbolArgs : JSVal :=
  JSVal.obj [("to", JSVal.str sampleAddress), ("amount", JSVal.str "1"),
             ("tokenAddress", JSVal.str "constructor")]

/-! ## Theorems -/

/-- C1: in both `server.js` and `demo.js`, every alias of a registered tool
resolves to that tool's canonical name, and every canonical name resolves to
itself. -/
theorem resolveToolName_alias_and_canonical :
    (∀ t ∈ Server.TOOLS_SCHEMA,
        Server.resolveToolName t.name = t.name ∧
        ∀ a ∈ t.aliases, Server.resolveToolName a = t.name) ∧
    (∀ t ∈ Demo.TOOLS_SCHEMA,
        Demo.resolveToolName t.name = t.name ∧
        ∀ a ∈ t.aliases, Demo.resolveToolName a = t.name) := by
  refine ⟨?_, ?_⟩
  · intro t ht
    simp only [Server.TOOLS_SCHEMA, List.mem_cons, List.mem_singleton, List.not_mem_nil,
      or_false] at ht
    rcases ht with rfl | rfl | rfl | rfl | rfl | rfl <;>
      exact ⟨by decide, by decide⟩
  · intro t ht
    simp only [Demo.TOOLS_SCHEMA, List.mem_cons, List.mem_singleton, List.not_mem_nil,
      or_false] at ht
    rcases ht with rfl | rfl | rfl | rfl | rfl | rfl <;>
      exact ⟨by decide, by decide⟩

/-! ### Numbers -/

/-- The number conversions at sample inputs: `parseFloat` reads the longest
decimal prefix, `toString` prints the shortest digits that read back, in
exponent form from `1e21` on and below `1e-6`. -/
theorem parseFloat_toString_samples :
    (parseFloat "1").toString = "1" ∧ (parseFloat "1.0").toString = "1" ∧
    (parseFloat "0.1").toString = "0.1" ∧ (parseFloat "2.50").toString = "2.5" ∧
    (parseFloat "1e21").toString = "1e+21" ∧
    (parseFloat "0.000001").toString = "0.000001" ∧
    (parseFloat "  3.14abc").toString = "3.14" ∧
    (parseFloat ".5").toString = "0.5" ∧ (parseFloat "-0").toString = "0" ∧
    (parseFloat "Infinity").toString = "Infinity" ∧
    (parseFloat "9007199254740993").toString = "9007199254740992" ∧
    (parseFloat "abc").isNaN = true ∧ (parseFloat "").isNaN = true ∧
    (parseFloat "-5").leZero = true ∧ (parseFloat "0").leZero = true ∧
    (parseFloat "0x10").leZero = true ∧
    numToString 100 = "100" ∧ numToString (-5) = "-5" ∧
    numToString 1000000000000000000000 = "1e+21" ∧
    (JSNumber.ofRatio false 3 2).toString = "1.5" ∧
    (JSNumber.ofRatio true 1 3).toString = "-0.3333333333333333" := by
  and_intros <;> decide

/-! ### Strings and objects -/

@[simp] theorem toStr_str (s : String) : (JSVal.str s).toStr = .ok s := by
  simp [JSVal.toStr]

theorem isJSWhiteSpace_of_isHexDigit (c : Char) (h : isHexDigit c = true) :
    isJSWhiteSpace c = false := by
  simp only [isHexDigit, Bool.or_eq_true, Bool.and_eq_true, decide_eq_true_eq] at h
  simp only [isJSWhiteSpace, Bool.or_eq_false_iff, Bool.and_eq_false_imp, beq_eq_false_iff_ne,
    decide_eq_true_eq, decide_eq_false_iff_not, ne_eq]
  omega

theorem trimEndChars_eq_self (cs : List Char) (h : ∀ c ∈ cs, isJSWhiteSpace c = false) :
    trimEndChars cs = cs := by
  induction cs with
  | nil => rfl
  | cons c cs ih =>
    have hc : isJSWhiteSpace c = false := h c (List.mem_cons_self c cs)
    have ih2 := ih (fun d hd => h d (List.mem_cons_of_mem c hd))
    cases cs with
    | nil => simp [trimEndChars, hc]
    | cons d ds => simp only [trimEndChars] at ih2 ⊢; rw [ih2]

theorem trimStartChars_cons (c : Char) (cs : List Char) (h : isJSWhiteSpace c = false) :
    trimStartChars (c :: cs) = c :: cs := by
  simp [trimStartChars, h]

theorem isAddressChars_iff (cs : List Char) :
    isAddressChars cs = true ↔
      ∃ rest, cs = '0' :: 'x' :: rest ∧ rest.length = 40 ∧ ∀ c ∈ rest, isHexDigit c = true := by
  constructor
  · intro h
    unfold isAddressChars at h
    split at h
    · rename_i rest
      simp only [Bool.and_eq_true, beq_iff_eq, List.all_eq_true] at h
      exact ⟨rest, rfl, h.1, h.2⟩
    · simp at h
  · rintro ⟨rest, rfl, hl, hh⟩
    simp only [isAddressChars, Bool.and_eq_true, beq_iff_eq, List.all_eq_true]
    exact ⟨hl, hh⟩

theorem jsTrim_of_isAddress (s : String) (h : isAddress s = true) : jsTrim s = s := by
  obtain ⟨rest, hs, -, hh⟩ := (isAddressChars_iff s.data).1 h
  have hall : ∀ c ∈ s.data, isJSWhiteSpace c = false := by
    intro c hc
    rw [hs] at hc
    simp only [List.mem_cons] at hc
    rcases hc with rfl | rfl | hc
    · decide
    · decide
    · exact isJSWhiteSpace_of_isHexDigit c (hh c hc)
  have h1 : trimEndChars s.data = s.data := trimEndChars_eq_self s.data hall
  have h2 : trimStartChars s.data = s.data := by
    rw [hs]; exact trimStartChars_cons _ _ (by decide)
  simp only [jsTrim, h1, h2]


theorem ownGet_filter_key (p : String → Bool) (fields : List (String × JSVal)) (key : String)
    (hk : p key = true) :
    ownGet (fields.filter (fun kv => p kv.1)) key = ownGet fields key := by
  induction fields with
  | nil => rfl
  | cons kv rest ih =>
    obtain ⟨k, v⟩ := kv
    by_cases hkk : k = key
    · subst hkk
      rw [List.filter_cons_of_pos (by simpa using hk)]
      simp only [ownGet, if_true]
    · cases hc : p k
      · rw [List.filter_cons_of_neg (by simp [hc])]
        simp only [ownGet, if_neg hkk, ih]
      · rw [List.filter_cons_of_pos (by simpa using hc)]
        simp only [ownGet, if_neg hkk, ih]

theorem cleanBhindiParameters_obj (fields : List (String × JSVal)) (toolName : String) :
    Server.cleanBhindiParameters (JSVal.obj fields) toolName =
      JSVal.obj (fields.filter (fun kv => !Server.bhindiParams.contains kv.1)) := by
  have hc : ¬ ((!(JSVal.obj fields).truthy || (JSVal.obj fields).typeof != "object") = true) := by
    simp only [JSVal.truthy, JSVal.typeof]
    decide
  unfold Server.cleanBhindiParameters
  rw [if_neg hc]

theorem cleanBhindiParameters_get (fields : List (String × JSVal)) (toolName key : String)
    (hk : Server.bhindiParams.contains key = false) :
    (Server.cleanBhindiParameters (JSVal.obj fields) toolName).get key =
      (JSVal.obj fields).get key := by
  have h := ownGet_filter_key (fun k => !Server.bhindiParams.contains k) fields key
    (by simp only [hk, Bool.not_false])
  rw [cleanBhindiParameters_obj]
  simp only [JSVal.get, objGet, h]

theorem isAddress_ne_empty (s : String) (h : isAddress s = true) : s ≠ "" := by
  rintro rfl
  simp [isAddress, isAddressChars] at h

/-- C2: in `server.js`, for an argument object whose `to` is a string of address
shape, whose `amount` is a non-empty string and whose token resolves to
`tokenAddress`, `processTransferParameters` returns the object with exactly the
fields `amount` (the input string), `tokenAddress` and `destination` (the input
`to`), and that object has no field `to`. -/
theorem processTransferParameters_valid (fields : List (String × JSVal)) (to_ amount : String)
    (chainId : Int) (tokenAddress : JSVal)
    (hto : (JSVal.obj fields).get "to" = JSVal.str to_)
    (haddr : isAddress to_ = true)
    (hamount : (JSVal.obj fields).get "amount" = JSVal.str amount)
    (hne : amount ≠ "")
    (htoken : Server.resolveTokenAddress
      (jsOr ((JSVal.obj fields).get "tokenAddress") (JSVal.str "eth")) chainId =
        .ok tokenAddress) :
    Server.processTransferParameters (JSVal.obj fields) chainId =
      .ok (JSVal.obj [("amount", JSVal.str amount), ("tokenAddress", tokenAddress),
                      ("destination", JSVal.str to_)]) ∧
    ownGet [("amount", JSVal.str amount), ("tokenAddress", tokenAddress),
            ("destination", JSVal.str to_)] "to" = none := by
  refine ⟨?_, by simp [ownGet]⟩
  have h1 := cleanBhindiParameters_get fields "transferTokens" "to" (by decide)
  have h2 := cleanBhindiParameters_get fields "transferTokens" "amount" (by decide)
  have h3 := cleanBhindiParameters_get fields "transferTokens" "tokenAddress" (by decide)
  have hto_ne := isAddress_ne_empty to_ haddr
  simp only [Server.processTransferParameters, h1, h2, h3, hto, hamount, htoken, JSVal.truthy,
    callTrim, callToString, JSVal.toStr, jsTrim_of_isAddress to_ haddr]
  simp [hto_ne, hne]

theorem processTransferParameters_valid_witness :
    Server.processTransferParameters
        (JSVal.obj [("to", JSVal.str "0xaaaaaaaaaaaaaaaaaaaaaaaaaaaaaaaaaaaaaaaa"),
                    ("amount", JSVal.str "1"), ("tokenAddress", JSVal.str "USDT")]) 43114 =
      .ok (JSVal.obj [("amount", JSVal.str "1"),
                      ("tokenAddress", JSVal.str "0x9702230A8Ea53601f5cD2dc00fDBc13d4dF4A8c7"),
                      ("destination", JSVal.str "0xaaaaaaaaaaaaaaaaaaaaaaaaaaaaaaaaaaaaaaaa")]) :=
  (processTransferParameters_valid
    [("to", JSVal.str "0xaaaaaaaaaaaaaaaaaaaaaaaaaaaaaaaaaaaaaaaa"),
     ("amount", JSVal.str "1"), ("tokenAddress", JSVal.str "USDT")]
    "0xaaaaaaaaaaaaaaaaaaaaaaaaaaaaaaaaaaaaaaaa" "1" 43114
    (JSVal.str "0x9702230A8Ea53601f5cD2dc00fDBc13d4dF4A8c7")
    rfl (by decide) rfl (by decide) rfl).1

/-- C5: in both `server.js` and `demo.js`, `resolveTokenAddress` returns a string of
address shape unchanged, whatever the chain id (listed in `CHAIN_CONFIGS` or
not). -/
theorem resolveTokenAddress_address_unchanged (s : String) (chainId : Int)
    (h : isAddress s = true) :
    Server.resolveTokenAddress (JSVal.str s) chainId = .ok (JSVal.str s) ∧
    Demo.resolveTokenAddress (JSVal.str s) chainId = .ok (JSVal.str s) := by
  have hne := isAddress_ne_empty s h
  constructor
  · simp [Server.resolveTokenAddress, Server.resolveTokenAddressIn, JSVal.truthy, JSVal.isStr,
      hne, h]
  · simp [Demo.resolveTokenAddress, Demo.resolveTokenAddressIn, JSVal.truthy, JSVal.isStr,
      hne, h]

theorem resolveTokenAddress_address_unchanged_witness :
    isAddress "0x9702230A8Ea53601f5cD2dc00fDBc13d4dF4A8c7" = true ∧
    Server.resolveTokenAddress (JSVal.str "0x9702230A8Ea53601f5cD2dc00fDBc13d4dF4A8c7") 1 =
      .ok (JSVal.str "0x9702230A8Ea53601f5cD2dc00fDBc13d4dF4A8c7") ∧
    Demo.resolveTokenAddress (JSVal.str "0x9702230A8Ea53601f5cD2dc00fDBc13d4dF4A8c7") 1 =
      .ok (JSVal.str "0x9702230A8Ea53601f5cD2dc00fDBc13d4dF4A8c7") :=
  ⟨by decide,
   resolveTokenAddress_address_unchanged "0x9702230A8Ea53601f5cD2dc00fDBc13d4dF4A8c7" 1
     (by decide)⟩

/-- C6: for every chain id, and for every table put in the place of
`CHAIN_CONFIGS`, `resolveTokenAddress` returns the native-token sentinel `eth`
for the empty string and for `undefined`. -/
theorem resolveTokenAddress_empty_native (configs : List (Int × ChainConfig)) (chainId : Int) :
    Server.resolveTokenAddressIn configs (JSVal.str "") chainId = .ok (JSVal.str "eth") ∧
    Server.resolveTokenAddressIn configs JSVal.undefined chainId = .ok (JSVal.str "eth") ∧
    Demo.resolveTokenAddressIn configs (JSVal.str "") chainId = .ok (JSVal.str "eth") ∧
    Demo.resolveTokenAddressIn configs JSVal.undefined chainId = .ok (JSVal.str "eth") ∧
    Server.resolveTokenAddress (JSVal.str "") chainId = .ok (JSVal.str "eth") ∧
    Server.resolveTokenAddress JSVal.undefined chainId = .ok (JSVal.str "eth") :=
  ⟨rfl, rfl, rfl, rfl, rfl, rfl⟩

theorem trimEndChars_cons_of_not_ws (c : Char) (cs : List Char)
    (h : isJSWhiteSpace c = false) : ∃ tl, trimEndChars (c :: cs) = c :: tl := by
  cases hcs : trimEndChars cs with
  | nil => exact ⟨[], by simp [trimEndChars, hcs, h]⟩
  | cons r rs => exact ⟨r :: rs, by simp [trimEndChars, hcs]⟩

theorem jsTrim_lower_of_isAddress (s : String) (h : isAddress s = true) :
    ∃ tl, (jsTrim (jsToLowerCase s)).data = '0' :: tl := by
  obtain ⟨rest, hs, -, -⟩ := (isAddressChars_iff s.data).1 h
  have hl : lowerChars s.data = '0' :: lowerChars ('x' :: rest) := by
    rw [hs]; rfl
  obtain ⟨tl, htl⟩ := trimEndChars_cons_of_not_ws '0' (lowerChars ('x' :: rest)) (by decide)
  refine ⟨tl, ?_⟩
  simp only [jsTrim, jsToLowerCase, hl, htl]
  exact trimStartChars_cons _ _ (by decide)

theorem symbol_input_not_address (s : String)
    (h : jsTrim (jsToLowerCase s) = "usdt" ∨ jsTrim (jsToLowerCase s) = "usdt.e" ∨
      jsTrim (jsToLowerCase s) = "tether") :
    s ≠ "" ∧ isAddress s = false := by
  constructor
  · rintro rfl
    revert h
    decide
  · cases ha : isAddress s with
    | false => rfl
    | true =>
      obtain ⟨tl, htl⟩ := jsTrim_lower_of_isAddress s ha
      rcases h with h | h | h <;> rw [h] at htl <;> simp at htl

/-- C7: symbol lookup ignores letter case and surrounding white space: when the
trimmed lower-case form of `s` is `usdt`, `usdt.e` or `tether` and the chain is
43114 or 56, `resolveTokenAddress(s, chainId)` is the entry `tokens.USDT` of
that chain in `CHAIN_CONFIGS`; `usdt` and `USDT` on 43114 both give
`0x9702230A8Ea53601f5cD2dc00fDBc13d4dF4A8c7`. -/
theorem resolveTokenAddress_usdt_case_insensitive (s : String) (chainId : Int)
    (hs : jsTrim (jsToLowerCase s) = "usdt" ∨ jsTrim (jsToLowerCase s) = "usdt.e" ∨
      jsTrim (jsToLowerCase s) = "tether")
    (hc : chainId = 43114 ∨ chainId = 56) :
    (∃ chainConfig, lookupChain CHAIN_CONFIGS chainId = some chainConfig ∧
      Server.resolveTokenAddress (JSVal.str s) chainId = .ok (chainConfig.token "USDT") ∧
      Demo.resolveTokenAddress (JSVal.str s) chainId = .ok (chainConfig.token "USDT")) ∧
    Server.resolveTokenAddress (JSVal.str "usdt") 43114 =
      .ok (JSVal.str "0x9702230A8Ea53601f5cD2dc00fDBc13d4dF4A8c7") ∧
    Server.resolveTokenAddress (JSVal.str "USDT") 43114 =
      .ok (JSVal.str "0x9702230A8Ea53601f5cD2dc00fDBc13d4dF4A8c7") := by
  obtain ⟨hne, hna⟩ := symbol_input_not_address s hs
  refine ⟨?_, rfl, rfl⟩
  have hex : ∃ chainConfig, lookupChain CHAIN_CONFIGS chainId = some chainConfig ∧
      (chainConfig = avalancheConfig ∨ chainConfig = bscConfig) := by
    rcases hc with rfl | rfl
    · exact ⟨avalancheConfig, rfl, Or.inl rfl⟩
    · exact ⟨bscConfig, rfl, Or.inr rfl⟩
  obtain ⟨chainConfig, hlook, hcfg⟩ := hex
  refine ⟨chainConfig, hlook, ?_, ?_⟩
  · simp only [Server.resolveTokenAddress, Server.resolveTokenAddressIn, JSVal.truthy,
      JSVal.isStr, hna, hlook]
    rcases hcfg with rfl | rfl <;> rcases hs with h | h | h <;>
      simp [hne, h] <;> rfl
  · simp only [Demo.resolveTokenAddress, Demo.resolveTokenAddressIn, JSVal.truthy,
      JSVal.isStr, hna, hlook]
    rcases hcfg with rfl | rfl <;> rcases hs with h | h | h <;>
      simp [hne, h] <;> rfl

theorem resolveTokenAddress_usdt_case_insensitive_witness :
    Server.resolveTokenAddress (JSVal.str " Usdt.E ") 56 =
      .ok (JSVal.str "0x55d398326f99059fF775485246999027B3197955") := by
  obtain ⟨⟨chainConfig, hlook, h, -⟩, -⟩ :=
    resolveTokenAddress_usdt_case_insensitive " Usdt.E " 56 (Or.inr (Or.inl (by decide)))
      (Or.inr rfl)
  have hcfg : chainConfig = bscConfig := by
    have : some bscConfig = some chainConfig := hlook
    exact (Option.some.inj this).symm
  rw [h, hcfg]
  rfl

/-- C10: in `server.js`, when the normaliser of the tool fails with message `m`,
`executeTool` returns `success: false` with `error.code = EXECUTION_ERROR`,
`error.message = m`, `error.toolName = toolName` and `error.originalArgs = args`,
and it has called neither `initializeAgentkit` nor `agentkit.run`. -/
theorem executeTool_normalizer_failure (env : Env) (toolName : String) (args : JSVal)
    (config : Config) (m : String)
    (h : Server.processArguments toolName args config = .error m) :
    Server.executeTool env toolName args config =
      (Server.executionError env m toolName args config, []) ∧
    (Server.executeTool env toolName args config).1.get "success" = JSVal.bool false ∧
    ((Server.executeTool env toolName args config).1.get "error").get "code" =
      JSVal.str "EXECUTION_ERROR" ∧
    ((Server.executeTool env toolName args config).1.get "error").get "message" =
      JSVal.str m ∧
    ((Server.executeTool env toolName args config).1.get "error").get "toolName" =
      JSVal.str toolName ∧
    ((Server.executeTool env toolName args config).1.get "error").get "originalArgs" = args ∧
    (Server.executeTool env toolName args config).2 = [] := by
  have he : Server.executeTool env toolName args config =
      (Server.executionError env m toolName args config, []) := by
    simp only [Server.executeTool, h]
  rw [he]
  exact ⟨rfl, rfl, rfl, rfl, rfl, rfl, rfl⟩

theorem executeTool_normalizer_failure_witness :
    Server.processArguments "transferTokens" (JSVal.obj []) sampleConfig =
      .error "Recipient address is required" ∧
    Server.executeTool liveEnv "transferTokens" (JSVal.obj []) sampleConfig =
      (Server.executionError liveEnv "Recipient address is required" "transferTokens"
        (JSVal.obj []) sampleConfig, []) :=
  ⟨rfl, (executeTool_normalizer_failure liveEnv "transferTokens" (JSVal.obj []) sampleConfig
    "Recipient address is required" rfl).1⟩

/-! ### The transaction-hash override -/

theorem symbolOfAddress_str (tokens : List (String × String)) (s : String) :
    ∃ sym, Server.symbolOfAddress tokens (JSVal.str s) = .ok sym := by
  induction tokens with
  | nil => exact ⟨"Token", rfl⟩
  | cons kv rest ih =>
    obtain ⟨symbol, address⟩ := kv
    simp only [Server.symbolOfAddress, callToLowerCase]
    split
    · exact ⟨symbol, rfl⟩
    · exact ih

theorem getTokenSymbol_str (s : String) (chainId : Int) :
    ∃ sym, Server.getTokenSymbol (JSVal.str s) chainId = .ok sym := by
  unfold Server.getTokenSymbol
  split
  · exact ⟨_, rfl⟩
  · split
    · exact symbolOfAddress_str _ s
    · exact ⟨"Token", rfl⟩

theorem processTransferParameters_shape (args : JSVal) (chainId : Int) (pa : JSVal)
    (h : Server.processTransferParameters args chainId = .ok pa) :
    ∃ amount tokenAddress destination,
      pa = JSVal.obj [("amount", JSVal.str amount), ("tokenAddress", tokenAddress),
                      ("destination", JSVal.str destination)] := by
  unfold Server.processTransferParameters at h
  simp only at h
  split at h
  · cases h
  · split at h
    · cases h
    · split at h
      · cases h
      · split at h
        · cases h
        · split at h
          · cases h
          · cases h
            exact ⟨_, _, _, rfl⟩

theorem processSwapParameters_shape (args : JSVal) (chainId : Int) (pa : JSVal)
    (h : Server.processSwapParameters args chainId = .ok pa) :
    ∃ tokenIn tokenOut amount,
      pa = JSVal.obj [("tokenIn", tokenIn), ("tokenOut", tokenOut),
                      ("amount", JSVal.str amount)] := by
  unfold Server.processSwapParameters at h
  simp only at h
  split at h
  · cases h
  · split at h
    · cases h
    · split at h
      · cases h
      · split at h
        · cases h
        · split at h
          · cases h
          · split at h
            · cases h
            · cases h
              exact ⟨_, _, _, rfl⟩

theorem getTokenSymbol_ok (v : JSVal) (chainId : Int) (hv : v.isTextOrAbsent = true) :
    ∃ sym, Server.getTokenSymbol v chainId = .ok sym := by
  cases v with
  | undefined => exact ⟨_, rfl⟩
  | str s => exact getTokenSymbol_str s chainId
  | null => simp [JSVal.isTextOrAbsent] at hv
  | bool b => simp [JSVal.isTextOrAbsent] at hv
  | num n => simp [JSVal.isTextOrAbsent] at hv
  | number x => simp [JSVal.isTextOrAbsent] at hv
  | arr items => simp [JSVal.isTextOrAbsent] at hv
  | obj fields => simp [JSVal.isTextOrAbsent] at hv
  | builtin name => simp [JSVal.isTextOrAbsent] at hv

theorem jsOr_isTextOrAbsent (a b : JSVal) (ha : a.isTextOrAbsent = true)
    (hb : b.isTextOrAbsent = true) : (jsOr a b).isTextOrAbsent = true := by
  unfold jsOr
  split <;> assumption

theorem supersededSuccess_fields (env : Env) (toolName : String) (pa : JSVal) (config : Config)
    (txHash : String) (r : JSVal)
    (h : Server.supersededSuccess env toolName pa config txHash = .ok r) :
    r.get "success" = JSVal.bool true ∧
    (r.get "data").get "transactionHash" = JSVal.str txHash ∧
    (r.get "data").get "explorerUrl" =
      JSVal.str (Server.getExplorerUrl txHash config.chainId) ∧
    (r.get "data").get "note" =
      JSVal.str "Transaction successful despite AgentKit error message" := by
  unfold Server.supersededSuccess at h
  split at h
  · cases h
  · simp only at h
    split at h
    · cases h
    · cases h
      exact ⟨rfl, rfl, rfl, rfl⟩

theorem supersededSuccess_transfer_ok (env : Env) (config : Config) (txHash : String)
    (amount destination : String) (tokenAddress : JSVal)
    (ht : tokenAddress.isTextOrAbsent = true) :
    ∃ r, Server.supersededSuccess env "transferTokens"
      (JSVal.obj [("amount", JSVal.str amount), ("tokenAddress", tokenAddress),
                  ("destination", JSVal.str destination)]) config txHash = .ok r := by
  have hget1 : (JSVal.obj [("amount", JSVal.str amount), ("tokenAddress", tokenAddress),
      ("destination", JSVal.str destination)]).get "tokenAddress" = tokenAddress := rfl
  have hget2 : (JSVal.obj [("amount", JSVal.str amount), ("tokenAddress", tokenAddress),
      ("destination", JSVal.str destination)]).get "tokenIn" = JSVal.undefined := rfl
  have hget3 : (JSVal.obj [("amount", JSVal.str amount), ("tokenAddress", tokenAddress),
      ("destination", JSVal.str destination)]).get "amount" = JSVal.str amount := rfl
  have hget4 : (JSVal.obj [("amount", JSVal.str amount), ("tokenAddress", tokenAddress),
      ("destination", JSVal.str destination)]).get "destination" = JSVal.str destination := rfl
  obtain ⟨sym, hsym⟩ := getTokenSymbol_ok (jsOr tokenAddress JSVal.undefined) config.chainId
    (jsOr_isTextOrAbsent _ _ ht rfl)
  unfold Server.supersededSuccess
  rw [hget1, hget2, hsym]
  simp only [hget3, hget4, JSVal.toStr, if_true]
  exact ⟨_, rfl⟩

theorem supersededSuccess_swap_ok (env : Env) (config : Config) (txHash : String)
    (amount : String) (tokenIn tokenOut : JSVal)
    (hi : tokenIn.isTextOrAbsent = true) (ho : tokenOut.isTextOrAbsent = true) :
    ∃ r, Server.supersededSuccess env "swapTokens"
      (JSVal.obj [("tokenIn", tokenIn), ("tokenOut", tokenOut),
                  ("amount", JSVal.str amount)]) config txHash = .ok r := by
  have hget1 : (JSVal.obj [("tokenIn", tokenIn), ("tokenOut", tokenOut),
      ("amount", JSVal.str amount)]).get "tokenAddress" = JSVal.undefined := rfl
  have hget2 : (JSVal.obj [("tokenIn", tokenIn), ("tokenOut", tokenOut),
      ("amount", JSVal.str amount)]).get "tokenIn" = tokenIn := rfl
  have hget3 : (JSVal.obj [("tokenIn", tokenIn), ("tokenOut", tokenOut),
      ("amount", JSVal.str amount)]).get "amount" = JSVal.str amount := rfl
  have hget4 : (JSVal.obj [("tokenIn", tokenIn), ("tokenOut", tokenOut),
      ("amount", JSVal.str amount)]).get "tokenOut" = tokenOut := rfl
  obtain ⟨sym, hsym⟩ := getTokenSymbol_ok (jsOr JSVal.undefined tokenIn) config.chainId
    (jsOr_isTextOrAbsent _ _ rfl hi)
  obtain ⟨symIn, hsymIn⟩ := getTokenSymbol_ok tokenIn config.chainId hi
  obtain ⟨symOut, hsymOut⟩ := getTokenSymbol_ok tokenOut config.chainId ho
  unfold Server.supersededSuccess
  rw [hget1, hget2, hsym]
  have hne : ¬ ("swapTokens" = "transferTokens") := by decide
  simp only [hget3, hget4, JSVal.toStr, if_neg hne, hsymIn, hsymOut]
  exact ⟨_, rfl⟩

/-- For `transferTokens` and `swapTokens` in `server.js`, when the normalised token
fields are strings (or absent), a result text that holds a transaction hash and
the word `error` gives `success: true` with the leftmost hash, its explorer
link and the note that the error was superseded. -/
theorem executeTool_hash_supersedes_error (env : Env) (toolName : String) (args : JSVal)
    (config : Config) (pa : JSVal) (agentkit : Agentkit) (actions : List Action) (tool : Tool)
    (action : Action) (result : JSVal) (resultStr txHash : String)
    (htool : toolName = "transferTokens" ∨ toolName = "swapTokens")
    (hargs : Server.processArguments toolName args config = .ok pa)
    (htok : (pa.get "tokenAddress").isTextOrAbsent = true ∧
      (pa.get "tokenIn").isTextOrAbsent = true ∧ (pa.get "tokenOut").isTextOrAbsent = true)
    (hinit : env.initializeAgentkit config = (some agentkit, actions))
    (hfind : findTool Server.TOOLS_SCHEMA toolName = some tool)
    (hact : actions.find? (fun a => a.name == tool.agentkitAction) = some action)
    (hrun : agentkit.run action pa = .ok result)
    (hstr : result.toStr = .ok resultStr)
    (hhash : matchTxHash resultStr = some txHash)
    (herr : jsIncludes (jsToLowerCase resultStr) "error" = true) :
    (Server.executeTool env toolName args config).1.get "success" = JSVal.bool true ∧
    ((Server.executeTool env toolName args config).1.get "data").get "transactionHash" =
      JSVal.str txHash ∧
    ((Server.executeTool env toolName args config).1.get "data").get "explorerUrl" =
      JSVal.str (Server.getExplorerUrl txHash config.chainId) ∧
    ((Server.executeTool env toolName args config).1.get "data").get "note" =
      JSVal.str "Transaction successful despite AgentKit error message" := by
  have hsup : ∃ r, Server.supersededSuccess env toolName pa config txHash = .ok r := by
    rcases htool with rfl | rfl
    · have h1 : Server.processTransferParameters args config.chainId = .ok pa := by
        simpa [Server.processArguments] using hargs
      obtain ⟨a, t, d, rfl⟩ := processTransferParameters_shape args config.chainId pa h1
      exact supersededSuccess_transfer_ok env config txHash a d t htok.1
    · have h1 : Server.processSwapParameters args config.chainId = .ok pa := by
        simpa [Server.processArguments] using hargs
      obtain ⟨i, o, a, rfl⟩ := processSwapParameters_shape args config.chainId pa h1
      exact supersededSuccess_swap_ok env config txHash a i o htok.2.1 htok.2.2
  obtain ⟨r, hr⟩ := hsup
  have hres : Server.processResult env toolName pa config result = .ok r := by
    unfold Server.processResult
    rw [if_pos htool]
    simp only [hstr, hhash, herr, Bool.true_or, if_true, hr]
  have hexec : Server.executeTool env toolName args config =
      (r, [Event.initializeAgentkit config, Event.run action.name pa]) := by
    simp only [Server.executeTool, hargs, Server.dispatch, hinit, hfind, hact, hrun, hres]
  rw [hexec]
  exact supersededSuccess_fields env toolName pa config txHash r hr


theorem executeTool_hash_supersedes_error_witness :
    (Server.executeTool liveEnv "transferTokens"
        (JSVal.obj [("to", JSVal.str sampleAddress), ("amount", JSVal.str "1"),
                    ("tokenAddress", JSVal.str "USDT")]) sampleConfig).1.get "success" =
      JSVal.bool true ∧
    ((Server.executeTool liveEnv "transferTokens"
        (JSVal.obj [("to", JSVal.str sampleAddress), ("amount", JSVal.str "1"),
                    ("tokenAddress", JSVal.str "USDT")]) sampleConfig).1.get "data").get
        "transactionHash" = JSVal.str sampleTxHash :=
  have h := executeTool_hash_supersedes_error liveEnv "transferTokens"
    (JSVal.obj [("to", JSVal.str sampleAddress), ("amount", JSVal.str "1"),
                ("tokenAddress", JSVal.str "USDT")]) sampleConfig
    (JSVal.obj [("amount", JSVal.str "1"),
                ("tokenAddress", JSVal.str "0x9702230A8Ea53601f5cD2dc00fDBc13d4dF4A8c7"),
                ("destination", JSVal.str sampleAddress)])
    { run := fun _ _ => .ok (JSVal.str bundlerErrorText) }
    [{ name := "get_address" }, { name := "get_balance" }, { name := "smart_transfer" },
     { name := "smart_swap" }, { name := "smart_bridge" }, { name := "execute_sxt_sql" }]
    { name := "transferTokens", displayName := "Transfer Tokens", category := "defi",
      type := "action", requiresConfirmation := true,
      properties := ["to", "tokenAddress", "amount"],
      required := ["to", "tokenAddress", "amount"], agentkitAction := "smart_transfer",
      aliases := ["sendTokens", "send", "transfer", "sendMoney", "pay", "transferTo"] }
    { name := "smart_transfer" } (JSVal.str bundlerErrorText) bundlerErrorText sampleTxHash
    (Or.inl rfl) rfl ⟨rfl, rfl, rfl⟩ rfl rfl rfl rfl rfl (by decide) (by decide)
  ⟨h.1, h.2.1⟩

/-! ### Where `server.js` departs from the specification -/

/-- C3: `server.js` does not check the shape of `to`.  For the request
`to = "not-an-address"`, `amount = "1"` the normaliser `processTransferParameters`
succeeds and hands the malformed recipient on as `destination`; `executeTool`
answers `success: true` in demo mode, and with the SDK available it passes the
malformed recipient to `agentkit.run`. -/
theorem processTransferParameters_accepts_malformed_to :
    isAddress "not-an-address" = false ∧
    Server.processTransferParameters malformedToArgs 43114 =
      .ok (JSVal.obj [("amount", JSVal.str "1"), ("tokenAddress", JSVal.str "eth"),
                      ("destination", JSVal.str "not-an-address")]) ∧
    (Server.executeTool demoModeEnv "transferTokens" malformedToArgs sampleConfig).1.get
      "success" = JSVal.bool true ∧
    (Server.executeTool liveEnv "transferTokens" malformedToArgs sampleConfig).2 =
      [Event.initializeAgentkit sampleConfig,
       Event.run "smart_transfer"
         (JSVal.obj [("amount", JSVal.str "1"), ("tokenAddress", JSVal.str "eth"),
                     ("destination", JSVal.str "not-an-address")])] := by
  refine ⟨by decide, rfl, rfl, rfl⟩

/-- C4: `server.js` does not check that `amount` is a positive decimal.  For the
request with a well-formed `to` and `amount = "-5"` the normaliser
`processTransferParameters` succeeds with `amount = "-5"`; `executeTool` answers
`success: true` in demo mode, and with the SDK available it passes the negative
amount to `agentkit.run`. -/
theorem processTransferParameters_accepts_negative_amount :
    isAddress sampleAddress = true ∧
    Server.processTransferParameters negativeAmountArgs 43114 =
      .ok (JSVal.obj [("amount", JSVal.str "-5"), ("tokenAddress", JSVal.str "eth"),
                      ("destination", JSVal.str sampleAddress)]) ∧
    (Server.executeTool demoModeEnv "transferTokens" negativeAmountArgs sampleConfig).1.get
      "success" = JSVal.bool true ∧
    (Server.executeTool liveEnv "transferTokens" negativeAmountArgs sampleConfig).2 =
      [Event.initializeAgentkit sampleConfig,
       Event.run "smart_transfer"
         (JSVal.obj [("amount", JSVal.str "-5"), ("tokenAddress", JSVal.str "eth"),
                     ("destination", JSVal.str sampleAddress)])] := by
  refine ⟨by decide, rfl, rfl, rfl⟩

/-- C8: `bridgeTokens` is registered in `TOOLS_SCHEMA` of `server.js`, but
`generateMockResponse` has no case for it: whatever the parameters, it answers
`success: false` with code `UNKNOWN_TOOL`, and so does `executeTool` in demo
mode. -/
theorem generateMockResponse_bridgeTokens_unknown (env : Env) (processedArgs : JSVal)
    (config : Config) :
    (findTool Server.TOOLS_SCHEMA "bridgeTokens").isSome = true ∧
    (∃ r, Server.generateMockResponse env "bridgeTokens" processedArgs config = .ok r ∧
      r.get "success" = JSVal.bool false ∧
      (r.get "error").get "code" = JSVal.str "UNKNOWN_TOOL" ∧
      (r.get "error").get "message" = JSVal.str "Unknown tool: bridgeTokens") ∧
    (Server.executeTool demoModeEnv "bridgeTokens" processedArgs config).1.get "success" =
      JSVal.bool false := by
  refine ⟨by decide, ⟨_, rfl, rfl, rfl, rfl⟩, ?_⟩
  simp only [Server.executeTool, Server.processArguments, Server.dispatch, demoModeEnv]
  rfl

/-- C9: the override of an error text by a transaction hash can itself throw.
With the token symbol `constructor` the normaliser hands on the function
`Object` as `tokenAddress`; when the SDK then returns a text that holds a
transaction hash and the word `error`, `getTokenSymbol` throws and `executeTool`
answers `success: false` although `agentkit.run` was called and the hash is in
the text. -/
theorem executeTool_hash_with_error_throws :
    matchTxHash bundlerErrorText = some sampleTxHash ∧
    jsIncludes (jsToLowerCase bundlerErrorText) "error" = true ∧
    Server.processTransferParameters inheritedSymbolArgs 43114 =
      .ok (JSVal.obj [("amount", JSVal.str "1"), ("tokenAddress", JSVal.builtin "Object"),
                      ("destination", JSVal.str sampleAddress)]) ∧
    Server.executeTool liveEnv "transferTokens" inheritedSymbolArgs sampleConfig =
      (Server.executionError liveEnv "tokenAddress.toLowerCase is not a function"
         "transferTokens" inheritedSymbolArgs sampleConfig,
       [Event.initializeAgentkit sampleConfig,
        Event.run "smart_transfer"
          (JSVal.obj [("amount", JSVal.str "1"), ("tokenAddress", JSVal.builtin "Object"),
                      ("destination", JSVal.str sampleAddress)])]) ∧
    (Server.executeTool liveEnv "transferTokens" inheritedSymbolArgs sampleConfig).1.get
      "success" = JSVal.bool false := by
  refine ⟨by decide, by decide, rfl, rfl, rfl⟩

/-! ### Unknown names, token resolution, swap parameters, metadata keys, registry -/

/-- In `demo.js`, every throw inside the `try` block of `executeTool` ends in a
rejection with the `ReferenceError` of the `catch` block. -/
theorem demo_executeTool_rejects_on_throw (env : Demo.Env) (toolName : String) (args : JSVal)
    (config : Config) (message : String) (calls : List Event)
    (h : Demo.tryBlock env toolName args config = (.error message, calls)) :
    Demo.executeTool env toolName args config =
      (.error "processedArgs is not defined", calls) := by
  simp only [Demo.executeTool, h, Demo.catchBlock]

/-- C11: in `demo.js`, `executeTool` does raise past the dispatcher.  For
`transferTokens` without `to` the validation throws `Recipient address required`,
the `catch` block then reads `processedArgs`, which is declared inside the `try`
block, and the promise is rejected with a `ReferenceError`; no result object is
produced, whatever the environment and the configuration. -/
theorem demo_executeTool_rejects_missing_to (env : Demo.Env) (config : Config) :
    Demo.processArguments "transferTokens" missingToArgs config =
      .error "Recipient address required" ∧
    Demo.executeTool env "transferTokens" missingToArgs config =
      (.error "processedArgs is not defined", []) ∧
    ¬ ∃ result, (Demo.executeTool env "transferTokens" missingToArgs config).1 = .ok result := by
  have h1 : Demo.processArguments "transferTokens" missingToArgs config =
      .error "Recipient address required" := rfl
  have h2 : Demo.executeTool env "transferTokens" missingToArgs config =
      (.error "processedArgs is not defined", []) := by
    simp only [Demo.executeTool, Demo.tryBlock, h1, Demo.catchBlock]
  refine ⟨h1, h2, ?_⟩
  rintro ⟨result, hr⟩
  rw [h2] at hr
  cases hr

theorem findTool_eq_none (schema : List Tool) (requestedName : String)
    (h : ∀ t ∈ schema, t.name ≠ requestedName) : findTool schema requestedName = none := by
  unfold findTool
  rw [List.find?_eq_none]
  intro t ht
  simpa using h t ht

theorem findAlias_eq_none (schema : List Tool) (requestedName : String)
    (h : ∀ t ∈ schema, requestedName ∉ t.aliases) : findAlias schema requestedName = none := by
  induction schema with
  | nil => rfl
  | cons tool rest ih =>
    have h1 : tool.aliases.contains requestedName = false := by
      simpa using h tool (List.mem_cons_self tool rest)
    simp only [findAlias, h1]
    exact ih (fun t ht => h t (List.mem_cons_of_mem tool ht))

theorem findFuzzy_first_match (pre post : List (String × String)) (key toolName lowerName : String)
    (hpre : ∀ kv ∈ pre, jsIncludes lowerName kv.1 = false)
    (hkey : jsIncludes lowerName key = true) :
    Demo.findFuzzy (pre ++ (key, toolName) :: post) lowerName = some toolName := by
  induction pre with
  | nil => simp [Demo.findFuzzy, hkey]
  | cons kv rest ih =>
    obtain ⟨k, t⟩ := kv
    have hk : jsIncludes lowerName k = false := hpre (k, t) (List.mem_cons_self _ _)
    simp only [List.cons_append, Demo.findFuzzy, hk]
    exact ih (fun kv hkv => hpre kv (List.mem_cons_of_mem _ hkv))

theorem findFuzzy_eq_none (table : List (String × String)) (lowerName : String)
    (h : ∀ kv ∈ table, jsIncludes lowerName kv.1 = false) :
    Demo.findFuzzy table lowerName = none := by
  induction table with
  | nil => rfl
  | cons kv rest ih =>
    obtain ⟨k, t⟩ := kv
    have hk : jsIncludes lowerName k = false := h (k, t) (List.mem_cons_self _ _)
    simp only [Demo.findFuzzy, hk]
    exact ih (fun kv hkv => h kv (List.mem_cons_of_mem _ hkv))

/-- C12: in `demo.js`, for a requested name that is neither a canonical name nor
an alias, `resolveToolName` returns the tool of the first keyword of the table
(in the order address, wallet, account, balance, send, transfer, swap, trade,
bridge, query) that the lower-cased name contains, and the name itself when it
contains none. -/
theorem demo_resolveToolName_first_keyword (requestedName : String)
    (hname : ∀ t ∈ Demo.TOOLS_SCHEMA, t.name ≠ requestedName)
    (halias : ∀ t ∈ Demo.TOOLS_SCHEMA, requestedName ∉ t.aliases) :
    Demo.fuzzyMatches =
      [("address", "getWalletAddress"), ("wallet", "getWalletAddress"),
       ("account", "getWalletAddress"), ("balance", "getWalletBalance"),
       ("send", "transferTokens"), ("transfer", "transferTokens"),
       ("swap", "swapTokens"), ("trade", "swapTokens"),
       ("bridge", "bridgeTokens"), ("query", "queryBlockchainData")] ∧
    (∀ pre post key toolName, Demo.fuzzyMatches = pre ++ (key, toolName) :: post →
      (∀ kv ∈ pre, jsIncludes (jsToLowerCase requestedName) kv.1 = false) →
      jsIncludes (jsToLowerCase requestedName) key = true →
      Demo.resolveToolName requestedName = toolName) ∧
    ((∀ kv ∈ Demo.fuzzyMatches, jsIncludes (jsToLowerCase requestedName) kv.1 = false) →
      Demo.resolveToolName requestedName = requestedName) := by
  have h1 := findTool_eq_none Demo.TOOLS_SCHEMA requestedName hname
  have h2 := findAlias_eq_none Demo.TOOLS_SCHEMA requestedName halias
  refine ⟨rfl, ?_, ?_⟩
  · intro pre post key toolName htable hpre hkey
    have h3 := findFuzzy_first_match pre post key toolName (jsToLowerCase requestedName) hpre hkey
    rw [← htable] at h3
    simp only [Demo.resolveToolName, h1, h2, h3]
  · intro hnone
    have h3 := findFuzzy_eq_none Demo.fuzzyMatches (jsToLowerCase requestedName) hnone
    simp only [Demo.resolveToolName, h1, h2, h3]

theorem demo_resolveToolName_first_keyword_witness :
    Demo.resolveToolName "myWalletBalance" = "getWalletAddress" ∧
    Demo.resolveToolName "doSomething" = "doSomething" :=
  ⟨(demo_resolveToolName_first_keyword "myWalletBalance" (by decide) (by decide)).2.1
      [("address", "getWalletAddress")]
      [("account", "getWalletAddress"), ("balance", "getWalletBalance"),
       ("send", "transferTokens"), ("transfer", "transferTokens"),
       ("swap", "swapTokens"), ("trade", "swapTokens"),
       ("bridge", "bridgeTokens"), ("query", "queryBlockchainData")]
      "wallet" "getWalletAddress" rfl (by decide) (by decide),
   (demo_resolveToolName_first_keyword "doSomething" (by decide) (by decide)).2.2
      (by decide)⟩

theorem server_name_ne_of_unregistered (toolName : String)
    (hname : ∀ t ∈ Server.TOOLS_SCHEMA, t.name ≠ toolName) (n : String)
    (hn : n ∈ Server.TOOLS_SCHEMA.map (fun t => t.name)) : toolName ≠ n := by
  obtain ⟨t, ht, rfl⟩ := List.mem_map.1 hn
  exact fun h => hname t ht h.symm

theorem server_processArguments_unknown (toolName : String) (args : JSVal) (config : Config)
    (hname : ∀ t ∈ Server.TOOLS_SCHEMA, t.name ≠ toolName) :
    Server.processArguments toolName args config =
      .ok (Server.cleanBhindiParameters args toolName) := by
  have h1 := server_name_ne_of_unregistered toolName hname "transferTokens" (by decide)
  have h2 := server_name_ne_of_unregistered toolName hname "swapTokens" (by decide)
  have h3 := server_name_ne_of_unregistered toolName hname "getWalletBalance" (by decide)
  have h4 := server_name_ne_of_unregistered toolName hname "queryBlockchainData" (by decide)
  have h5 := server_name_ne_of_unregistered toolName hname "getWalletAddress" (by decide)
  simp only [Server.processArguments, if_neg h1, if_neg h2, if_neg h3, if_neg h4, if_neg h5]

theorem server_generateMockResponse_unknown (env : Env) (toolName : String)
    (processedArgs : JSVal) (config : Config)
    (hname : ∀ t ∈ Server.TOOLS_SCHEMA, t.name ≠ toolName) :
    Server.generateMockResponse env toolName processedArgs config =
      .ok (JSVal.obj
        [("success", JSVal.bool false),
         ("error", JSVal.obj
           [("code", JSVal.str "UNKNOWN_TOOL"),
            ("message", JSVal.str ("Unknown tool: " ++ toolName)),
            ("availableTools",
              JSVal.arr (Server.TOOLS_SCHEMA.map (fun t => JSVal.str t.name)))])]) := by
  have h1 := server_name_ne_of_unregistered toolName hname "transferTokens" (by decide)
  have h2 := server_name_ne_of_unregistered toolName hname "swapTokens" (by decide)
  have h3 := server_name_ne_of_unregistered toolName hname "getWalletBalance" (by decide)
  have h4 := server_name_ne_of_unregistered toolName hname "queryBlockchainData" (by decide)
  have h5 := server_name_ne_of_unregistered toolName hname "getWalletAddress" (by decide)
  simp only [Server.generateMockResponse, if_neg h1, if_neg h2, if_neg h3, if_neg h4, if_neg h5]

/-- C13: in `server.js`, a requested name that is neither a canonical name nor an
alias is returned unchanged by `resolveToolName`, and `executeTool` on it answers
`success: false`: with code `UNKNOWN_TOOL` when no SDK client is available, with
code `EXECUTION_ERROR` and the message `Tool ... not found in schema` when one
is. -/
theorem server_unknown_tool_reported (requestedName : String)
    (hname : ∀ t ∈ Server.TOOLS_SCHEMA, t.name ≠ requestedName)
    (halias : ∀ t ∈ Server.TOOLS_SCHEMA, requestedName ∉ t.aliases) :
    Server.resolveToolName requestedName = requestedName ∧
    ∀ (env : Env) (args : JSVal) (config : Config),
      (∀ actions, env.initializeAgentkit config = (none, actions) →
        (Server.executeTool env requestedName args config).1.get "success" =
          JSVal.bool false ∧
        ((Server.executeTool env requestedName args config).1.get "error").get "code" =
          JSVal.str "UNKNOWN_TOOL") ∧
      (∀ agentkit actions, env.initializeAgentkit config = (some agentkit, actions) →
        (Server.executeTool env requestedName args config).1.get "success" =
          JSVal.bool false ∧
        ((Server.executeTool env requestedName args config).1.get "error").get "code" =
          JSVal.str "EXECUTION_ERROR" ∧
        ((Server.executeTool env requestedName args config).1.get "error").get "message" =
          JSVal.str ("Tool " ++ requestedName ++ " not found in schema")) := by
  have h1 := findTool_eq_none Server.TOOLS_SCHEMA requestedName hname
  have h2 := findAlias_eq_none Server.TOOLS_SCHEMA requestedName halias
  refine ⟨by simp only [Server.resolveToolName, h1, h2], ?_⟩
  intro env args config
  have hp := server_processArguments_unknown requestedName args config hname
  constructor
  · intro actions hinit
    have hm := server_generateMockResponse_unknown env requestedName
      (Server.cleanBhindiParameters args requestedName) config hname
    have he : (Server.executeTool env requestedName args config).1 =
        JSVal.obj
          [("success", JSVal.bool false),
           ("error", JSVal.obj
             [("code", JSVal.str "UNKNOWN_TOOL"),
              ("message", JSVal.str ("Unknown tool: " ++ requestedName)),
              ("availableTools",
                JSVal.arr (Server.TOOLS_SCHEMA.map (fun t => JSVal.str t.name)))])] := by
      simp only [Server.executeTool, hp, Server.dispatch, hinit, hm]
    rw [he]
    exact ⟨rfl, rfl⟩
  · intro agentkit actions hinit
    have he : (Server.executeTool env requestedName args config).1 =
        Server.executionError env ("Tool " ++ requestedName ++ " not found in schema")
          requestedName args config := by
      simp only [Server.executeTool, hp, Server.dispatch, hinit, h1]
    rw [he]
    exact ⟨rfl, rfl, rfl⟩

theorem server_unknown_tool_reported_witness :
    Server.resolveToolName "mintNft" = "mintNft" ∧
    (Server.executeTool demoModeEnv "mintNft" (JSVal.obj []) sampleConfig).1.get "success" =
      JSVal.bool false ∧
    (Server.executeTool liveEnv "mintNft" (JSVal.obj []) sampleConfig).1.get "success" =
      JSVal.bool false :=
  have h := server_unknown_tool_reported "mintNft" (by decide) (by decide)
  ⟨h.1, ((h.2 demoModeEnv (JSVal.obj []) sampleConfig).1 [] rfl).1,
   ((h.2 liveEnv (JSVal.obj []) sampleConfig).2 _ _ rfl).1⟩

mutual
theorem toStr_error (v : JSVal) (e : String) (h : v.toStr = .error e) :
    e = "Cannot convert object to primitive value" := by
  cases v with
  | undefined => simp [JSVal.toStr] at h
  | null => simp [JSVal.toStr] at h
  | bool b => simp [JSVal.toStr] at h
  | num n => simp [JSVal.toStr] at h
  | number x => simp [JSVal.toStr] at h
  | str s => simp [JSVal.toStr] at h
  | arr items =>
    rw [JSVal.toStr] at h
    exact joinItems_error items e h
  | obj fields =>
    rw [JSVal.toStr] at h
    split at h
    · cases h
    · cases h; rfl
  | builtin name =>
    rw [JSVal.toStr] at h
    split at h <;> cases h
theorem joinItems_error (items : List JSVal) (e : String) (h : joinItems items = .error e) :
    e = "Cannot convert object to primitive value" := by
  cases items with
  | nil => simp [joinItems] at h
  | cons item rest =>
    by_cases hu : item = JSVal.undefined
    · subst hu
      rw [joinItems] at h
      exact joinRest_error "" rest e h
    · by_cases hn : item = JSVal.null
      · subst hn
        rw [joinItems] at h
        exact joinRest_error "" rest e h
      · rw [joinItems] at h
        · cases hs : JSVal.toStr item with
          | error e1 =>
            rw [hs] at h
            cases h
            exact toStr_error item e hs
          | ok s =>
            rw [hs] at h
            exact joinRest_error s rest e h
        · exact hu
        · exact hn
theorem joinRest_error (acc : String) (items : List JSVal) (e : String)
    (h : joinRest acc items = .error e) :
    e = "Cannot convert object to primitive value" := by
  cases items with
  | nil => simp [joinRest] at h
  | cons item rest =>
    by_cases hu : item = JSVal.undefined
    · subst hu
      rw [joinRest] at h
      exact joinRest_error _ rest e h
    · by_cases hn : item = JSVal.null
      · subst hn
        rw [joinRest] at h
        exact joinRest_error _ rest e h
      · rw [joinRest] at h
        · cases hs : JSVal.toStr item with
          | error e1 =>
            rw [hs] at h
            cases h
            exact toStr_error item e hs
          | ok s =>
            rw [hs] at h
            exact joinRest_error _ rest e h
        · exact hu
        · exact hn
end

/-- In `demo.js`, once the template literal of its first statement has converted a
truthy input that is not a string, `resolveTokenAddress` throws the invalid-type
error. -/
theorem demo_resolveTokenAddress_non_string (tokenInput : JSVal) (chainId : Int)
    (htruthy : tokenInput.truthy = true) (hstr : ∀ s, tokenInput ≠ JSVal.str s) :
    Demo.resolveTokenAddress tokenInput chainId =
      match tokenInput.toStr with
      | .error e => .error e
      | .ok _ =>
        .error ("Invalid token address type: " ++ tokenInput.typeof ++ ". Must be string.") := by
  have hs : tokenInput.isStr "" = false := by
    cases tokenInput <;> first | rfl | exact absurd rfl (hstr _)
  unfold Demo.resolveTokenAddress Demo.resolveTokenAddressIn
  cases tokenInput.toStr with
  | error e => rfl
  | ok text =>
    simp only [htruthy, hs, Bool.not_true, Bool.or_self, Bool.false_eq_true, if_false]

theorem server_resolveTokenAddress_non_string (tokenInput : JSVal) (chainId : Int)
    (htruthy : tokenInput.truthy = true) (hstr : ∀ s, tokenInput ≠ JSVal.str s) :
    Server.resolveTokenAddress tokenInput chainId =
      .error ("Invalid token address type: " ++ tokenInput.typeof ++ ". Must be string.") := by
  have hs : tokenInput.isStr "" = false := by
    cases tokenInput <;> first | rfl | exact absurd rfl (hstr _)
  unfold Server.resolveTokenAddress Server.resolveTokenAddressIn
  simp only [htruthy, hs, Bool.not_true, Bool.or_self, Bool.false_eq_true, if_false]

/-- C14, as stated, fails: the non-strings `0` and `false` are present but falsy, and
`resolveTokenAddress` returns the sentinel `eth` for them in both files. -/
theorem resolveTokenAddress_falsy_non_string :
    Server.resolveTokenAddress (JSVal.num 0) 43114 = .ok (JSVal.str "eth") ∧
    Server.resolveTokenAddress (JSVal.bool false) 43114 = .ok (JSVal.str "eth") ∧
    Demo.resolveTokenAddress (JSVal.num 0) 43114 = .ok (JSVal.str "eth") ∧
    Demo.resolveTokenAddress (JSVal.bool false) 43114 = .ok (JSVal.str "eth") :=
  ⟨rfl, rfl, rfl, rfl⟩

/-- C14, amended: a truthy input that is not a string (a non-zero number, `true`,
an object, an array) makes `resolveTokenAddress` throw, for every chain id.  In
`server.js` the error is `Invalid token address type` with the `typeof` of the
input.  In `demo.js` it is the same error when the input has a string form; when
it has none (an object with an own `toString` property, or an array that holds
one) the template literal of the first statement throws
`Cannot convert object to primitive value` before the type is tested. -/
theorem resolveTokenAddress_truthy_non_string (tokenInput : JSVal) (chainId : Int)
    (htruthy : tokenInput.truthy = true) (hstr : ∀ s, tokenInput ≠ JSVal.str s) :
    Server.resolveTokenAddress tokenInput chainId =
      .error ("Invalid token address type: " ++ tokenInput.typeof ++ ". Must be string.") ∧
    ((∃ text, tokenInput.toStr = .ok text) →
      Demo.resolveTokenAddress tokenInput chainId =
        .error ("Invalid token address type: " ++ tokenInput.typeof ++ ". Must be string.")) ∧
    ((∀ text, tokenInput.toStr ≠ .ok text) →
      Demo.resolveTokenAddress tokenInput chainId =
        .error "Cannot convert object to primitive value") := by
  refine ⟨server_resolveTokenAddress_non_string tokenInput chainId htruthy hstr, ?_, ?_⟩
  · rintro ⟨text, ht⟩
    rw [demo_resolveTokenAddress_non_string tokenInput chainId htruthy hstr, ht]
  · intro hnone
    rw [demo_resolveTokenAddress_non_string tokenInput chainId htruthy hstr]
    cases ht : tokenInput.toStr with
    | ok text => exact absurd ht (hnone text)
    | error e => rw [toStr_error tokenInput e ht]

theorem resolveTokenAddress_truthy_non_string_witness :
    Server.resolveTokenAddress (JSVal.num 5) 43114 =
      .error "Invalid token address type: number. Must be string." ∧
    Demo.resolveTokenAddress (JSVal.arr []) 1 =
      .error "Invalid token address type: object. Must be string." ∧
    Demo.resolveTokenAddress (JSVal.obj [("toString", JSVal.num 1)]) 43114 =
      .error "Cannot convert object to primitive value" :=
  ⟨(resolveTokenAddress_truthy_non_string (JSVal.num 5) 43114 rfl (fun s h => by cases h)).1,
   (resolveTokenAddress_truthy_non_string (JSVal.arr []) 1 rfl
      (fun s h => by cases h)).2.1 ⟨"", rfl⟩,
   (resolveTokenAddress_truthy_non_string (JSVal.obj [("toString", JSVal.num 1)]) 43114 rfl
      (fun s h => by cases h)).2.2 (fun text h => by cases h)⟩

/-- C15: in `demo.js`, `resolveTokenAddress` does not return every unmapped input
unchanged.  The string `constructor` is non-empty, not of address shape, not a
native alias and not a key of the symbol table of chain 43114, and its trimmed
lower-case form does not start with `0x`; yet the read `tokenMappings[input]`
finds the function `Object`, which the table inherits as a plain object, and
`resolveTokenAddress` returns that function, not the input.  For `__proto__`
it returns the object `Object.prototype`. -/
theorem demo_resolveTokenAddress_returns_inherited :
    lookupChain CHAIN_CONFIGS 43114 = some avalancheConfig ∧
    isAddress "constructor" = false ∧
    jsTrim (jsToLowerCase "constructor") = "constructor" ∧
    (ownGet (tokenMappings avalancheConfig) "constructor").isNone = true ∧
    jsStartsWith "constructor" "0x" = false ∧
    Demo.resolveTokenAddress (JSVal.str "constructor") 43114 =
      .ok (JSVal.builtin "Object") ∧
    Demo.resolveTokenAddress (JSVal.str "__proto__") 56 =
      .ok (JSVal.builtin "Object.prototype") ∧
    (JSVal.builtin "Object").typeof = "function" :=
  ⟨rfl, by decide, by decide, rfl, by decide, rfl, rfl, rfl⟩

/-- In `demo.js`, on a chain listed in `CHAIN_CONFIGS`, for a non-empty string that
is not of address shape, not a native alias, and for which the read of the
symbol table `tokenMappings[input]` finds nothing, own or inherited:
`resolveTokenAddress` throws `Invalid token address format` when the trimmed
lower-case form starts with `0x`, and returns the input string unchanged
otherwise. -/
theorem demo_resolveTokenAddress_unmapped (s : String) (chainId : Int)
    (chainConfig : ChainConfig)
    (hne : s ≠ "") (haddr : isAddress s = false)
    (hnative : jsTrim (jsToLowerCase s) ≠ "eth" ∧ jsTrim (jsToLowerCase s) ≠ "avax" ∧
      jsTrim (jsToLowerCase s) ≠ "native")
    (hchain : lookupChain CHAIN_CONFIGS chainId = some chainConfig)
    (htable : (objGet (tokenMappings chainConfig) (jsTrim (jsToLowerCase s))).truthy = false) :
    (jsStartsWith (jsTrim (jsToLowerCase s)) "0x" = true →
      Demo.resolveTokenAddress (JSVal.str s) chainId =
        .error ("Invalid token address format: " ++ s ++
          ". Must be 42-character hex address.")) ∧
    (jsStartsWith (jsTrim (jsToLowerCase s)) "0x" = false →
      Demo.resolveTokenAddress (JSVal.str s) chainId = .ok (JSVal.str s)) := by
  have hcond : (!(JSVal.str s).truthy || (JSVal.str s).isStr "") = false := by
    simp [JSVal.truthy, JSVal.isStr, hne]
  have hnat : ¬ (jsTrim (jsToLowerCase s) = "eth" ∨ jsTrim (jsToLowerCase s) = "avax" ∨
      jsTrim (jsToLowerCase s) = "native") := by
    rintro (h | h | h)
    · exact hnative.1 h
    · exact hnative.2.1 h
    · exact hnative.2.2 h
  constructor
  · intro h0x
    simp only [Demo.resolveTokenAddress, Demo.resolveTokenAddressIn, hcond, haddr, hchain,
      htable, h0x, if_neg hnat]
    simp
  · intro h0x
    simp only [Demo.resolveTokenAddress, Demo.resolveTokenAddressIn, hcond, haddr, hchain,
      htable, h0x, if_neg hnat]
    simp

theorem demo_resolveTokenAddress_unmapped_witness :
    Demo.resolveTokenAddress (JSVal.str "0x123") 43114 =
      .error "Invalid token address format: 0x123. Must be 42-character hex address." ∧
    Demo.resolveTokenAddress (JSVal.str "DAI") 56 = .ok (JSVal.str "DAI") :=
  ⟨(demo_resolveTokenAddress_unmapped "0x123" 43114 avalancheConfig (by decide) (by decide)
      (by decide) rfl (by decide)).1 (by decide),
   (demo_resolveTokenAddress_unmapped "DAI" 56 bscConfig (by decide) (by decide)
      (by decide) rfl (by decide)).2 (by decide)⟩

/-- C16: in `demo.js` a chain without entry in `CHAIN_CONFIGS` is not replaced by
Avalanche.  Chain 1 has no entry, and `resolveTokenAddress("usdt", 1)` throws the
`TypeError` of the assignment to the `const` binding `chainConfig`, where on
chain 43114 it returns the Avalanche USDT address; `server.js` throws
`Unsupported chain: 1`. -/
theorem demo_resolveTokenAddress_unlisted_chain_throws :
    lookupChain CHAIN_CONFIGS 1 = none ∧
    Demo.resolveTokenAddress (JSVal.str "usdt") 1 = .error "Assignment to constant variable." ∧
    Demo.resolveTokenAddress (JSVal.str "usdt") 43114 =
      .ok (JSVal.str "0x9702230A8Ea53601f5cD2dc00fDBc13d4dF4A8c7") ∧
    Server.resolveTokenAddress (JSVal.str "usdt") 1 = .error "Unsupported chain: 1" :=
  ⟨rfl, rfl, rfl, rfl⟩

/-- In `demo.js`, every input that reaches the chain lookup on a chain without
entry in `CHAIN_CONFIGS` ends in the `TypeError` of the assignment to `const`. -/
theorem demo_resolveTokenAddress_unlisted_chain (s : String) (chainId : Int)
    (hne : s ≠ "") (haddr : isAddress s = false)
    (hnative : jsTrim (jsToLowerCase s) ≠ "eth" ∧ jsTrim (jsToLowerCase s) ≠ "avax" ∧
      jsTrim (jsToLowerCase s) ≠ "native")
    (hchain : lookupChain CHAIN_CONFIGS chainId = none) :
    Demo.resolveTokenAddress (JSVal.str s) chainId =
      .error "Assignment to constant variable." := by
  have hcond : (!(JSVal.str s).truthy || (JSVal.str s).isStr "") = false := by
    simp [JSVal.truthy, JSVal.isStr, hne]
  have hnat : ¬ (jsTrim (jsToLowerCase s) = "eth" ∨ jsTrim (jsToLowerCase s) = "avax" ∨
      jsTrim (jsToLowerCase s) = "native") := by
    rintro (h | h | h)
    · exact hnative.1 h
    · exact hnative.2.1 h
    · exact hnative.2.2 h
  simp only [Demo.resolveTokenAddress, Demo.resolveTokenAddressIn, hcond, haddr, hchain,
    if_neg hnat]
  simp

/-- C17: in `server.js`, `resolveTokenAddress` does not always return a string when
it returns: the symbol table is a plain object, and for the inputs `constructor`
and `__proto__` on a listed chain the read `tokenMappings[input]` yields the
inherited function `Object` and the object `Object.prototype`, which are
returned. -/
theorem server_resolveTokenAddress_returns_function :
    Server.resolveTokenAddress (JSVal.str "constructor") 43114 =
      .ok (JSVal.builtin "Object") ∧
    Server.resolveTokenAddress (JSVal.str "__proto__") 56 =
      .ok (JSVal.builtin "Object.prototype") ∧
    (JSVal.builtin "Object").typeof = "function" ∧
    (JSVal.builtin "Object.prototype").typeof = "object" :=
  ⟨rfl, rfl, rfl, rfl⟩

theorem lookupChain_CHAIN_CONFIGS_eq_none (chainId : Int) :
    lookupChain CHAIN_CONFIGS chainId = none ↔ chainId ≠ 43114 ∧ chainId ≠ 56 := by
  simp only [CHAIN_CONFIGS, lookupChain]
  constructor
  · intro h
    split at h
    · cases h
    · split at h
      · cases h
      · rename_i h1 h2
        exact ⟨fun e => h1 e.symm, fun e => h2 e.symm⟩
  · rintro ⟨h1, h2⟩
    rw [if_neg (fun e => h1 e.symm), if_neg (fun e => h2 e.symm)]

theorem server_resolveTokenAddress_str (s : String) (chainId : Int) (hne : s ≠ "") :
    Server.resolveTokenAddress (JSVal.str s) chainId =
      if isAddress s then .ok (JSVal.str s)
      else if jsTrim (jsToLowerCase s) = "eth" ∨ jsTrim (jsToLowerCase s) = "avax" ∨
          jsTrim (jsToLowerCase s) = "native" then .ok (JSVal.str "eth")
      else
        match lookupChain CHAIN_CONFIGS chainId with
        | none => .error ("Unsupported chain: " ++ numToString chainId)
        | some chainConfig =>
          if (objGet (tokenMappings chainConfig) (jsTrim (jsToLowerCase s))).truthy then
            .ok (objGet (tokenMappings chainConfig) (jsTrim (jsToLowerCase s)))
          else .ok (JSVal.str s) := by
  have hcond : (!(JSVal.str s).truthy || (JSVal.str s).isStr "") = false := by
    simp [JSVal.truthy, JSVal.isStr, hne]
  simp only [Server.resolveTokenAddress, Server.resolveTokenAddressIn, hcond]
  rfl

/-- In `server.js`, `resolveTokenAddress` throws exactly in two cases: the input is
truthy and not a string, or it is a non-empty string, not of address shape, not
a native alias, on a chain without entry in `CHAIN_CONFIGS`; in the second case
the message is `Unsupported chain`. -/
theorem server_resolveTokenAddress_fails_iff (tokenInput : JSVal) (chainId : Int) :
    (∃ e, Server.resolveTokenAddress tokenInput chainId = .error e) ↔
      (tokenInput.truthy = true ∧ ∀ s, tokenInput ≠ JSVal.str s) ∨
      (∃ s, tokenInput = JSVal.str s ∧ s ≠ "" ∧ isAddress s = false ∧
        jsTrim (jsToLowerCase s) ≠ "eth" ∧ jsTrim (jsToLowerCase s) ≠ "avax" ∧
        jsTrim (jsToLowerCase s) ≠ "native" ∧ chainId ≠ 43114 ∧ chainId ≠ 56 ∧
        Server.resolveTokenAddress tokenInput chainId =
          .error ("Unsupported chain: " ++ numToString chainId)) := by
  cases tokenInput with
  | undefined =>
    constructor
    · rintro ⟨e, he⟩; cases he
    · rintro (⟨h, -⟩ | ⟨s, h, -⟩)
      · cases h
      · cases h
  | null =>
    constructor
    · rintro ⟨e, he⟩; cases he
    · rintro (⟨h, -⟩ | ⟨s, h, -⟩)
      · cases h
      · cases h
  | bool b =>
    cases b
    · constructor
      · rintro ⟨e, he⟩; cases he
      · rintro (⟨h, -⟩ | ⟨s, h, -⟩)
        · cases h
        · cases h
    · constructor
      · intro _; exact Or.inl ⟨rfl, fun s h => by cases h⟩
      · intro _; exact ⟨_, rfl⟩
  | num n =>
    by_cases hn : n = 0
    · subst hn
      constructor
      · rintro ⟨e, he⟩; cases he
      · rintro (⟨h, -⟩ | ⟨s, h, -⟩)
        · cases h
        · cases h
    · have ht : (JSVal.num n).truthy = true := by simp [JSVal.truthy, hn]
      constructor
      · intro _; exact Or.inl ⟨ht, fun s h => by cases h⟩
      · intro _
        refine ⟨"Invalid token address type: number. Must be string.", ?_⟩
        simp only [Server.resolveTokenAddress, Server.resolveTokenAddressIn, ht, JSVal.isStr]
        rfl
  | number x =>
    cases ht : (JSVal.number x).truthy
    · constructor
      · rintro ⟨e, he⟩
        simp [Server.resolveTokenAddress, Server.resolveTokenAddressIn, ht] at he
      · rintro (⟨h, -⟩ | ⟨s, h, -⟩)
        · cases h
        · cases h
    · constructor
      · intro _; exact Or.inl ⟨rfl, fun s h => by cases h⟩
      · intro _
        exact ⟨_, server_resolveTokenAddress_non_string _ chainId ht (fun s h => by cases h)⟩
  | arr items =>
    constructor
    · intro _; exact Or.inl ⟨rfl, fun s h => by cases h⟩
    · intro _; exact ⟨_, rfl⟩
  | obj fields =>
    constructor
    · intro _; exact Or.inl ⟨rfl, fun s h => by cases h⟩
    · intro _; exact ⟨_, rfl⟩
  | builtin name =>
    constructor
    · intro _; exact Or.inl ⟨rfl, fun s h => by cases h⟩
    · intro _; exact ⟨_, rfl⟩
  | str s =>
    by_cases hne : s = ""
    · subst hne
      constructor
      · rintro ⟨e, he⟩; cases he
      · rintro (⟨-, h⟩ | ⟨s, h, h2, -⟩)
        · exact absurd rfl (h "")
        · cases h; exact absurd rfl h2
    · have hs := server_resolveTokenAddress_str s chainId hne
      constructor
      · rintro ⟨e, he⟩
        right
        rw [hs] at he
        split at he
        · cases he
        · rename_i haddr
          split at he
          · cases he
          · rename_i hnat
            split at he
            · rename_i hnone
              refine ⟨s, rfl, hne, by simpa using haddr, fun h => hnat (Or.inl h),
                fun h => hnat (Or.inr (Or.inl h)), fun h => hnat (Or.inr (Or.inr h)),
                ((lookupChain_CHAIN_CONFIGS_eq_none chainId).1 hnone).1,
                ((lookupChain_CHAIN_CONFIGS_eq_none chainId).1 hnone).2, ?_⟩
              rw [hs, if_neg haddr, if_neg hnat, hnone]
            · split at he
              · cases he
              · cases he
      · rintro (⟨-, h⟩ | ⟨s', -, -, -, -, -, -, -, -, h⟩)
        · exact absurd rfl (h s)
        · exact ⟨_, h⟩

theorem token_shape (chainConfig : ChainConfig) (symbol : String) :
    chainConfig.token symbol = JSVal.undefined ∨ ∃ a, chainConfig.token symbol = JSVal.str a := by
  unfold ChainConfig.token
  split
  · exact Or.inr ⟨_, rfl⟩
  · exact Or.inl rfl

theorem protoGet_shape (key : String) :
    protoGet key = JSVal.undefined ∨ ∃ n, protoGet key = JSVal.builtin n := by
  unfold protoGet
  split_ifs
  · exact Or.inr ⟨_, rfl⟩
  · exact Or.inr ⟨_, rfl⟩
  · exact Or.inr ⟨_, rfl⟩
  · exact Or.inl rfl

theorem ownGet_mem (fields : List (String × JSVal)) (key : String) (v : JSVal)
    (h : ownGet fields key = some v) : (key, v) ∈ fields := by
  induction fields with
  | nil => cases h
  | cons kv rest ih =>
    obtain ⟨k, w⟩ := kv
    simp only [ownGet] at h
    split at h
    · rename_i hk
      cases h
      subst hk
      exact List.mem_cons_self _ _
    · exact List.mem_cons_of_mem _ (ih h)

theorem tokenMappings_values (chainConfig : ChainConfig) (kv : String × JSVal)
    (h : kv ∈ tokenMappings chainConfig) :
    kv.2 = JSVal.undefined ∨ ∃ a, kv.2 = JSVal.str a := by
  have hU := token_shape chainConfig "USDT"
  have hC := token_shape chainConfig "USDC"
  have hW := token_shape chainConfig "WAVAX"
  simp only [tokenMappings, List.mem_cons, List.mem_singleton, List.not_mem_nil, or_false] at h
  rcases h with rfl | rfl | rfl | rfl | rfl | rfl | rfl | rfl | rfl | rfl
  · exact hU
  · exact hU
  · exact hU
  · exact hC
  · exact hC
  · exact hC
  · exact Or.inr ⟨_, rfl⟩
  · exact Or.inr ⟨_, rfl⟩
  · exact hW
  · exact hW

theorem objGet_tokenMappings_shape (chainConfig : ChainConfig) (key : String) :
    objGet (tokenMappings chainConfig) key = JSVal.undefined ∨
    (∃ a, objGet (tokenMappings chainConfig) key = JSVal.str a) ∨
    ∃ n, objGet (tokenMappings chainConfig) key = JSVal.builtin n := by
  unfold objGet
  cases hown : ownGet (tokenMappings chainConfig) key with
  | some v =>
    rcases tokenMappings_values chainConfig (key, v) (ownGet_mem _ _ _ hown) with h | h
    · exact Or.inl h
    · exact Or.inr (Or.inl h)
  | none =>
    rcases protoGet_shape key with h | h
    · exact Or.inl h
    · exact Or.inr (Or.inr h)

/-- In `server.js`, what `resolveTokenAddress` returns is a string or a member
inherited from `Object.prototype`. -/
theorem server_resolveTokenAddress_ok_shape (tokenInput : JSVal) (chainId : Int) (r : JSVal)
    (h : Server.resolveTokenAddress tokenInput chainId = .ok r) :
    (∃ s, r = JSVal.str s) ∨ ∃ n, r = JSVal.builtin n := by
  simp only [Server.resolveTokenAddress, Server.resolveTokenAddressIn] at h
  split at h
  · cases h; exact Or.inl ⟨_, rfl⟩
  · split at h
    · split at h
      · cases h; exact Or.inl ⟨_, rfl⟩
      · split at h
        · cases h; exact Or.inl ⟨_, rfl⟩
        · split at h
          · cases h
          · rename_i chainConfig _
            split at h
            · rename_i ht
              cases h
              rcases objGet_tokenMappings_shape chainConfig _ with h0 | h0 | h0
              · rw [h0] at ht; simp [JSVal.truthy] at ht
              · exact Or.inl h0
              · exact Or.inr h0
            · cases h; exact Or.inl ⟨_, rfl⟩
    · cases h

/-- C18: in `server.js`, for an argument object with truthy `fromToken`, `toToken`
and `amount` whose tokens resolve to `tokenIn` and `tokenOut` and whose amount has
the string form `amountText` (for a number the text of `Number.prototype.toString`,
as `1e+21` and `1.5`), `processSwapParameters` returns the object with
exactly the fields `tokenIn`, `tokenOut` and `amount = amountText` (no
`fromToken`, `toToken`, `slippage`); when one of the three is missing it throws
one of its three `is required` errors. -/
theorem processSwapParameters_renames (fields : List (String × JSVal)) (chainId : Int) :
    (∀ tokenIn tokenOut amountText,
      ((JSVal.obj fields).get "fromToken").truthy = true →
      ((JSVal.obj fields).get "toToken").truthy = true →
      ((JSVal.obj fields).get "amount").truthy = true →
      Server.resolveTokenAddress ((JSVal.obj fields).get "fromToken") chainId = .ok tokenIn →
      Server.resolveTokenAddress ((JSVal.obj fields).get "toToken") chainId = .ok tokenOut →
      callToString "cleaned.amount" ((JSVal.obj fields).get "amount") = .ok amountText →
      Server.processSwapParameters (JSVal.obj fields) chainId =
        .ok (JSVal.obj [("tokenIn", tokenIn), ("tokenOut", tokenOut),
                        ("amount", JSVal.str amountText)]) ∧
      ownGet [("tokenIn", tokenIn), ("tokenOut", tokenOut), ("amount", JSVal.str amountText)]
        "fromToken" = none ∧
      ownGet [("tokenIn", tokenIn), ("tokenOut", tokenOut), ("amount", JSVal.str amountText)]
        "toToken" = none ∧
      ownGet [("tokenIn", tokenIn), ("tokenOut", tokenOut), ("amount", JSVal.str amountText)]
        "slippage" = none) ∧
    ((ownGet fields "fromToken" = none ∨ ownGet fields "toToken" = none ∨
        ownGet fields "amount" = none) →
      Server.processSwapParameters (JSVal.obj fields) chainId =
          .error "Source token (fromToken) is required" ∨
        Server.processSwapParameters (JSVal.obj fields) chainId =
          .error "Destination token (toToken) is required" ∨
        Server.processSwapParameters (JSVal.obj fields) chainId =
          .error "Amount is required") := by
  have h1 := cleanBhindiParameters_get fields "swapTokens" "fromToken" (by decide)
  have h2 := cleanBhindiParameters_get fields "swapTokens" "toToken" (by decide)
  have h3 := cleanBhindiParameters_get fields "swapTokens" "amount" (by decide)
  constructor
  · intro tokenIn tokenOut amountText hf ht ha hin hout hamt
    refine ⟨?_, rfl, rfl, rfl⟩
    simp only [Server.processSwapParameters, h1, h2, h3, hf, ht, ha, hin, hout, hamt]
    rfl
  · intro hmiss
    have hget : ∀ key, ownGet fields key = none → protoGet key = JSVal.undefined →
        ((JSVal.obj fields).get key).truthy = false := by
      intro key hk hp
      simp only [JSVal.get, objGet, hk, hp, JSVal.truthy]
    cases hf : ((JSVal.obj fields).get "fromToken").truthy
    · left
      simp only [Server.processSwapParameters, h1, hf]
      rfl
    · cases ht : ((JSVal.obj fields).get "toToken").truthy
      · right; left
        simp only [Server.processSwapParameters, h1, h2, hf, ht]
        rfl
      · cases ha : ((JSVal.obj fields).get "amount").truthy
        · right; right
          simp only [Server.processSwapParameters, h1, h2, h3, hf, ht, ha]
          rfl
        · exfalso
          rcases hmiss with h | h | h
          · have := hget "fromToken" h rfl
            rw [hf] at this; cases this
          · have := hget "toToken" h rfl
            rw [ht] at this; cases this
          · have := hget "amount" h rfl
            rw [ha] at this; cases this

theorem processSwapParameters_renames_witness :
    Server.processSwapParameters
        (JSVal.obj [("fromToken", JSVal.str "USDT"), ("toToken", JSVal.str "avax"),
                    ("amount", JSVal.num 5), ("slippage", JSVal.str "1")]) 43114 =
      .ok (JSVal.obj [("tokenIn", JSVal.str "0x9702230A8Ea53601f5cD2dc00fDBc13d4dF4A8c7"),
                      ("tokenOut", JSVal.str "eth"), ("amount", JSVal.str "5")]) ∧
    (Server.processSwapParameters
        (JSVal.obj [("fromToken", JSVal.str "USDT"), ("amount", JSVal.str "5")]) 43114 =
        .error "Source token (fromToken) is required" ∨
      Server.processSwapParameters
        (JSVal.obj [("fromToken", JSVal.str "USDT"), ("amount", JSVal.str "5")]) 43114 =
        .error "Destination token (toToken) is required" ∨
      Server.processSwapParameters
        (JSVal.obj [("fromToken", JSVal.str "USDT"), ("amount", JSVal.str "5")]) 43114 =
        .error "Amount is required") ∧
    Server.processSwapParameters (JSVal.obj largeAmountFields) 43114 =
      .ok (JSVal.obj [("tokenIn", JSVal.str "0x9702230A8Ea53601f5cD2dc00fDBc13d4dF4A8c7"),
                      ("tokenOut", JSVal.str "eth"), ("amount", JSVal.str "1e+21")]) ∧
    Server.processSwapParameters (JSVal.obj fractionAmountFields) 43114 =
      .ok (JSVal.obj [("tokenIn", JSVal.str "0x9702230A8Ea53601f5cD2dc00fDBc13d4dF4A8c7"),
                      ("tokenOut", JSVal.str "eth"), ("amount", JSVal.str "1.5")]) :=
  ⟨((processSwapParameters_renames
      [("fromToken", JSVal.str "USDT"), ("toToken", JSVal.str "avax"),
       ("amount", JSVal.num 5), ("slippage", JSVal.str "1")] 43114).1
      (JSVal.str "0x9702230A8Ea53601f5cD2dc00fDBc13d4dF4A8c7") (JSVal.str "eth") "5"
      rfl rfl rfl rfl rfl rfl).1,
   (processSwapParameters_renames
      [("fromToken", JSVal.str "USDT"), ("amount", JSVal.str "5")] 43114).2
      (Or.inr (Or.inl rfl)),
   ((processSwapParameters_renames largeAmountFields 43114).1
      (JSVal.str "0x9702230A8Ea53601f5cD2dc00fDBc13d4dF4A8c7") (JSVal.str "eth") "1e+21"
      rfl rfl rfl rfl rfl rfl).1,
   ((processSwapParameters_renames fractionAmountFields 43114).1
      (JSVal.str "0x9702230A8Ea53601f5cD2dc00fDBc13d4dF4A8c7") (JSVal.str "eth") "1.5"
      rfl rfl rfl rfl rfl rfl).1⟩

theorem deleteProperty_of_absent (fields : List (String × JSVal)) (param : String)
    (h : ownGet fields param = none) : Server.deleteProperty fields param = fields := by
  induction fields with
  | nil => rfl
  | cons kv rest ih =>
    obtain ⟨k, v⟩ := kv
    simp only [ownGet] at h
    split at h
    · cases h
    · rename_i hk
      unfold Server.deleteProperty
      rw [List.filter_cons_of_pos (by simpa using hk)]
      exact congrArg _ (ih h)

theorem cleanStep_eq (state : Server.CleanState) (param : String)
    (hp : protoGet param = JSVal.undefined) :
    Server.cleanStep state param =
      { args := state.args, cleaned := Server.deleteProperty state.cleaned param } := by
  unfold Server.cleanStep
  cases hown : ownGet state.cleaned param with
  | some v => simp [Server.hasProperty, hown]
  | none =>
    have hh : Server.hasProperty state.cleaned param = false := by
      simp [Server.hasProperty, hown, hp, JSVal.truthy]
    simp only [hh, deleteProperty_of_absent _ _ hown]
    rfl

theorem foldl_cleanStep (params : List String) (state : Server.CleanState)
    (hp : ∀ param ∈ params, protoGet param = JSVal.undefined) :
    params.foldl Server.cleanStep state =
      { args := state.args,
        cleaned := state.cleaned.filter (fun kv => !params.contains kv.1) } := by
  induction params generalizing state with
  | nil => simp
  | cons param rest ih =>
    rw [List.foldl_cons, cleanStep_eq state param (hp param (List.mem_cons_self _ _)),
      ih _ (fun q hq => hp q (List.mem_cons_of_mem _ hq))]
    simp only [Server.deleteProperty, List.filter_filter]
    congr 1
    apply List.filter_congr
    intro kv _
    by_cases hk : kv.1 = param
    · simp [hk]
    · simp [hk, List.contains_cons]

theorem ownGet_filter_out (p : String → Bool) (fields : List (String × JSVal)) (key : String)
    (hk : p key = false) : ownGet (fields.filter (fun kv => p kv.1)) key = none := by
  induction fields with
  | nil => rfl
  | cons kv rest ih =>
    obtain ⟨k, v⟩ := kv
    cases hc : p k
    · rw [List.filter_cons_of_neg (by simp [hc])]
      exact ih
    · rw [List.filter_cons_of_pos (by simpa using hc)]
      have hkk : k ≠ key := by
        rintro rfl
        rw [hk] at hc
        cases hc
      simp only [ownGet, if_neg hkk, ih]

theorem cleanBhindiParameters_of_object (args : JSVal) (toolName : String)
    (ht : args.truthy = true) (ho : args.typeof = "object") :
    Server.cleanBhindiParameters args toolName =
      JSVal.obj ((spreadFields args).filter (fun kv => !Server.bhindiParams.contains kv.1)) := by
  have hc : ¬ ((!args.truthy || args.typeof != "object") = true) := by
    simp [ht, ho]
  unfold Server.cleanBhindiParameters
  rw [if_neg hc]
  cases args with
  | obj fields => rfl
  | arr items => rfl
  | builtin name => rfl
  | undefined => cases ht
  | null => cases ht
  | bool b => simp [JSVal.typeof] at ho
  | num n => simp [JSVal.typeof] at ho
  | number x => simp [JSVal.typeof] at ho
  | str s => simp [JSVal.typeof] at ho

/-- C19: in `server.js`, for a truthy `args` of type `object` (a plain object, or an
array, whose keys are its indices), `cleanBhindiParameters` returns a new object
whose own properties are those of `args` without `toolName`, `userId`,
`executionId`, `chatId`, `timestamp`, `requestId`, each remaining key with its
value, while `args` itself stays as it was (the deletions act on the copy); for
a falsy or non-object `args` it returns the empty object. -/
theorem cleanBhindiParameters_frame (toolName : String) :
    (∀ args : JSVal, args.truthy = true → args.typeof = "object" →
      ∃ cleaned,
        Server.cleanBhindiParameters args toolName = JSVal.obj cleaned ∧
        Server.cleanObject args = { args := args, cleaned := cleaned } ∧
        ∀ key, ownGet cleaned key =
          if Server.bhindiParams.contains key then none else ownGet (spreadFields args) key) ∧
    (∀ args : JSVal, args.truthy = false ∨ args.typeof ≠ "object" →
      Server.cleanBhindiParameters args toolName = JSVal.obj []) := by
  constructor
  · intro args ht ho
    refine ⟨(spreadFields args).filter (fun kv => !Server.bhindiParams.contains kv.1),
      cleanBhindiParameters_of_object args toolName ht ho, ?_, ?_⟩
    · refine foldl_cleanStep Server.bhindiParams
        { args := args, cleaned := spreadFields args } ?_
      intro param hparam
      simp only [Server.bhindiParams, List.mem_cons, List.mem_singleton, List.not_mem_nil,
        or_false] at hparam
      rcases hparam with rfl | rfl | rfl | rfl | rfl | rfl <;> rfl
    · intro key
      cases hc : Server.bhindiParams.contains key
      · rw [if_neg (by simp)]
        exact ownGet_filter_key (fun k => !Server.bhindiParams.contains k) (spreadFields args)
          key (by simp only [hc, Bool.not_false])
      · rw [if_pos rfl]
        exact ownGet_filter_out (fun k => !Server.bhindiParams.contains k) (spreadFields args)
          key (by simp only [hc, Bool.not_true])
  · intro args h
    unfold Server.cleanBhindiParameters
    rcases h with h | h
    · simp [h]
    · have : (args.typeof != "object") = true := by simpa using h
      simp [this]

theorem cleanBhindiParameters_frame_witness :
    Server.cleanBhindiParameters
        (JSVal.obj [("to", JSVal.str "0xabc"), ("userId", JSVal.str "u1"),
                    ("amount", JSVal.str "1"), ("toolName", JSVal.str "transferTokens")])
        "transferTokens" =
      JSVal.obj [("to", JSVal.str "0xabc"), ("amount", JSVal.str "1")] ∧
    Server.cleanBhindiParameters (JSVal.arr [JSVal.str "a", JSVal.num 7]) "transferTokens" =
      JSVal.obj [("0", JSVal.str "a"), ("1", JSVal.num 7)] ∧
    Server.cleanBhindiParameters (JSVal.str "text") "transferTokens" = JSVal.obj [] :=
  ⟨by
    obtain ⟨cleaned, h1, h2, -⟩ := (cleanBhindiParameters_frame "transferTokens").1
      (JSVal.obj [("to", JSVal.str "0xabc"), ("userId", JSVal.str "u1"),
       ("amount", JSVal.str "1"), ("toolName", JSVal.str "transferTokens")]) rfl rfl
    rw [h1]
    have h3 : (Server.cleanObject
        (JSVal.obj [("to", JSVal.str "0xabc"), ("userId", JSVal.str "u1"),
         ("amount", JSVal.str "1"), ("toolName", JSVal.str "transferTokens")])).cleaned =
          [("to", JSVal.str "0xabc"), ("amount", JSVal.str "1")] := rfl
    rw [h2] at h3
    exact congrArg JSVal.obj h3,
   by
    obtain ⟨cleaned, h1, h2, -⟩ := (cleanBhindiParameters_frame "transferTokens").1
      (JSVal.arr [JSVal.str "a", JSVal.num 7]) rfl rfl
    rw [h1]
    have h3 : (Server.cleanObject (JSVal.arr [JSVal.str "a", JSVal.num 7])).cleaned =
        [("0", JSVal.str "a"), ("1", JSVal.num 7)] := rfl
    rw [h2] at h3
    exact congrArg JSVal.obj h3,
   (cleanBhindiParameters_frame "transferTokens").2 (JSVal.str "text")
     (Or.inr (by decide))⟩

/-- C20: in `TOOLS_SCHEMA` of `server.js` and of `demo.js` the canonical names are
pairwise distinct, an alias listed by one tool is listed by no tool of another
name, and no alias equals a canonical name. -/
theorem toolsSchema_registry_invariant :
    (Server.TOOLS_SCHEMA.map (fun t => t.name)).Nodup ∧
    (Demo.TOOLS_SCHEMA.map (fun t => t.name)).Nodup ∧
    (∀ t1 ∈ Server.TOOLS_SCHEMA, ∀ a ∈ t1.aliases, ∀ t2 ∈ Server.TOOLS_SCHEMA,
      (a ∈ t2.aliases → t2.name = t1.name) ∧ t2.name ≠ a) ∧
    (∀ t1 ∈ Demo.TOOLS_SCHEMA, ∀ a ∈ t1.aliases, ∀ t2 ∈ Demo.TOOLS_SCHEMA,
      (a ∈ t2.aliases → t2.name = t1.name) ∧ t2.name ≠ a) := by
  refine ⟨by decide, by decide, by decide, by decide⟩

/-! ### Closure, round trip and the two resolvers -/

theorem lookupChain_CHAIN_CONFIGS_some (chainId : Int) (chainConfig : ChainConfig)
    (h : lookupChain CHAIN_CONFIGS chainId = some chainConfig) :
    (chainId = 43114 ∧ chainConfig = avalancheConfig) ∨
    (chainId = 56 ∧ chainConfig = bscConfig) := by
  simp only [CHAIN_CONFIGS, lookupChain] at h
  split at h
  · rename_i h1
    cases h
    exact Or.inl ⟨h1.symm, rfl⟩
  · split at h
    · rename_i h2
      cases h
      exact Or.inr ⟨h2.symm, rfl⟩
    · cases h

theorem tokenMappings_string_values (chainConfig : ChainConfig)
    (hcfg : chainConfig = avalancheConfig ∨ chainConfig = bscConfig) (key a : String)
    (h : (key, JSVal.str a) ∈ tokenMappings chainConfig) :
    a = "eth" ∨ isAddress a = true := by
  rcases hcfg with rfl | rfl
  · have hl : tokenMappings avalancheConfig =
        [("usdt", JSVal.str "0x9702230A8Ea53601f5cD2dc00fDBc13d4dF4A8c7"),
         ("usdt.e", JSVal.str "0x9702230A8Ea53601f5cD2dc00fDBc13d4dF4A8c7"),
         ("tether", JSVal.str "0x9702230A8Ea53601f5cD2dc00fDBc13d4dF4A8c7"),
         ("usdc", JSVal.str "0xB97EF9Ef8734C71904D8002F8b6Bc66Dd9c48a6E"),
         ("usdc.e", JSVal.str "0xB97EF9Ef8734C71904D8002F8b6Bc66Dd9c48a6E"),
         ("usd coin", JSVal.str "0xB97EF9Ef8734C71904D8002F8b6Bc66Dd9c48a6E"),
         ("avax", JSVal.str "eth"), ("avalanche", JSVal.str "eth"),
         ("wavax", JSVal.str "0xB31f66AA3C1e785363F0875A1B74E27b85FD66c7"),
         ("wrapped avax", JSVal.str "0xB31f66AA3C1e785363F0875A1B74E27b85FD66c7")] := rfl
    rw [hl] at h
    simp only [List.mem_cons, List.mem_singleton, List.not_mem_nil, or_false, Prod.mk.injEq,
      JSVal.str.injEq] at h
    rcases h with ⟨-, rfl⟩ | ⟨-, rfl⟩ | ⟨-, rfl⟩ | ⟨-, rfl⟩ | ⟨-, rfl⟩ | ⟨-, rfl⟩ | ⟨-, rfl⟩ |
      ⟨-, rfl⟩ | ⟨-, rfl⟩ | ⟨-, rfl⟩ <;> decide
  · have hl : tokenMappings bscConfig =
        [("usdt", JSVal.str "0x55d398326f99059fF775485246999027B3197955"),
         ("usdt.e", JSVal.str "0x55d398326f99059fF775485246999027B3197955"),
         ("tether", JSVal.str "0x55d398326f99059fF775485246999027B3197955"),
         ("usdc", JSVal.str "0x8AC76a51cc950d9822D68b83fE1Ad97B32Cd580d"),
         ("usdc.e", JSVal.str "0x8AC76a51cc950d9822D68b83fE1Ad97B32Cd580d"),
         ("usd coin", JSVal.str "0x8AC76a51cc950d9822D68b83fE1Ad97B32Cd580d"),
         ("avax", JSVal.str "eth"), ("avalanche", JSVal.str "eth"),
         ("wavax", JSVal.undefined), ("wrapped avax", JSVal.undefined)] := rfl
    rw [hl] at h
    simp only [List.mem_cons, List.mem_singleton, List.not_mem_nil, or_false, Prod.mk.injEq,
      JSVal.str.injEq, reduceCtorEq, and_false] at h
    rcases h with ⟨-, rfl⟩ | ⟨-, rfl⟩ | ⟨-, rfl⟩ | ⟨-, rfl⟩ | ⟨-, rfl⟩ | ⟨-, rfl⟩ | ⟨-, rfl⟩ |
      ⟨-, rfl⟩ <;> decide

theorem server_resolveTokenAddress_of_isAddress (s : String) (chainId : Int)
    (h : isAddress s = true) :
    Server.resolveTokenAddress (JSVal.str s) chainId = .ok (JSVal.str s) := by
  have hne : s ≠ "" := isAddress_ne_empty s h
  rw [server_resolveTokenAddress_str s chainId hne, if_pos h]

theorem server_resolveTokenAddress_eth (chainId : Int) :
    Server.resolveTokenAddress (JSVal.str "eth") chainId = .ok (JSVal.str "eth") := by
  rw [server_resolveTokenAddress_str "eth" chainId (by decide), if_neg (by decide),
    if_pos (by decide)]

/-- In `server.js`, a string returned by `resolveTokenAddress` is the sentinel `eth`, a
string of address shape or the input itself, and resolving it again returns it. -/
theorem server_resolveTokenAddress_closed_of_string (x : JSVal) (chainId : Int) (s : String)
    (h : Server.resolveTokenAddress x chainId = .ok (JSVal.str s)) :
    (s = "eth" ∨ isAddress s = true ∨ x = JSVal.str s) ∧
    Server.resolveTokenAddress (JSVal.str s) chainId = .ok (JSVal.str s) := by
  have key : s = "eth" ∨ isAddress s = true ∨ x = JSVal.str s := by
    cases x with
    | str t =>
      by_cases hne : t = ""
      · subst hne
        have : Server.resolveTokenAddress (JSVal.str "") chainId = .ok (JSVal.str "eth") := rfl
        rw [this] at h
        cases h
        exact Or.inl rfl
      · rw [server_resolveTokenAddress_str t chainId hne] at h
        split at h
        · cases h; exact Or.inr (Or.inr rfl)
        · split at h
          · cases h; exact Or.inl rfl
          · split at h
            · cases h
            · rename_i chainConfig hlook
              split at h
              · have hcfg := lookupChain_CHAIN_CONFIGS_some chainId chainConfig hlook
                have hcfg2 : chainConfig = avalancheConfig ∨ chainConfig = bscConfig := by
                  rcases hcfg with ⟨-, h1⟩ | ⟨-, h1⟩
                  · exact Or.inl h1
                  · exact Or.inr h1
                have hv : objGet (tokenMappings chainConfig) (jsTrim (jsToLowerCase t)) =
                    JSVal.str s := Except.ok.inj h
                unfold objGet at hv
                cases hown : ownGet (tokenMappings chainConfig) (jsTrim (jsToLowerCase t)) with
                | some v =>
                  rw [hown] at hv
                  simp only at hv
                  subst hv
                  rcases tokenMappings_string_values chainConfig hcfg2 _ s
                    (ownGet_mem _ _ _ hown) with h1 | h1
                  · exact Or.inl h1
                  · exact Or.inr (Or.inl h1)
                | none =>
                  rw [hown] at hv
                  simp only at hv
                  rcases protoGet_shape (jsTrim (jsToLowerCase t)) with h1 | ⟨n, h1⟩
                  · rw [h1] at hv; cases hv
                  · rw [h1] at hv; cases hv
              · cases h; exact Or.inr (Or.inr rfl)
    | undefined => cases h; exact Or.inl rfl
    | null => cases h; exact Or.inl rfl
    | bool b =>
      cases b
      · cases h; exact Or.inl rfl
      · cases h
    | num n =>
      by_cases hn : n = 0
      · subst hn; cases h; exact Or.inl rfl
      · have ht : (JSVal.num n).truthy = true := by simp [JSVal.truthy, hn]
        simp only [Server.resolveTokenAddress, Server.resolveTokenAddressIn, ht,
          JSVal.isStr] at h
        cases h
    | number x =>
      cases ht : (JSVal.number x).truthy
      · simp [Server.resolveTokenAddress, Server.resolveTokenAddressIn, ht] at h
        exact Or.inl h.symm
      · rw [server_resolveTokenAddress_non_string _ chainId ht (fun s h => by cases h)] at h
        cases h
    | arr items => cases h
    | obj fields => cases h
    | builtin name => cases h
  refine ⟨key, ?_⟩
  rcases key with h1 | h1 | h1
  · subst h1; exact server_resolveTokenAddress_eth chainId
  · exact server_resolveTokenAddress_of_isAddress s chainId h1
  · rw [h1] at h; exact h

/-- C28: in `server.js`, `resolveTokenAddress` is not closed on its results: for the
input `constructor` on chain 43114 it returns the inherited function `Object`,
which is neither `eth`, nor a string of address shape, nor the input, and
resolving that result again throws. -/
theorem server_resolveTokenAddress_not_closed :
    Server.resolveTokenAddress (JSVal.str "constructor") 43114 =
      .ok (JSVal.builtin "Object") ∧
    Server.resolveTokenAddress (JSVal.builtin "Object") 43114 =
      .error "Invalid token address type: function. Must be string." :=
  ⟨rfl, rfl⟩

theorem lower_ne_empty (t : String) (k : String) (h : jsToLowerCase t = k) (hk : k ≠ "") :
    t ≠ "" := by
  rintro rfl
  exact hk (h.symm.trans rfl)

theorem not_isAddress_of_trim_lower (t k : String) (h : jsTrim (jsToLowerCase t) = k)
    (hk : k.data.head? ≠ some '0') : isAddress t = false := by
  cases ha : isAddress t with
  | false => rfl
  | true =>
    obtain ⟨tl, htl⟩ := jsTrim_lower_of_isAddress t ha
    rw [h] at htl
    rw [htl] at hk
    exact absurd rfl hk

/-- A spelling `t` whose lower-case form is a key `k` of the symbol table resolves to
the table's entry for `k`. -/
theorem server_resolve_symbol (t k : String) (chainId : Int) (chainConfig : ChainConfig)
    (v : JSVal)
    (hlow : jsToLowerCase t = k)
    (htrim : jsTrim k = k) (hk0 : k.data.head? ≠ some '0') (hne : k ≠ "")
    (hnative : ¬ (k = "eth" ∨ k = "avax" ∨ k = "native"))
    (hchain : lookupChain CHAIN_CONFIGS chainId = some chainConfig)
    (hval : objGet (tokenMappings chainConfig) k = v) (htruthy : v.truthy = true) :
    Server.resolveTokenAddress (JSVal.str t) chainId = .ok v := by
  have hin : jsTrim (jsToLowerCase t) = k := by rw [hlow, htrim]
  have ht : t ≠ "" := lower_ne_empty t k hlow hne
  have ha : isAddress t = false := not_isAddress_of_trim_lower t k hin hk0
  rw [server_resolveTokenAddress_str t chainId ht, hin, hchain]
  simp only [ha, if_neg hnative, hval, htruthy, if_true, Bool.false_eq_true, if_false]

theorem server_getTokenSymbol_str (a : String) (chainId : Int) (chainConfig : ChainConfig)
    (hne : a ≠ "") (heth : a ≠ "eth")
    (hchain : lookupChain CHAIN_CONFIGS chainId = some chainConfig) :
    Server.getTokenSymbol (JSVal.str a) chainId =
      Server.symbolOfAddress chainConfig.tokens (JSVal.str a) := by
  have hc : (!(JSVal.str a).truthy || (JSVal.str a).isStr "eth") = false := by
    simp [JSVal.truthy, JSVal.isStr, hne, heth]
  simp only [Server.getTokenSymbol, hc, hchain]
  rfl

theorem roundtrip_avalanche_USDT (chainId : Int) (hchain : lookupChain CHAIN_CONFIGS chainId = some avalancheConfig) :
    (∀ t, jsToLowerCase t = jsToLowerCase "USDT" →
      Server.resolveTokenAddress (JSVal.str t) chainId = .ok (JSVal.str "0x9702230A8Ea53601f5cD2dc00fDBc13d4dF4A8c7")) ∧
    (∀ a, jsToLowerCase a = jsToLowerCase "0x9702230A8Ea53601f5cD2dc00fDBc13d4dF4A8c7" →
      Server.getTokenSymbol (JSVal.str a) chainId = .ok "USDT") := by
  constructor
  · intro t ht
    exact server_resolve_symbol t (jsToLowerCase "USDT") chainId avalancheConfig _ ht (by decide)
      (by decide) (by decide) (by decide) hchain rfl rfl
  · intro a ha
    have hne : a ≠ "" := by
      rintro rfl
      revert ha
      decide
    have heth : a ≠ "eth" := by
      rintro rfl
      revert ha
      decide
    rw [server_getTokenSymbol_str a chainId avalancheConfig hne heth hchain]
    simp only [avalancheConfig, Server.symbolOfAddress, callToLowerCase, ha]
    rfl

theorem roundtrip_avalanche_USDC (chainId : Int) (hchain : lookupChain CHAIN_CONFIGS chainId = some avalancheConfig) :
    (∀ t, jsToLowerCase t = jsToLowerCase "USDC" →
      Server.resolveTokenAddress (JSVal.str t) chainId = .ok (JSVal.str "0xB97EF9Ef8734C71904D8002F8b6Bc66Dd9c48a6E")) ∧
    (∀ a, jsToLowerCase a = jsToLowerCase "0xB97EF9Ef8734C71904D8002F8b6Bc66Dd9c48a6E" →
      Server.getTokenSymbol (JSVal.str a) chainId = .ok "USDC") := by
  constructor
  · intro t ht
    exact server_resolve_symbol t (jsToLowerCase "USDC") chainId avalancheConfig _ ht (by decide)
      (by decide) (by decide) (by decide) hchain rfl rfl
  · intro a ha
    have hne : a ≠ "" := by
      rintro rfl
      revert ha
      decide
    have heth : a ≠ "eth" := by
      rintro rfl
      revert ha
      decide
    rw [server_getTokenSymbol_str a chainId avalancheConfig hne heth hchain]
    simp only [avalancheConfig, Server.symbolOfAddress, callToLowerCase, ha]
    rfl

theorem roundtrip_avalanche_WAVAX (chainId : Int) (hchain : lookupChain CHAIN_CONFIGS chainId = some avalancheConfig) :
    (∀ t, jsToLowerCase t = jsToLowerCase "WAVAX" →
      Server.resolveTokenAddress (JSVal.str t) chainId = .ok (JSVal.str "0xB31f66AA3C1e785363F0875A1B74E27b85FD66c7")) ∧
    (∀ a, jsToLowerCase a = jsToLowerCase "0xB31f66AA3C1e785363F0875A1B74E27b85FD66c7" →
      Server.getTokenSymbol (JSVal.str a) chainId = .ok "WAVAX") := by
  constructor
  · intro t ht
    exact server_resolve_symbol t (jsToLowerCase "WAVAX") chainId avalancheConfig _ ht (by decide)
      (by decide) (by decide) (by decide) hchain rfl rfl
  · intro a ha
    have hne : a ≠ "" := by
      rintro rfl
      revert ha
      decide
    have heth : a ≠ "eth" := by
      rintro rfl
      revert ha
      decide
    rw [server_getTokenSymbol_str a chainId avalancheConfig hne heth hchain]
    simp only [avalancheConfig, Server.symbolOfAddress, callToLowerCase, ha]
    rfl

theorem roundtrip_bsc_USDT (chainId : Int) (hchain : lookupChain CHAIN_CONFIGS chainId = some bscConfig) :
    (∀ t, jsToLowerCase t = jsToLowerCase "USDT" →
      Server.resolveTokenAddress (JSVal.str t) chainId = .ok (JSVal.str "0x55d398326f99059fF775485246999027B3197955")) ∧
    (∀ a, jsToLowerCase a = jsToLowerCase "0x55d398326f99059fF775485246999027B3197955" →
      Server.getTokenSymbol (JSVal.str a) chainId = .ok "USDT") := by
  constructor
  · intro t ht
    exact server_resolve_symbol t (jsToLowerCase "USDT") chainId bscConfig _ ht (by decide)
      (by decide) (by decide) (by decide) hchain rfl rfl
  · intro a ha
    have hne : a ≠ "" := by
      rintro rfl
      revert ha
      decide
    have heth : a ≠ "eth" := by
      rintro rfl
      revert ha
      decide
    rw [server_getTokenSymbol_str a chainId bscConfig hne heth hchain]
    simp only [bscConfig, Server.symbolOfAddress, callToLowerCase, ha]
    rfl

theorem roundtrip_bsc_USDC (chainId : Int) (hchain : lookupChain CHAIN_CONFIGS chainId = some bscConfig) :
    (∀ t, jsToLowerCase t = jsToLowerCase "USDC" →
      Server.resolveTokenAddress (JSVal.str t) chainId = .ok (JSVal.str "0x8AC76a51cc950d9822D68b83fE1Ad97B32Cd580d")) ∧
    (∀ a, jsToLowerCase a = jsToLowerCase "0x8AC76a51cc950d9822D68b83fE1Ad97B32Cd580d" →
      Server.getTokenSymbol (JSVal.str a) chainId = .ok "USDC") := by
  constructor
  · intro t ht
    exact server_resolve_symbol t (jsToLowerCase "USDC") chainId bscConfig _ ht (by decide)
      (by decide) (by decide) (by decide) hchain rfl rfl
  · intro a ha
    have hne : a ≠ "" := by
      rintro rfl
      revert ha
      decide
    have heth : a ≠ "eth" := by
      rintro rfl
      revert ha
      decide
    rw [server_getTokenSymbol_str a chainId bscConfig hne heth hchain]
    simp only [bscConfig, Server.symbolOfAddress, callToLowerCase, ha]
    rfl

/-- C29: in `server.js`, for a chain of `CHAIN_CONFIGS` and a symbol among USDT, USDC,
WAVAX that the chain's token table defines with `address`: every spelling of the
symbol in another letter case resolves to `address`, `getTokenSymbol` of every
spelling of `address` in another letter case is the symbol, and so
`getTokenSymbol(resolveTokenAddress(s, c), c)` is the symbol. -/
theorem server_symbol_roundtrip (chainId : Int) (chainConfig : ChainConfig)
    (symbol address : String)
    (hchain : lookupChain CHAIN_CONFIGS chainId = some chainConfig)
    (hsym : symbol = "USDT" ∨ symbol = "USDC" ∨ symbol = "WAVAX")
    (hdef : chainConfig.tokens.lookup symbol = some address) :
    (∀ t, jsToLowerCase t = jsToLowerCase symbol →
      Server.resolveTokenAddress (JSVal.str t) chainId = .ok (JSVal.str address)) ∧
    (∀ a, jsToLowerCase a = jsToLowerCase address →
      Server.getTokenSymbol (JSVal.str a) chainId = .ok symbol) ∧
    (∀ t, jsToLowerCase t = jsToLowerCase symbol →
      ∃ r, Server.resolveTokenAddress (JSVal.str t) chainId = .ok r ∧
        Server.getTokenSymbol r chainId = .ok symbol) := by
  have main : (∀ t, jsToLowerCase t = jsToLowerCase symbol →
      Server.resolveTokenAddress (JSVal.str t) chainId = .ok (JSVal.str address)) ∧
      (∀ a, jsToLowerCase a = jsToLowerCase address →
        Server.getTokenSymbol (JSVal.str a) chainId = .ok symbol) := by
    rcases lookupChain_CHAIN_CONFIGS_some chainId chainConfig hchain with ⟨-, rfl⟩ | ⟨-, rfl⟩
    · rcases hsym with rfl | rfl | rfl
      · have ha : address = "0x9702230A8Ea53601f5cD2dc00fDBc13d4dF4A8c7" :=
          (Option.some.inj hdef).symm
        subst ha
        exact roundtrip_avalanche_USDT chainId hchain
      · have ha : address = "0xB97EF9Ef8734C71904D8002F8b6Bc66Dd9c48a6E" :=
          (Option.some.inj hdef).symm
        subst ha
        exact roundtrip_avalanche_USDC chainId hchain
      · have ha : address = "0xB31f66AA3C1e785363F0875A1B74E27b85FD66c7" :=
          (Option.some.inj hdef).symm
        subst ha
        exact roundtrip_avalanche_WAVAX chainId hchain
    · rcases hsym with rfl | rfl | rfl
      · have ha : address = "0x55d398326f99059fF775485246999027B3197955" :=
          (Option.some.inj hdef).symm
        subst ha
        exact roundtrip_bsc_USDT chainId hchain
      · have ha : address = "0x8AC76a51cc950d9822D68b83fE1Ad97B32Cd580d" :=
          (Option.some.inj hdef).symm
        subst ha
        exact roundtrip_bsc_USDC chainId hchain
      · have hnone : List.lookup "WAVAX" bscConfig.tokens = none := rfl
        rw [hnone] at hdef
        cases hdef
  refine ⟨main.1, main.2, ?_⟩
  intro t ht
  exact ⟨JSVal.str address, main.1 t ht, main.2 address rfl⟩

theorem server_symbol_roundtrip_witness :
    Server.resolveTokenAddress (JSVal.str "wAvAx") 43114 =
      .ok (JSVal.str "0xB31f66AA3C1e785363F0875A1B74E27b85FD66c7") ∧
    Server.getTokenSymbol (JSVal.str "0xb31f66aa3c1e785363f0875a1b74e27b85fd66c7") 43114 =
      .ok "WAVAX" :=
  have h := server_symbol_roundtrip 43114 avalancheConfig "WAVAX"
    "0xB31f66AA3C1e785363F0875A1B74E27b85FD66c7" rfl (Or.inr (Or.inr rfl)) rfl
  ⟨h.1 "wAvAx" (by decide), h.2.1 "0xb31f66aa3c1e785363f0875a1b74e27b85fd66c7" (by decide)⟩

theorem findTool_some (schema : List Tool) (n : String) (tool : Tool)
    (h : findTool schema n = some tool) : tool.name = n ∧ tool ∈ schema := by
  unfold findTool at h
  exact ⟨by simpa using List.find?_some h, List.mem_of_find?_eq_some h⟩

theorem findAlias_some (schema : List Tool) (n name : String)
    (h : findAlias schema n = some name) : ∃ t ∈ schema, t.name = name ∧ n ∈ t.aliases := by
  induction schema with
  | nil => cases h
  | cons tool rest ih =>
    simp only [findAlias] at h
    split at h
    · rename_i hc
      cases h
      exact ⟨tool, List.mem_cons_self _ _, rfl, by simpa using hc⟩
    · obtain ⟨t, ht, h1, h2⟩ := ih h
      exact ⟨t, List.mem_cons_of_mem _ ht, h1, h2⟩

theorem findFuzzy_some (table : List (String × String)) (lowerName toolName : String)
    (h : Demo.findFuzzy table lowerName = some toolName) :
    toolName ∈ table.map (fun kv => kv.2) := by
  induction table with
  | nil => cases h
  | cons kv rest ih =>
    obtain ⟨k, t⟩ := kv
    simp only [Demo.findFuzzy] at h
    split at h
    · cases h
      exact List.mem_cons_self _ _
    · exact List.mem_cons_of_mem _ (ih h)

/-- Names from which `resolveToolName` of `server.js` reaches a registered tool. -/
theorem server_resolves_to_registered (n : String)
    (h : Server.resolveToolName n ∈ Server.TOOLS_SCHEMA.map (fun t => t.name)) :
    n ∈ Server.TOOLS_SCHEMA.map (fun t => t.name) ++
      (Server.TOOLS_SCHEMA.map (fun t => t.aliases)).flatten := by
  unfold Server.resolveToolName at h
  cases h1 : findTool Server.TOOLS_SCHEMA n with
  | some tool =>
    obtain ⟨hn, hm⟩ := findTool_some _ _ _ h1
    exact List.mem_append_left _ (List.mem_map.2 ⟨tool, hm, hn⟩)
  | none =>
    rw [h1] at h
    cases h2 : findAlias Server.TOOLS_SCHEMA n with
    | some name =>
      obtain ⟨t, ht, -, ha⟩ := findAlias_some _ _ _ h2
      exact List.mem_append_right _ (List.mem_flatten.2 ⟨t.aliases, List.mem_map.2 ⟨t, ht, rfl⟩, ha⟩)
    | none =>
      rw [h2] at h
      exact List.mem_append_left _ h

theorem server_resolveToolName_idempotent (n : String) :
    Server.resolveToolName (Server.resolveToolName n) = Server.resolveToolName n := by
  have hnames : ∀ m ∈ Server.TOOLS_SCHEMA.map (fun t => t.name),
      Server.resolveToolName m = m := by decide
  cases h1 : findTool Server.TOOLS_SCHEMA n with
  | some tool =>
    obtain ⟨hn, hm⟩ := findTool_some _ _ _ h1
    have hr : Server.resolveToolName n = tool.name := by
      simp only [Server.resolveToolName, h1]
    rw [hr]
    exact hnames _ (List.mem_map.2 ⟨tool, hm, rfl⟩)
  | none =>
    cases h2 : findAlias Server.TOOLS_SCHEMA n with
    | some name =>
      obtain ⟨t, ht, hname, -⟩ := findAlias_some _ _ _ h2
      have hr : Server.resolveToolName n = name := by
        simp only [Server.resolveToolName, h1, h2]
      rw [hr]
      exact hnames _ (List.mem_map.2 ⟨t, ht, hname⟩)
    | none =>
      have hr : Server.resolveToolName n = n := by
        simp only [Server.resolveToolName, h1, h2]
      rw [hr, hr]

theorem demo_resolveToolName_idempotent (n : String) :
    Demo.resolveToolName (Demo.resolveToolName n) = Demo.resolveToolName n := by
  have hnames : ∀ m ∈ Demo.TOOLS_SCHEMA.map (fun t => t.name),
      Demo.resolveToolName m = m := by decide
  have hfuzzy : ∀ m ∈ Demo.fuzzyMatches.map (fun kv => kv.2),
      Demo.resolveToolName m = m := by decide
  cases h1 : findTool Demo.TOOLS_SCHEMA n with
  | some tool =>
    obtain ⟨hn, hm⟩ := findTool_some _ _ _ h1
    have hr : Demo.resolveToolName n = tool.name := by
      simp only [Demo.resolveToolName, h1]
    rw [hr]
    exact hnames _ (List.mem_map.2 ⟨tool, hm, rfl⟩)
  | none =>
    cases h2 : findAlias Demo.TOOLS_SCHEMA n with
    | some name =>
      obtain ⟨t, ht, hname, -⟩ := findAlias_some _ _ _ h2
      have hr : Demo.resolveToolName n = name := by
        simp only [Demo.resolveToolName, h1, h2]
      rw [hr]
      exact hnames _ (List.mem_map.2 ⟨t, ht, hname⟩)
    | none =>
      cases h3 : Demo.findFuzzy Demo.fuzzyMatches (jsToLowerCase n) with
      | some toolName =>
        have hr : Demo.resolveToolName n = toolName := by
          simp only [Demo.resolveToolName, h1, h2, h3]
        rw [hr]
        exact hfuzzy _ (findFuzzy_some _ _ _ h3)
      | none =>
        have hr : Demo.resolveToolName n = n := by
          simp only [Demo.resolveToolName, h1, h2, h3]
        rw [hr, hr]

/-- C30: whenever `resolveToolName` of `server.js` returns a registered canonical name,
`resolveToolName` of `demo.js` returns the same name (the aliases
`blockchain_query` and `sxt_query`, which only `server.js` lists, reach
`queryBlockchainData` through the keyword `query`), and `resolveToolName` is
idempotent in both files. -/
theorem demo_resolver_extends_server (n : String) :
    (Server.resolveToolName n ∈ Server.TOOLS_SCHEMA.map (fun t => t.name) →
      Demo.resolveToolName n = Server.resolveToolName n) ∧
    Demo.resolveToolName "blockchain_query" = "queryBlockchainData" ∧
    Demo.resolveToolName "sxt_query" = "queryBlockchainData" ∧
    Server.resolveToolName (Server.resolveToolName n) = Server.resolveToolName n ∧
    Demo.resolveToolName (Demo.resolveToolName n) = Demo.resolveToolName n := by
  refine ⟨?_, by decide, by decide, server_resolveToolName_idempotent n,
    demo_resolveToolName_idempotent n⟩
  intro h
  have hall : ∀ m ∈ Server.TOOLS_SCHEMA.map (fun t => t.name) ++
      (Server.TOOLS_SCHEMA.map (fun t => t.aliases)).flatten,
      Demo.resolveToolName m = Server.resolveToolName m := by decide
  exact hall n (server_resolves_to_registered n h)

theorem demo_resolver_extends_server_witness :
    Demo.resolveToolName "sxt_query" = Server.resolveToolName "sxt_query" :=
  (demo_resolver_extends_server "sxt_query").1 (by decide)

/-! ### Headers, authentication and routes -/

theorem jsOr_truthy (a b : JSVal) : (jsOr a b).truthy = (a.truthy || b.truthy) := by
  unfold jsOr
  cases h : a.truthy <;> simp [h]

theorem jsOr_of_falsy (a b : JSVal) (h : a.truthy = false) : jsOr a b = b := by
  simp [jsOr, h]

theorem jsOr_of_truthy (a b : JSVal) (h : a.truthy = true) : jsOr a b = a := by
  simp [jsOr, h]

theorem headerGet_cons_self (name value : String) (rest : List (String × String)) :
    headerGet ((name, value) :: rest) name = JSVal.str value := by
  simp [headerGet, List.lookup]

theorem headerGet_cons_ne (name other value : String) (rest : List (String × String))
    (h : name ≠ other) :
    headerGet ((other, value) :: rest) name = headerGet rest name := by
  have : (name == other) = false := by simpa using h
  simp [headerGet, List.lookup, this]

/-- C21: in `server.js`, when none of the headers `x-api-key`, `x-apikey`, `x-api_key`
carries a non-empty value, `authenticate` answers 401 with `success: false` and
`error.code = AUTH_REQUIRED` and does not pass the request on; when one of them
does, it passes the request on with the extracted configuration, and
`POST /tools/transfer` is then executed as `transferTokens` and answered with
status 200. -/
theorem server_authenticate_gate (henv : HeaderEnv) (req : Request) :
    (((headerGet req.headers "x-api-key").truthy = false ∧
        (headerGet req.headers "x-apikey").truthy = false ∧
        (headerGet req.headers "x-api_key").truthy = false) →
      ∃ response, Server.authenticate henv req = Middleware.respond response ∧
        response.status = 401 ∧
        response.body.get "success" = JSVal.bool false ∧
        (response.body.get "error").get "code" = JSVal.str "AUTH_REQUIRED") ∧
    (¬ ((headerGet req.headers "x-api-key").truthy = false ∧
        (headerGet req.headers "x-apikey").truthy = false ∧
        (headerGet req.headers "x-api_key").truthy = false) →
      Server.authenticate henv req = Middleware.next (Server.extractConfig henv req) ∧
      ∀ env : Env, req.param = "transfer" →
        (Server.postTools henv env req).1.status = 200 ∧
        (Server.postTools henv env req).1.body =
          (Server.executeTool env "transferTokens" (jsOr req.body (JSVal.obj []))
            (Server.extractConfig henv req)).1) := by
  have hkey : (Server.extractConfig henv req).apiKey.truthy =
      ((headerGet req.headers "x-api-key").truthy ||
        (headerGet req.headers "x-apikey").truthy ||
        (headerGet req.headers "x-api_key").truthy) := by
    simp only [Server.extractConfig, jsOr_truthy]
  constructor
  · rintro ⟨h1, h2, h3⟩
    have hk : (Server.extractConfig henv req).apiKey.truthy = false := by
      rw [hkey, h1, h2, h3]; rfl
    have ha : Server.authenticate henv req = Middleware.respond
        { status := 401,
          body := JSVal.obj
            [("success", JSVal.bool false),
             ("error", JSVal.obj
               [("code", JSVal.str "AUTH_REQUIRED"),
                ("message", JSVal.str "API key required in x-api-key header"),
                ("timestamp", JSVal.str henv.nowIso)])] } := by
      simp only [Server.authenticate, hk]
      rfl
    exact ⟨_, ha, rfl, rfl, rfl⟩
  · intro hn
    have hk : (Server.extractConfig henv req).apiKey.truthy = true := by
      rw [hkey]
      cases h1 : (headerGet req.headers "x-api-key").truthy
      · cases h2 : (headerGet req.headers "x-apikey").truthy
        · cases h3 : (headerGet req.headers "x-api_key").truthy
          · exact absurd ⟨h1, h2, h3⟩ hn
          · rfl
        · rfl
      · rfl
    have ha : Server.authenticate henv req =
        Middleware.next (Server.extractConfig henv req) := by
      simp only [Server.authenticate, hk]
      rfl
    refine ⟨ha, ?_⟩
    intro env hparam
    have hres : Server.resolveToolName "transfer" = "transferTokens" := by decide
    have hfind : (findTool Server.TOOLS_SCHEMA "transferTokens").isSome = true := by decide
    simp only [Server.postTools, ha, hparam, hres]
    cases hf : findTool Server.TOOLS_SCHEMA "transferTokens" with
    | none => rw [hf] at hfind; cases hfind
    | some tool => exact ⟨rfl, rfl⟩

theorem server_authenticate_gate_witness :
    (Server.postTools sampleHeaderEnv demoModeEnv
      { headers := [("x-api-key", "key")], param := "transfer",
        body := JSVal.obj [("to", JSVal.str sampleAddress), ("amount", JSVal.str "1")] }).1.status
      = 200 ∧
    ∃ response, Server.authenticate sampleHeaderEnv
        { headers := [("x-api-key", "")], param := "transfer", body := JSVal.obj [] } =
          Middleware.respond response ∧ response.status = 401 :=
  ⟨(((server_authenticate_gate sampleHeaderEnv
      { headers := [("x-api-key", "key")], param := "transfer",
        body := JSVal.obj [("to", JSVal.str sampleAddress), ("amount", JSVal.str "1")] }).2
      (by decide)).2 demoModeEnv rfl).1,
   by
    obtain ⟨response, h1, h2, -⟩ := (server_authenticate_gate sampleHeaderEnv
      { headers := [("x-api-key", "")], param := "transfer", body := JSVal.obj [] }).1
      (by decide)
    exact ⟨response, h1, h2⟩⟩

/-- C22: in `server.js`, only `POST /tools/:toolName` answers an unregistered name
with 404.  For the authenticated request `mintNft`, which resolves to no
registered tool, `POST /actions/mintNft` and the catch-all `POST /mintNft`
answer with status 200 and a body with `success: false`, with and without the
SDK. -/
theorem server_unknown_action_answered_200 :
    Server.resolveToolName "mintNft" = "mintNft" ∧
    (findTool Server.TOOLS_SCHEMA "mintNft").isNone = true ∧
    (Server.postTools sampleHeaderEnv demoModeEnv unknownToolRequest).1.status = 404 ∧
    (Server.postActions sampleHeaderEnv demoModeEnv unknownToolRequest).1.status = 200 ∧
    (Server.postActions sampleHeaderEnv demoModeEnv unknownToolRequest).1.body.get "success" =
      JSVal.bool false ∧
    (Server.postUniversal sampleHeaderEnv demoModeEnv unknownToolRequest).1.status = 200 ∧
    (Server.postActions sampleHeaderEnv liveEnv unknownToolRequest).1.status = 200 ∧
    (Server.postUniversal sampleHeaderEnv liveEnv unknownToolRequest).1.status = 200 := by
  refine ⟨by decide, by decide, rfl, rfl, rfl, rfl, rfl, rfl⟩

/-- C25: in `extractConfig` of `server.js` and of `demo.js`, a credential supplied
under the underscore spelling (a non-empty header value, the other headers
carrying no spelling of that credential) yields the same `apiKey`,
`privateKey`, `rpcUrl`, `gaslessApiKey`, `chainId` and `defaultSlippage` as the
same value supplied under the hyphen spelling. -/
theorem extractConfig_underscore_spelling (henv : HeaderEnv) (rest : List (String × String))
    (param : String) (body : JSVal) (v : String) (hv : v ≠ "") :
    ((headerGet rest "x-api-key" = JSVal.undefined ∧ headerGet rest "x-apikey" = JSVal.undefined ∧
        headerGet rest "x-api_key" = JSVal.undefined) →
      (Server.extractConfig henv ⟨("x-api_key", v) :: rest, param, body⟩).apiKey =
        (Server.extractConfig henv ⟨("x-api-key", v) :: rest, param, body⟩).apiKey) ∧
    ((headerGet rest "x-api-key" = JSVal.undefined ∧ headerGet rest "x-apiKey" = JSVal.undefined ∧
        headerGet rest "x-api_key" = JSVal.undefined) →
      (Demo.extractConfig henv ⟨("x-api_key", v) :: rest, param, body⟩).apiKey =
        (Demo.extractConfig henv ⟨("x-api-key", v) :: rest, param, body⟩).apiKey) ∧
    ((headerGet rest "x-private-key" = JSVal.undefined ∧
        headerGet rest "x-private_key" = JSVal.undefined) →
      (Server.extractConfig henv ⟨("x-private_key", v) :: rest, param, body⟩).privateKey =
        (Server.extractConfig henv ⟨("x-private-key", v) :: rest, param, body⟩).privateKey ∧
      (Demo.extractConfig henv ⟨("x-private_key", v) :: rest, param, body⟩).privateKey =
        (Demo.extractConfig henv ⟨("x-private-key", v) :: rest, param, body⟩).privateKey) ∧
    ((headerGet rest "x-rpc-url" = JSVal.undefined ∧
        headerGet rest "x-rpc_url" = JSVal.undefined) →
      (Server.extractConfig henv ⟨("x-rpc_url", v) :: rest, param, body⟩).rpcUrl =
        (Server.extractConfig henv ⟨("x-rpc-url", v) :: rest, param, body⟩).rpcUrl ∧
      (Demo.extractConfig henv ⟨("x-rpc_url", v) :: rest, param, body⟩).rpcUrl =
        (Demo.extractConfig henv ⟨("x-rpc-url", v) :: rest, param, body⟩).rpcUrl) ∧
    ((headerGet rest "x-gasless-api-key" = JSVal.undefined ∧
        headerGet rest "x-gasless_api_key" = JSVal.undefined) →
      (Server.extractConfig henv ⟨("x-gasless_api_key", v) :: rest, param, body⟩).gaslessApiKey =
        (Server.extractConfig henv
          ⟨("x-gasless-api-key", v) :: rest, param, body⟩).gaslessApiKey ∧
      (Demo.extractConfig henv ⟨("x-gasless_api_key", v) :: rest, param, body⟩).gaslessApiKey =
        (Demo.extractConfig henv
          ⟨("x-gasless-api-key", v) :: rest, param, body⟩).gaslessApiKey) ∧
    ((headerGet rest "x-chain-id" = JSVal.undefined ∧
        headerGet rest "x-chain_id" = JSVal.undefined) →
      (Server.extractConfig henv ⟨("x-chain_id", v) :: rest, param, body⟩).chainId =
        (Server.extractConfig henv ⟨("x-chain-id", v) :: rest, param, body⟩).chainId ∧
      (Demo.extractConfig henv ⟨("x-chain_id", v) :: rest, param, body⟩).chainId =
        (Demo.extractConfig henv ⟨("x-chain-id", v) :: rest, param, body⟩).chainId) ∧
    ((headerGet rest "x-default-slippage" = JSVal.undefined ∧
        headerGet rest "x-default_slippage" = JSVal.undefined) →
      (Server.extractConfig henv
          ⟨("x-default_slippage", v) :: rest, param, body⟩).defaultSlippage =
        (Server.extractConfig henv
          ⟨("x-default-slippage", v) :: rest, param, body⟩).defaultSlippage ∧
      (Demo.extractConfig henv
          ⟨("x-default_slippage", v) :: rest, param, body⟩).defaultSlippage =
        (Demo.extractConfig henv
          ⟨("x-default-slippage", v) :: rest, param, body⟩).defaultSlippage) := by
  have ht : (JSVal.str v).truthy = true := by simp [JSVal.truthy, hv]
  have hu : ∀ b : JSVal, jsOr JSVal.undefined b = b := fun b => rfl
  have hs : ∀ b : JSVal, jsOr (JSVal.str v) b = JSVal.str v :=
    fun b => jsOr_of_truthy _ _ ht
  refine ⟨?_, ?_, ?_, ?_, ?_, ?_, ?_⟩
  · rintro ⟨h1, h2, h3⟩
    simp [Server.extractConfig, headerGet_cons_self, headerGet_cons_ne, h1, h2, h3, hu, hs]
  · rintro ⟨h1, h2, h3⟩
    simp [Demo.extractConfig, headerGet_cons_self, headerGet_cons_ne, h1, h2, h3, hu, hs]
  · rintro ⟨h1, h2⟩
    simp [Server.extractConfig, Demo.extractConfig, headerGet_cons_self, headerGet_cons_ne,
      h1, h2, hu, hs]
  · rintro ⟨h1, h2⟩
    simp [Server.extractConfig, Demo.extractConfig, headerGet_cons_self, headerGet_cons_ne,
      h1, h2, hu, hs]
  · rintro ⟨h1, h2⟩
    simp [Server.extractConfig, Demo.extractConfig, headerGet_cons_self, headerGet_cons_ne,
      h1, h2, hu, hs]
  · rintro ⟨h1, h2⟩
    simp [Server.extractConfig, Demo.extractConfig, headerGet_cons_self, headerGet_cons_ne,
      h1, h2, hu, hs]
  · rintro ⟨h1, h2⟩
    simp [Server.extractConfig, Demo.extractConfig, headerGet_cons_self, headerGet_cons_ne,
      h1, h2, hu, hs]

/-- An empty header value supplies no credential, and the two spellings then
leave different falsy values: under `x-private_key` the field `privateKey` is
the empty string, under `x-private-key` it is `undefined`. -/
theorem extractConfig_empty_value_differs :
    (Server.extractConfig sampleHeaderEnv
      ⟨[("x-private_key", "")], "transfer", JSVal.obj []⟩).privateKey = JSVal.str "" ∧
    (Server.extractConfig sampleHeaderEnv
      ⟨[("x-private-key", "")], "transfer", JSVal.obj []⟩).privateKey = JSVal.undefined ∧
    (Server.extractConfig sampleHeaderEnv
      ⟨[("x-private_key", "")], "transfer", JSVal.obj []⟩).privateKey ≠
    (Server.extractConfig sampleHeaderEnv
      ⟨[("x-private-key", "")], "transfer", JSVal.obj []⟩).privateKey := by
  refine ⟨rfl, rfl, ?_⟩
  intro h
  have h1 : (Server.extractConfig sampleHeaderEnv
      ⟨[("x-private_key", "")], "transfer", JSVal.obj []⟩).privateKey = JSVal.str "" := rfl
  have h2 : (Server.extractConfig sampleHeaderEnv
      ⟨[("x-private-key", "")], "transfer", JSVal.obj []⟩).privateKey = JSVal.undefined := rfl
  rw [h1, h2] at h
  cases h

theorem extractConfig_underscore_spelling_witness :
    (Server.extractConfig sampleHeaderEnv
      ⟨[("x-chain_id", "56")], "transfer", JSVal.obj []⟩).chainId = 56 ∧
    (Server.extractConfig sampleHeaderEnv
      ⟨[("x-chain-id", "56")], "transfer", JSVal.obj []⟩).chainId = 56 ∧
    (Demo.extractConfig sampleHeaderEnv
      ⟨[("x-api_key", "key")], "transfer", JSVal.obj []⟩).apiKey =
    (Demo.extractConfig sampleHeaderEnv
      ⟨[("x-api-key", "key")], "transfer", JSVal.obj []⟩).apiKey :=
  ⟨rfl, rfl,
   (extractConfig_underscore_spelling sampleHeaderEnv [] "transfer" (JSVal.obj []) "key"
     (by decide)).2.1 ⟨rfl, rfl, rfl⟩⟩

/-! ### The transfer normaliser of `demo.js` -/

/-- What a successful call of `processTransferParameters` of `demo.js` implies. -/
theorem demo_processTransferParameters_ok (args : JSVal) (chainId : Int)
    (r : JSVal) (h : Demo.processTransferParameters args chainId = .ok r) :
    ∃ recipient amountText tokenAddress,
      readProp args "to" = .ok (JSVal.str recipient) ∧
      isAddress (jsTrim recipient) = true ∧
      (objGet (spreadFields args) "amount").toStr = .ok amountText ∧
      (parseFloat amountText).isNaN = false ∧
      (parseFloat amountText).leZero = false ∧
      r = JSVal.obj [("amount", JSVal.str (parseFloat amountText).toString),
                     ("tokenAddress", tokenAddress),
                     ("destination", JSVal.str (jsTrim recipient))] := by
  unfold Demo.processTransferParameters at h
  split at h
  · cases h
  · cases hto : readProp args "to" with
    | error e => rw [hto] at h; cases h
    | ok to_ =>
      rw [hto] at h
      simp only at h
      split at h
      · cases h
      · cases to_ with
        | str recipient =>
          simp only at h
          cases ham : readProp args "amount" with
          | error e => rw [ham] at h; cases h
          | ok amount =>
            rw [ham] at h
            simp only at h
            split at h
            · cases h
            · split at h
              · cases h
              · rename_i haddr
                split at h
                · cases h
                · cases htext : (objGet (spreadFields args) "amount").toStr with
                  | error e => rw [htext] at h; cases h
                  | ok amountText =>
                    rw [htext] at h
                    simp only at h
                    split at h
                    · cases h
                    · rename_i hcheck
                      cases h
                      have hc : (parseFloat amountText).isNaN = false ∧
                          (parseFloat amountText).leZero = false := by
                        simpa using hcheck
                      exact ⟨recipient, amountText, _, rfl, by simpa using haddr,
                        rfl, hc.1, hc.2, rfl⟩
        | undefined => cases h
        | null => cases h
        | bool b => cases h
        | num n => cases h
        | number x => cases h
        | arr items => cases h
        | obj fields => cases h
        | builtin name => cases h

/-- C26: in `demo.js`, `processTransferParameters` succeeds only if `to` is a string
whose trimmed form has address shape and `parseFloat` of the text of `amount` is
a number (not `NaN`) greater than zero; the result then carries the trimmed `to`
as `destination` and the `toString()` of the parsed number as `amount`.  The
amounts `-5`, `0` and `abc` are rejected with `Invalid amount`, the amount `1`
yields `amount = "1"`, and `2.50` yields `2.5`. -/
theorem demo_processTransferParameters_only_if (args : JSVal) (chainId : Int) :
    (∀ r, Demo.processTransferParameters args chainId = .ok r →
      ∃ recipient amountText tokenAddress,
        readProp args "to" = .ok (JSVal.str recipient) ∧
        isAddress (jsTrim recipient) = true ∧
        (objGet (spreadFields args) "amount").toStr = .ok amountText ∧
        (parseFloat amountText).isNaN = false ∧
        (parseFloat amountText).leZero = false ∧
        r = JSVal.obj [("amount", JSVal.str (parseFloat amountText).toString),
                       ("tokenAddress", tokenAddress),
                       ("destination", JSVal.str (jsTrim recipient))]) ∧
    (∀ amountText ∈ ["-5", "0", "abc"],
      Demo.processTransferParameters
        (JSVal.obj [("to", JSVal.str sampleAddress), ("amount", JSVal.str amountText)])
        chainId =
        .error ("Invalid amount: " ++ amountText ++ ". Must be a positive number")) ∧
    Demo.processTransferParameters
        (JSVal.obj [("to", JSVal.str sampleAddress), ("amount", JSVal.str "1")]) chainId =
      .ok (JSVal.obj [("amount", JSVal.str "1"), ("tokenAddress", JSVal.str "eth"),
                      ("destination", JSVal.str sampleAddress)]) ∧
    Demo.processTransferParameters
        (JSVal.obj [("to", JSVal.str sampleAddress), ("amount", JSVal.str "2.50")]) chainId =
      .ok (JSVal.obj [("amount", JSVal.str "2.5"), ("tokenAddress", JSVal.str "eth"),
                      ("destination", JSVal.str sampleAddress)]) := by
  refine ⟨demo_processTransferParameters_ok args chainId, ?_, rfl, rfl⟩
  intro amountText hmem
  simp only [List.mem_cons, List.mem_singleton, List.not_mem_nil, or_false] at hmem
  rcases hmem with rfl | rfl | rfl <;> rfl

theorem demo_processTransferParameters_only_if_witness :
    ∃ recipient amountText tokenAddress,
      readProp (JSVal.obj [("to", JSVal.str sampleAddress), ("amount", JSVal.num 3)]) "to" =
        .ok (JSVal.str recipient) ∧
      isAddress (jsTrim recipient) = true ∧
      (objGet (spreadFields (JSVal.obj [("to", JSVal.str sampleAddress),
        ("amount", JSVal.num 3)])) "amount").toStr = .ok amountText ∧
      (parseFloat amountText).isNaN = false ∧
      (parseFloat amountText).leZero = false ∧
      JSVal.obj [("amount", JSVal.str "3"), ("tokenAddress", JSVal.str "eth"),
                 ("destination", JSVal.str sampleAddress)] =
        JSVal.obj [("amount", JSVal.str (parseFloat amountText).toString),
                   ("tokenAddress", tokenAddress),
                   ("destination", JSVal.str (jsTrim recipient))] :=
  (demo_processTransferParameters_only_if
    (JSVal.obj [("to", JSVal.str sampleAddress), ("amount", JSVal.num 3)]) 43114).1 _ rfl

/-- C27: in `demo.js` the transfer branch written inline in `executeTool` does not
agree with `processTransferParameters`.  For `to = "not-an-address"`,
`amount = "1"` the function rejects with `Invalid recipient address format`,
while the inline branch accepts and hands `destination = "not-an-address"` on to
the dispatch; in demo mode `executeTool` then completes with the mock result. -/
theorem demo_inline_transfer_disagrees (env : Demo.Env) :
    Demo.processTransferParameters malformedToArgs 43114 =
      .error ("Invalid recipient address format: not-an-address. " ++
        "Must be 42-character hex address starting with 0x.") ∧
    Demo.inlineTransferParameters malformedToArgs 43114 =
      .ok (JSVal.obj [("amount", JSVal.str "1"), ("tokenAddress", JSVal.str "eth"),
                      ("destination", JSVal.str "not-an-address")]) ∧
    Demo.tryBlock env "transferTokens" malformedToArgs sampleConfig =
      Demo.dispatch env "transferTokens"
        (JSVal.obj [("amount", JSVal.str "1"), ("tokenAddress", JSVal.str "eth"),
                    ("destination", JSVal.str "not-an-address")]) sampleConfig ∧
    Demo.executeTool demoSampleEnv "transferTokens" malformedToArgs sampleConfig =
      (.ok (JSVal.obj [("success", JSVal.bool true), ("data", JSVal.obj [])]),
       [Event.initializeAgentkit sampleConfig]) :=
  ⟨rfl, rfl, rfl, rfl⟩

/-! ### The expense gateway -/

theorem callSplitwiseAPI_fails (env : Expense.Env) (call : Expense.ApiCall)
    (ht : call.authToken.truthy = true)
    (hfail : ∀ c, ∃ error, env.request c = Expense.ApiResult.failure error) :
    ∃ error, Expense.callSplitwiseAPI env call = Expense.ApiResult.failure error := by
  obtain ⟨error, he⟩ := hfail call
  exact ⟨error, by simp [Expense.callSplitwiseAPI, ht, he]⟩

theorem autoDetect_fails (env : Expense.Env) (token groupId : JSVal)
    (ht : token.truthy = true)
    (hfail : ∀ c, ∃ error, env.request c = Expense.ApiResult.failure error) :
    ∃ calls, Expense.autoDetect env token groupId = (.ok groupId, calls) := by
  unfold Expense.autoDetect
  split
  · obtain ⟨error, he⟩ := callSplitwiseAPI_fails env
      { endpoint := "/get_groups", method := "GET", data := JSVal.null, authToken := token }
      ht hfail
    simp only [he]
    exact ⟨_, rfl⟩
  · exact ⟨_, rfl⟩

theorem jsOr_toStr (a b : JSVal) (ha : ∃ s, a.toStr = .ok s) (hb : ∃ s, b.toStr = .ok s) :
    ∃ s, (jsOr a b).toStr = .ok s := by
  unfold jsOr
  split <;> assumption

theorem mockExpensesAnswer_ok (env : Expense.Env) (limit : JSVal)
    (hl : ∃ s, limit.toStr = .ok s) :
    ∃ expenses, Expense.mockExpensesAnswer env limit = .ok (Expense.mockExpensesOf expenses) := by
  obtain ⟨s, hs⟩ := hl
  unfold Expense.mockExpensesAnswer Expense.sliceEnd
  cases limit <;> simp only [hs] <;> exact ⟨_, rfl⟩

theorem mockExpensesOf_shape (expenses : List Expense.MockExpense) :
    memberOf (Expense.mockExpensesOf expenses) "success" = JSVal.bool true ∧
    memberOf (memberOf (Expense.mockExpensesOf expenses) "data") "source" =
      JSVal.str "mock-data" := ⟨rfl, rfl⟩

theorem mockBalance_shape :
    memberOf Expense.mockBalance "success" = JSVal.bool true ∧
    memberOf (memberOf Expense.mockBalance "data") "source" = JSVal.str "mock-data" :=
  ⟨rfl, rfl⟩

theorem mockGroupsAnswer_shape :
    memberOf Expense.mockGroupsAnswer "success" = JSVal.bool true ∧
    memberOf (memberOf Expense.mockGroupsAnswer "data") "source" = JSVal.str "mock-data" :=
  ⟨rfl, rfl⟩

theorem handleGetSplitwiseBalance_fails (env : Expense.Env) (fields : List (String × JSVal))
    (config : Expense.Config)
    (ht : config.splitwiseToken.truthy = true)
    (hfail : ∀ c, ∃ error, env.request c = Expense.ApiResult.failure error)
    (hgroup : ∃ s, (jsOr (objGet fields "groupId") config.defaultGroupId).toStr = .ok s) :
    ∃ calls, Expense.handleGetSplitwiseBalance env (JSVal.obj fields) config =
      (.ok Expense.mockBalance, calls) ∧ calls ≠ [] := by
  obtain ⟨s, hs⟩ := hgroup
  obtain ⟨calls, hc⟩ := autoDetect_fails env config.splitwiseToken
    (jsOr (objGet fields "groupId") config.defaultGroupId) ht hfail
  obtain ⟨error, he⟩ := callSplitwiseAPI_fails env
    { endpoint := "/get_group/" ++ s, method := "GET", data := JSVal.null,
      authToken := config.splitwiseToken } ht hfail
  refine ⟨calls ++ [Expense.ApiCall.mk ("/get_group/" ++ s) "GET" JSVal.null
    config.splitwiseToken], ?_, by simp⟩
  simp only [Expense.handleGetSplitwiseBalance, readProp, hs, ht, if_true, hc, he]

theorem handleGetSplitwiseGroups_fails (env : Expense.Env) (params : JSVal)
    (config : Expense.Config)
    (ht : config.splitwiseToken.truthy = true)
    (hfail : ∀ c, ∃ error, env.request c = Expense.ApiResult.failure error) :
    ∃ calls, Expense.handleGetSplitwiseGroups env params config =
      (.ok Expense.mockGroupsAnswer, calls) ∧ calls ≠ [] := by
  obtain ⟨error, he⟩ := callSplitwiseAPI_fails env
    { endpoint := "/get_groups", method := "GET", data := JSVal.null,
      authToken := config.splitwiseToken } ht hfail
  refine ⟨[Expense.ApiCall.mk "/get_groups" "GET" JSVal.null config.splitwiseToken], ?_,
    by simp⟩
  simp only [Expense.handleGetSplitwiseGroups, ht, if_true, he]

theorem handleGetSplitwiseExpenses_fails (env : Expense.Env) (fields : List (String × JSVal))
    (config : Expense.Config)
    (ht : config.splitwiseToken.truthy = true)
    (hfail : ∀ c, ∃ error, env.request c = Expense.ApiResult.failure error)
    (hgroup : ∃ s, (jsOr (objGet fields "groupId") config.defaultGroupId).toStr = .ok s)
    (hlimit : ∃ s, (objGet fields "limit").toStr = .ok s) :
    ∃ calls, Expense.handleGetSplitwiseExpenses env (JSVal.obj fields) config =
      (Expense.mockExpensesAnswer env (Expense.limitOrDefault (JSVal.obj fields)), calls) ∧
      calls ≠ [] := by
  obtain ⟨s, hs⟩ := hgroup
  obtain ⟨calls, hc⟩ := autoDetect_fails env config.splitwiseToken
    (jsOr (objGet fields "groupId") config.defaultGroupId) ht hfail
  have hlim : ∃ t, (Expense.limitOrDefault (JSVal.obj fields)).toStr = .ok t := by
    obtain ⟨t, hlt⟩ := hlimit
    simp only [Expense.limitOrDefault, memberOf]
    split
    · exact ⟨_, rfl⟩
    · exact ⟨t, hlt⟩
  obtain ⟨t, hlt⟩ := hlim
  obtain ⟨error, he⟩ := callSplitwiseAPI_fails env
    { endpoint := "/get_expenses?group_id=" ++ s ++ "&limit=" ++ t, method := "GET",
      data := JSVal.null, authToken := config.splitwiseToken } ht hfail
  obtain ⟨error2, he2⟩ := callSplitwiseAPI_fails env
    { endpoint := "/get_groups", method := "GET", data := JSVal.null,
      authToken := config.splitwiseToken } ht hfail
  simp only [Expense.handleGetSplitwiseExpenses, readProp, hs, ht, if_true, hc, hlt, he, he2]
  split
  · exact ⟨_, rfl, by simp⟩
  · exact ⟨_, rfl, by simp⟩

theorem callToString_of_toStr (expr : String) (v : JSVal) (s : String)
    (ht : v.truthy = true) (hs : v.toStr = .ok s) : callToString expr v = .ok s := by
  cases v with
  | undefined => cases ht
  | null => cases ht
  | obj fields =>
    unfold JSVal.toStr at hs
    unfold callToString
    cases h : ownGet fields "toString" with
    | none => simpa [h] using hs
    | some w => rw [h] at hs; cases hs
  | bool b => exact hs
  | num n => exact hs
  | number x => exact hs
  | str t => exact hs
  | arr items => exact hs
  | builtin name => exact hs

theorem handleGetSplitwiseBalance_no_token (env : Expense.Env) (fields : List (String × JSVal))
    (config : Expense.Config) (htoken : config.splitwiseToken.truthy = false)
    (hgroup : ∃ s, (jsOr (objGet fields "groupId") config.defaultGroupId).toStr = .ok s) :
    Expense.handleGetSplitwiseBalance env (JSVal.obj fields) config =
      (.ok Expense.mockBalance, []) := by
  obtain ⟨s, hs⟩ := hgroup
  simp [Expense.handleGetSplitwiseBalance, readProp, hs, htoken]

theorem handleGetSplitwiseExpenses_no_token (env : Expense.Env) (fields : List (String × JSVal))
    (config : Expense.Config) (htoken : config.splitwiseToken.truthy = false)
    (hgroup : ∃ s, (jsOr (objGet fields "groupId") config.defaultGroupId).toStr = .ok s) :
    Expense.handleGetSplitwiseExpenses env (JSVal.obj fields) config =
      (Expense.mockExpensesAnswer env (Expense.limitOrDefault (JSVal.obj fields)), []) := by
  obtain ⟨s, hs⟩ := hgroup
  simp [Expense.handleGetSplitwiseExpenses, readProp, hs, htoken]

theorem handleGetSplitwiseGroups_no_token (env : Expense.Env) (params : JSVal)
    (config : Expense.Config) (htoken : config.splitwiseToken.truthy = false) :
    Expense.handleGetSplitwiseGroups env params config = (.ok Expense.mockGroupsAnswer, []) := by
  simp [Expense.handleGetSplitwiseGroups, htoken]

theorem handlePayFriendSplitwise_no_token (env : Expense.Env) (fields : List (String × JSVal))
    (config : Expense.Config) (htoken : config.splitwiseToken.truthy = false)
    (f : String) (hf : objGet fields "friendName" = JSVal.str f)
    (hft : (objGet fields "friendName").truthy = true)
    (hmember : (Expense.mockMemberNames.any
      (fun name => jsToLowerCase name == jsToLowerCase f)) = true)
    (hat : (objGet fields "amount").truthy = true)
    (has : ∃ s, (objGet fields "amount").toStr = .ok s) :
    ∃ r, Expense.handlePayFriendSplitwise env (JSVal.obj fields) config = (.ok r, []) ∧
      memberOf r "success" = JSVal.bool true ∧
      memberOf (memberOf r "data") "source" = JSVal.str "mock-data" := by
  obtain ⟨a, ha⟩ := has
  have hfs : (JSVal.str f).toStr = .ok f := rfl
  rw [hf] at hft
  simp only [Expense.handlePayFriendSplitwise, readProp, memberOf, hf, hft, hat, ha, hfs, htoken,
    Expense.mockPayment, Expense.mockFriendFound, callToLowerCase, hmember,
    Bool.not_true, Bool.or_self, Bool.false_eq_true, if_false]
  exact ⟨_, rfl, rfl, rfl⟩

theorem handleCreateSplitwiseExpense_no_token (env : Expense.Env)
    (fields : List (String × JSVal)) (config : Expense.Config)
    (htoken : config.splitwiseToken.truthy = false)
    (hdt : (objGet fields "description").truthy = true)
    (hds : ∃ s, (objGet fields "description").toStr = .ok s)
    (hat : (objGet fields "amount").truthy = true)
    (has : ∃ s, (objGet fields "amount").toStr = .ok s) :
    ∃ r, Expense.handleCreateSplitwiseExpense env (JSVal.obj fields) config = (.ok r, []) ∧
      memberOf r "success" = JSVal.bool true ∧
      memberOf (memberOf r "data") "source" = JSVal.str "mock-data" := by
  obtain ⟨a, ha⟩ := has
  obtain ⟨d, hd⟩ := hds
  have hc := callToString_of_toStr "amount" _ a hat ha
  simp only [Expense.handleCreateSplitwiseExpense, readProp, memberOf, hdt, hat, ha, hd, hc, htoken,
    Bool.not_true, Bool.or_self, Bool.false_eq_true, if_false]
  exact ⟨_, rfl, rfl, rfl⟩

theorem protoGet_toStr (key : String) : ∃ s, (protoGet key).toStr = .ok s := by
  unfold protoGet
  split
  · exact ⟨_, rfl⟩
  · split
    · exact ⟨_, rfl⟩
    · split
      · simp only [JSVal.toStr]
        split <;> exact ⟨_, rfl⟩
      · exact ⟨_, rfl⟩

theorem knownFriendFields_text (key : String) :
    ∃ s, (objGet knownFriendFields key).toStr = .ok s := by
  by_cases h1 : key = "friendName"
  · exact ⟨"sandeep", by rw [h1]; rfl⟩
  · by_cases h2 : key = "amount"
    · exact ⟨"100", by rw [h2]; rfl⟩
    · have hown : ownGet knownFriendFields key = none := by
        simp [knownFriendFields, ownGet, Ne.symm h1, Ne.symm h2]
      simp only [objGet, hown]
      exact protoGet_toStr key


theorem limitOrDefault_toStr (fields : List (String × JSVal))
    (hlimit : ∃ s, (objGet fields "limit").toStr = .ok s) :
    ∃ t, (Expense.limitOrDefault (JSVal.obj fields)).toStr = .ok t := by
  obtain ⟨t, hlt⟩ := hlimit
  simp only [Expense.limitOrDefault, memberOf]
  split
  · exact ⟨_, rfl⟩
  · exact ⟨t, hlt⟩

theorem handleCreateSplitwiseExpense_fails (env : Expense.Env)
    (fields : List (String × JSVal)) (config : Expense.Config)
    (ht : config.splitwiseToken.truthy = true)
    (hfail : ∀ c, ∃ error, env.request c = Expense.ApiResult.failure error)
    (hgroup : ∃ s, (jsOr (objGet fields "groupId") config.defaultGroupId).toStr = .ok s)
    (hdt : (objGet fields "description").truthy = true)
    (hds : ∃ s, (objGet fields "description").toStr = .ok s)
    (hat : (objGet fields "amount").truthy = true)
    (has : ∃ s, (objGet fields "amount").toStr = .ok s) :
    ∃ call error r,
      call.endpoint = "/create_expense" ∧
      env.request call = Expense.ApiResult.failure error ∧
      (Expense.handleCreateSplitwiseExpense env (JSVal.obj fields) config).1 = .ok r ∧
      memberOf r "success" = JSVal.bool false ∧
      memberOf (memberOf r "error") "message" =
        jsOr (if error.truthy then memberOf error "message" else JSVal.undefined)
          (JSVal.str "Failed to create expense in Splitwise") ∧
      memberOf (memberOf r "error") "code" =
        jsOr (if error.truthy then memberOf error "code" else JSVal.undefined)
          (JSVal.num 500) := by
  obtain ⟨g, hg⟩ := hgroup
  obtain ⟨a, ha⟩ := has
  obtain ⟨d, hd⟩ := hds
  have hc := callToString_of_toStr "amount" _ a hat ha
  obtain ⟨calls, hauto⟩ := autoDetect_fails env config.splitwiseToken
    (jsOr (objGet fields "groupId") config.defaultGroupId) ht hfail
  obtain ⟨error, he⟩ := hfail
    (Expense.ApiCall.mk "/create_expense" "POST"
      (JSVal.obj
        [("group_id", env.parseInt (jsOr (objGet fields "groupId") config.defaultGroupId)),
         ("description", objGet fields "description"), ("cost", JSVal.str a),
         ("currency_code", jsOr config.defaultCurrency (JSVal.str "INR")),
         ("split_equally", JSVal.bool true)])
      config.splitwiseToken)
  have hres : (Expense.handleCreateSplitwiseExpense env (JSVal.obj fields) config).1 =
      .ok (JSVal.obj
        [("success", JSVal.bool false),
         ("error", JSVal.obj
           [("message",
              jsOr (if error.truthy then memberOf error "message" else JSVal.undefined)
                (JSVal.str "Failed to create expense in Splitwise")),
            ("code",
              jsOr (if error.truthy then memberOf error "code" else JSVal.undefined)
                (JSVal.num 500)),
            ("details",
              if error.truthy then memberOf error "originalError"
              else JSVal.undefined)])]) := by
    simp only [Expense.handleCreateSplitwiseExpense, readProp, memberOf, hdt, hat, ha, hd, hc,
      ht, hauto, hg, Expense.callSplitwiseAPI, he,
      Bool.not_true, Bool.or_self, Bool.false_eq_true, if_false, if_true]
  exact ⟨_, error, _, rfl, he, hres, rfl, rfl, rfl⟩

/-- C23, as stated, fails: with the token `expired-token` and Splitwise answering
401 to every request, `handleGetSplitwiseBalance`, `handleGetSplitwiseExpenses`
and `handleGetSplitwiseGroups` answer `success: true` with the canned data of
the mock group, tagged `source: "mock-data"`. -/
theorem expense_readers_hide_failure :
    (Expense.handleGetSplitwiseBalance unauthorizedEnv (JSVal.obj []) expiredTokenConfig).1 =
      .ok Expense.mockBalance ∧
    (Expense.handleGetSplitwiseExpenses unauthorizedEnv (JSVal.obj []) expiredTokenConfig).1 =
      .ok (Expense.mockExpensesOf Expense.mockExpenses) ∧
    (Expense.handleGetSplitwiseGroups unauthorizedEnv (JSVal.obj []) expiredTokenConfig).1 =
      .ok Expense.mockGroupsAnswer ∧
    memberOf Expense.mockBalance "success" = JSVal.bool true ∧
    memberOf (Expense.mockExpensesOf Expense.mockExpenses) "success" = JSVal.bool true ∧
    memberOf Expense.mockGroupsAnswer "success" = JSVal.bool true ∧
    ((Expense.handleGetSplitwiseBalance unauthorizedEnv (JSVal.obj []) expiredTokenConfig).2.map
      (fun call => call.endpoint)) = ["/get_groups", "/get_group/12345"] :=
  ⟨rfl, rfl, rfl, rfl, rfl, rfl, rfl⟩

/-- C23, amended: when the token is present (a non-empty string, as a header
gives it) and every Splitwise request fails, each of `handleGetSplitwiseBalance`, `handleGetSplitwiseExpenses` and
`handleGetSplitwiseGroups`, called with a JSON object whose group id and limit
have string forms, sends at least one request and then gives the answer that
it gives without token, sending nothing: `success: true` with the data of the
mock group, tagged `source: "mock-data"`.  The failure is logged, not
returned.  `handleCreateSplitwiseExpense`, called with a truthy `description`
and `amount`, does return the failure: `success: false` with the message and
the code of the failed `/create_expense` request. -/
theorem expense_readers_fall_back_to_mock (env : Expense.Env) (fields : List (String × JSVal))
    (config : Expense.Config) (token : String)
    (htoken : config.splitwiseToken = JSVal.str token) (hpresent : token ≠ "")
    (hfail : ∀ c, ∃ error, env.request c = Expense.ApiResult.failure error)
    (hgroup : ∃ s, (jsOr (objGet fields "groupId") config.defaultGroupId).toStr = .ok s)
    (hlimit : ∃ s, (objGet fields "limit").toStr = .ok s) :
    (∀ handler ∈ [Expense.handleGetSplitwiseBalance, Expense.handleGetSplitwiseExpenses,
        Expense.handleGetSplitwiseGroups],
      ∃ r, (handler env (JSVal.obj fields) config).1 = .ok r ∧
        (handler env (JSVal.obj fields) config).2 ≠ [] ∧
        handler env (JSVal.obj fields) { config with splitwiseToken := JSVal.undefined } =
          (.ok r, []) ∧
        memberOf r "success" = JSVal.bool true ∧
        memberOf (memberOf r "data") "source" = JSVal.str "mock-data") ∧
    ((objGet fields "description").truthy = true →
      (objGet fields "amount").truthy = true →
      (∃ s, (objGet fields "description").toStr = .ok s) →
      (∃ s, (objGet fields "amount").toStr = .ok s) →
      ∃ call error r,
        call.endpoint = "/create_expense" ∧
        env.request call = Expense.ApiResult.failure error ∧
        (Expense.handleCreateSplitwiseExpense env (JSVal.obj fields) config).1 = .ok r ∧
        memberOf r "success" = JSVal.bool false ∧
        memberOf (memberOf r "error") "message" =
          jsOr (if error.truthy then memberOf error "message" else JSVal.undefined)
            (JSVal.str "Failed to create expense in Splitwise") ∧
        memberOf (memberOf r "error") "code" =
          jsOr (if error.truthy then memberOf error "code" else JSVal.undefined)
            (JSVal.num 500)) := by
  have ht : config.splitwiseToken.truthy = true := by
    rw [htoken]
    simp [JSVal.truthy, hpresent]
  constructor
  · intro handler hmem
    simp only [List.mem_cons, List.mem_singleton, List.not_mem_nil, or_false] at hmem
    rcases hmem with rfl | rfl | rfl
    · obtain ⟨calls, h, hne⟩ :=
        handleGetSplitwiseBalance_fails env fields config ht hfail hgroup
      have h0 := handleGetSplitwiseBalance_no_token env fields
        { config with splitwiseToken := JSVal.undefined } rfl hgroup
      rw [h]
      exact ⟨_, rfl, hne, h0, rfl, rfl⟩
    · obtain ⟨calls, h, hne⟩ :=
        handleGetSplitwiseExpenses_fails env fields config ht hfail hgroup hlimit
      have h0 := handleGetSplitwiseExpenses_no_token env fields
        { config with splitwiseToken := JSVal.undefined } rfl hgroup
      obtain ⟨expenses, hm⟩ := mockExpensesAnswer_ok env _ (limitOrDefault_toStr fields hlimit)
      rw [h, hm]
      rw [hm] at h0
      exact ⟨_, rfl, hne, h0, rfl, rfl⟩
    · obtain ⟨calls, h, hne⟩ :=
        handleGetSplitwiseGroups_fails env (JSVal.obj fields) config ht hfail
      have h0 := handleGetSplitwiseGroups_no_token env (JSVal.obj fields)
        { config with splitwiseToken := JSVal.undefined } rfl
      rw [h]
      exact ⟨_, rfl, hne, h0, rfl, rfl⟩
  · intro hdt hat hds has
    exact handleCreateSplitwiseExpense_fails env fields config ht hfail hgroup hdt hds hat has

theorem expense_readers_fall_back_to_mock_witness :
    expiredTokenConfig.splitwiseToken = JSVal.str "expired-token" ∧
    ∃ r, (Expense.handleGetSplitwiseExpenses unauthorizedEnv (JSVal.obj []) expiredTokenConfig).1 =
        .ok r ∧
      (Expense.handleGetSplitwiseExpenses unauthorizedEnv (JSVal.obj []) expiredTokenConfig).2
        ≠ [] ∧
      Expense.handleGetSplitwiseExpenses unauthorizedEnv (JSVal.obj [])
        { expiredTokenConfig with splitwiseToken := JSVal.undefined } = (.ok r, []) ∧
      memberOf r "success" = JSVal.bool true ∧
      memberOf (memberOf r "data") "source" = JSVal.str "mock-data" :=
  ⟨rfl, (expense_readers_fall_back_to_mock unauthorizedEnv [] expiredTokenConfig
    "expired-token" rfl (by decide)
    (fun _ => ⟨_, rfl⟩) ⟨_, rfl⟩ ⟨_, rfl⟩).1 Expense.handleGetSplitwiseExpenses
    (List.mem_cons_of_mem _ (List.mem_cons_self _ _))⟩

/-- C24, as stated, fails: without token `getSplitwiseGroups` tags its data
`source: "mock-data"`, not `"demo"`, and `payFriendSplitwise` called with both
required parameters answers `success: false` with code 404 when the friend is
not a member of the mock group. -/
theorem expense_no_token_tag_and_unknown_friend :
    Expense.runTool unauthorizedEnv "getSplitwiseGroups" (JSVal.obj []) noTokenConfig =
      (.ok Expense.mockGroupsAnswer, []) ∧
    memberOf (memberOf Expense.mockGroupsAnswer "data") "source" = JSVal.str "mock-data" ∧
    (memberOf (memberOf Expense.mockGroupsAnswer "data") "source").isStr "demo" = false ∧
    (∀ key ∈ Expense.required "payFriendSplitwise",
      (memberOf unknownFriendParams key).truthy = true) ∧
    Expense.runTool unauthorizedEnv "payFriendSplitwise" unknownFriendParams noTokenConfig =
      (.ok (Expense.failureAnswer "Amit not found. Available: Rahul, Sandeep, Priya" 404), []) :=
  ⟨rfl, rfl, rfl, by decide, rfl⟩

theorem handlePayFriendSplitwise_unknown_friend (env : Expense.Env)
    (fields : List (String × JSVal)) (config : Expense.Config)
    (htoken : config.splitwiseToken.truthy = false)
    (f : String) (hf : objGet fields "friendName" = JSVal.str f) (hne : f ≠ "")
    (hother : (Expense.mockMemberNames.any
      (fun name => jsToLowerCase name == jsToLowerCase f)) = false)
    (hat : (objGet fields "amount").truthy = true)
    (has : ∃ s, (objGet fields "amount").toStr = .ok s) :
    Expense.handlePayFriendSplitwise env (JSVal.obj fields) config =
      (.ok (Expense.failureAnswer (f ++ " not found. Available: " ++ "Rahul, Sandeep, Priya") 404),
       []) := by
  obtain ⟨a, ha⟩ := has
  have hfs : (JSVal.str f).toStr = .ok f := rfl
  have hft : (JSVal.str f).truthy = true := by simp [JSVal.truthy, hne]
  simp only [Expense.handlePayFriendSplitwise, readProp, memberOf, hf, hft, hat, ha, hfs, htoken,
    Expense.mockPayment, Expense.mockFriendFound, callToLowerCase, hother,
    Bool.not_true, Bool.or_self, Bool.false_eq_true, if_false]
  rfl

theorem handlePayFriendSplitwise_non_string (env : Expense.Env)
    (fields : List (String × JSVal)) (config : Expense.Config)
    (htoken : config.splitwiseToken.truthy = false)
    (hft : (objGet fields "friendName").truthy = true)
    (hns : ∀ f, objGet fields "friendName" ≠ JSVal.str f)
    (hfs : ∃ s, (objGet fields "friendName").toStr = .ok s)
    (hat : (objGet fields "amount").truthy = true)
    (has : ∃ s, (objGet fields "amount").toStr = .ok s) :
    Expense.handlePayFriendSplitwise env (JSVal.obj fields) config =
      (.error "friendName.toLowerCase is not a function", []) := by
  obtain ⟨a, ha⟩ := has
  obtain ⟨t, ht⟩ := hfs
  have hlow : callToLowerCase "friendName" (objGet fields "friendName") =
      .error "friendName.toLowerCase is not a function" := by
    cases hv : objGet fields "friendName" with
    | str f => exact absurd hv (hns f)
    | undefined => rw [hv] at hft; cases hft
    | null => rw [hv] at hft; cases hft
    | _ => rfl
  simp only [Expense.handlePayFriendSplitwise, readProp, memberOf, hft, hat, ha, ht, htoken,
    Expense.mockPayment, Expense.mockFriendFound, hlow,
    Bool.not_true, Bool.or_self, Bool.false_eq_true, if_false]

/-- C24, amended: without token, every tool of `bhindiTools` called with a JSON
object whose parameters have string forms answers from the mock data and sends
no Splitwise request.  When the parameters of its `required` list are truthy
and, for `payFriendSplitwise`, the friend is a string naming a member of the
mock group (in any letter case), the answer is `success: true` with data
tagged `source: "mock-data"`.  For `payFriendSplitwise` with a string that names
no member the answer is `success: false` with code 404, and with a truthy
friend that is not a string the handler throws. -/
theorem expense_tools_answer_mock_without_token (env : Expense.Env)
    (fields : List (String × JSVal)) (config : Expense.Config)
    (htoken : config.splitwiseToken.truthy = false)
    (htext : ∀ key, ∃ s, (objGet fields key).toStr = .ok s)
    (hdefault : ∃ s, config.defaultGroupId.toStr = .ok s) :
    (∀ toolName ∈ Expense.toolNames,
      (∀ key ∈ Expense.required toolName, (objGet fields key).truthy = true) →
      (toolName = "payFriendSplitwise" →
        ∃ f, objGet fields "friendName" = JSVal.str f ∧
          (Expense.mockMemberNames.any
            (fun name => jsToLowerCase name == jsToLowerCase f)) = true) →
      ∃ r, Expense.runTool env toolName (JSVal.obj fields) config = (.ok r, []) ∧
        memberOf r "success" = JSVal.bool true ∧
        memberOf (memberOf r "data") "source" = JSVal.str "mock-data") ∧
    (∀ f, objGet fields "friendName" = JSVal.str f → f ≠ "" →
      (objGet fields "amount").truthy = true →
      (Expense.mockMemberNames.any
        (fun name => jsToLowerCase name == jsToLowerCase f)) = false →
      Expense.runTool env "payFriendSplitwise" (JSVal.obj fields) config =
        (.ok (Expense.failureAnswer
          (f ++ " not found. Available: " ++ "Rahul, Sandeep, Priya") 404), [])) ∧
    ((objGet fields "friendName").truthy = true →
      (∀ f, objGet fields "friendName" ≠ JSVal.str f) →
      (objGet fields "amount").truthy = true →
      Expense.runTool env "payFriendSplitwise" (JSVal.obj fields) config =
        (.error "friendName.toLowerCase is not a function", [])) := by
  have hgroup := jsOr_toStr (objGet fields "groupId") config.defaultGroupId
    (htext "groupId") hdefault
  refine ⟨?_, ?_, ?_⟩
  · intro toolName hname hreq hfriend
    have hexp : ∃ r, Expense.handleGetSplitwiseExpenses env (JSVal.obj fields) config =
        (.ok r, []) ∧ memberOf r "success" = JSVal.bool true ∧
        memberOf (memberOf r "data") "source" = JSVal.str "mock-data" := by
      have h := handleGetSplitwiseExpenses_no_token env fields config htoken hgroup
      obtain ⟨expenses, hm⟩ :=
        mockExpensesAnswer_ok env _ (limitOrDefault_toStr fields (htext "limit"))
      rw [hm] at h
      exact ⟨_, h, rfl, rfl⟩
    simp only [Expense.toolNames, List.mem_cons, List.mem_singleton, List.not_mem_nil,
      or_false] at hname
    rcases hname with rfl | rfl | rfl | rfl | rfl | rfl | rfl | rfl
    · refine ⟨Expense.mockBalance, ?_, rfl, rfl⟩
      simp only [Expense.runTool, if_true]
      exact handleGetSplitwiseBalance_no_token env fields config htoken hgroup
    · simpa [Expense.runTool] using hexp
    · simpa [Expense.runTool] using hexp
    · simpa [Expense.runTool] using hexp
    · simpa [Expense.runTool] using hexp
    · refine ⟨Expense.mockGroupsAnswer, ?_, rfl, rfl⟩
      simp only [Expense.runTool, String.reduceEq, if_false, if_true, or_false, or_self]
      exact handleGetSplitwiseGroups_no_token env _ config htoken
    · obtain ⟨f, hf, hmember⟩ := hfriend rfl
      have h := handlePayFriendSplitwise_no_token env fields config htoken f hf
        (hreq "friendName" (by decide)) hmember (hreq "amount" (by decide)) (htext "amount")
      simpa [Expense.runTool] using h
    · have h := handleCreateSplitwiseExpense_no_token env fields config htoken
        (hreq "description" (by decide)) (htext "description") (hreq "amount" (by decide))
        (htext "amount")
      simpa [Expense.runTool] using h
  · intro f hf hne hat hother
    have h := handlePayFriendSplitwise_unknown_friend env fields config htoken f hf hne hother
      hat (htext "amount")
    simpa [Expense.runTool] using h
  · intro hft hns hat
    have h := handlePayFriendSplitwise_non_string env fields config htoken hft hns
      (htext "friendName") hat (htext "amount")
    simpa [Expense.runTool] using h

theorem expense_tools_answer_mock_without_token_witness :
    noTokenConfig.splitwiseToken.truthy = false ∧
    ∃ r, Expense.runTool unauthorizedEnv "payFriendSplitwise" (JSVal.obj knownFriendFields)
        noTokenConfig = (.ok r, []) ∧
      memberOf r "success" = JSVal.bool true ∧
      memberOf (memberOf r "data") "source" = JSVal.str "mock-data" :=
  ⟨rfl,
   (expense_tools_answer_mock_without_token unauthorizedEnv knownFriendFields noTokenConfig rfl
      knownFriendFields_text ⟨_, rfl⟩).1 "payFriendSplitwise" (by decide) (by decide)
      (fun _ => ⟨"sandeep", rfl, by decide⟩)⟩

end Gasless
